import Mathlib

/-! Integral curves over triangle and tetrahedral meshes (cinolib, integral_curve.cpp).

A shallow embedding of the tracer of `src/integral_curve.cpp`.

* Coordinates and scalar samples are rationals: every finite `double`/`float` is one, and
  the comparisons of the source (`>`, `>=`, `==`) are exact on them.  Rounding inside the
  arithmetic is not modelled; the statements below are about the control flow of the
  tracer and hold whatever the values of the arithmetic are.
* The routines of the library that the tracer calls but that are not part of the file
  (`normalize`, `angle_rad`, `length`, `triangle_law_of_sines`,
  `ray_triangle_intersection`, the tables `TRI_EDGES` and `TET_FACES`) are taken as a
  parameter, the structure `Lib`.
* The mesh and the vector field are external collaborators: they are parameters too
  (`Trimesh`, `Tetmesh`, `VectorField`), records of total query functions over `Int` ids.
* `assert` is modelled as a fault (`Except Fault`), the `do ... while` loop of `make_curve`
  by a fuel-indexed recursion.
* The law-of-sines construction of the surface step is read a second time over the reals
  (namespace `Exact`), with the library routines as the exact geometric quantities.
-/

namespace cinolib

/-! ## Data model -/

/-- Three rational coordinates, the reading of `vec3d`. -/
structure vec3d where
  x : ℚ
  y : ℚ
  z : ℚ
deriving DecidableEq, Repr

namespace vec3d

/-- The origin. -/
def zero : vec3d := ⟨0, 0, 0⟩

/-- Componentwise difference, `a - b`. -/
def sub (a b : vec3d) : vec3d := ⟨a.x - b.x, a.y - b.y, a.z - b.z⟩

/-- Componentwise sum, `a + b`. -/
def add (a b : vec3d) : vec3d := ⟨a.x + b.x, a.y + b.y, a.z + b.z⟩

/-- Unary minus, `-a`. -/
def neg (a : vec3d) : vec3d := ⟨-a.x, -a.y, -a.z⟩

/-- Scaling, `k * a`. -/
def smul (k : ℚ) (a : vec3d) : vec3d := ⟨k * a.x, k * a.y, k * a.z⟩

/-- Dot product, `a.dot(b)`. -/
def dot (a b : vec3d) : ℚ := a.x * b.x + a.y * b.y + a.z * b.z

/-- Cross product, `a.cross(b)`. -/
def cross (a b : vec3d) : vec3d :=
  ⟨a.y * b.z - a.z * b.y, a.z * b.x - a.x * b.z, a.x * b.y - a.y * b.x⟩

end vec3d

/-- Library routines and tables used by the tracer whose code is not in the file. -/
structure Lib where
  /-- Result of `v.normalize()`. -/
  normalize : vec3d → vec3d
  /-- Value of `u.angle_rad(v)`. -/
  angle_rad : vec3d → vec3d → ℚ
  /-- Value of `v.length()`. -/
  length : vec3d → ℚ
  /-- Value of `triangle_law_of_sines(angle_0, angle_1, length_0)`, the length of the side
  opposite `angle_1` in a triangle whose side opposite `angle_0` has length `length_0`. -/
  triangle_law_of_sines : ℚ → ℚ → ℚ → ℚ
  /-- With arguments `P dir V0 V1 V2`: `some inters` when
  `intersection::ray_triangle_intersection` returns true, `none` otherwise. -/
  ray_triangle_intersection : vec3d → vec3d → vec3d → vec3d → vec3d → Option vec3d
  /-- Table `TRI_EDGES[edge][k]`: local vertex indices of the endpoints of a local edge. -/
  TRI_EDGES : Int → Int → Int
  /-- Table `TET_FACES[facet][k]`: local vertex indices of the corners of a local facet. -/
  TET_FACES : Int → Int → Int

/-- Per-element direction of the field, `grad_ptr->vec_at(elem)`. -/
structure VectorField where
  vec_at : Int → vec3d

/-- Queries of the triangle mesh used by the tracer. -/
structure Trimesh where
  vertex : Int → vec3d
  triangle_vertex_id : Int → Int → Int
  triangle_normal : Int → vec3d
  triangle_adjacent_along : Int → Int → Int → Int
  adj_vtx2tri : Int → List Int
  vertex_is_local_maxima : Int → Bool
  triangle_min_u_text : Int → ℚ
  triangle_contains_vertex : Int → Int → Bool

/-- Modelled from the spec: `Trimesh::triangle_vertex` is not in the file; by §6 the mesh
gives the vertex position by id and the element's vertex ids in a fixed local order, so
the position of the local vertex `offset` of `tid` is the position of its id. -/
def Trimesh.triangle_vertex (m : Trimesh) (tid offset : Int) : vec3d :=
  m.vertex (m.triangle_vertex_id tid offset)

/-- Queries of the tetrahedral mesh used by the tracer. -/
structure Tetmesh where
  vertex : Int → vec3d
  tet_vertex_id : Int → Int → Int
  adjacent_tet_through_facet : Int → Int → Int
  adj_vtx2tet : Int → List Int
  vertex_is_local_maxima : Int → Bool
  tet_min_u_text : Int → ℚ
  tet_contains_vertex : Int → Int → Bool

/-- Modelled from the spec: `Tetmesh::tet_vertex` is not in the file; by §6 it is the
position of the vertex whose id sits at local index `offset` of `tid`. -/
def Tetmesh.tet_vertex (m : Tetmesh) (tid offset : Int) : vec3d :=
  m.vertex (m.tet_vertex_id tid offset)

/-- A sample of the curve. `elem_id = -1` is the Boundary sentinel, `gate_id = -1` and
`vert_id = -1` mean None. -/
structure CurveSample where
  pos : vec3d
  elem_id : Int
  gate_id : Int
  vert_id : Int
deriving DecidableEq, Repr

/-- Modelled from the spec: the declaration of `CurveSample` (integral_curve.h) is not in
the file; by §3 and §4.7 a field that is not assigned is None / Boundary, that is `-1`,
and the position starts at the origin. This is the state after `CurveSample cs;`. -/
def CurveSample.fresh : CurveSample :=
  { pos := vec3d.zero, elem_id := -1, gate_id := -1, vert_id := -1 }

/-- Modelled from the spec: the enumeration of the criteria (integral_curve.h) is not in
the file; §3 lists the tags in this order. -/
def STOP_AT_LOCAL_MAX : Int := 0

/-- Modelled from the spec: second tag of the enumeration of §3, `GIVEN_VALUE`. -/
def STOP_AT_GIVEN_VAL : Int := 1

/-- Modelled from the spec: third tag of the enumeration of §3, `GIVEN_VERTEX`. -/
def STOP_AT_GIVEN_VTX : Int := 2

/-- The options `opt` of a tracer. -/
structure Options where
  source_tid : Int
  source_vid : Int
  source_pos : vec3d
  convergence_criterion : Int
  stop_at_this_value : ℚ
  stop_at_this_vertex : Int
deriving DecidableEq, Repr

/-- The ways a trace aborts. -/
inductive Fault where
  /-- `assert(exit_facet != -1)` in the volumetric `find_exit_gate`. -/
  | no_exit_gate
  /-- `assert(next_sample.elem_id != -1)` and `assert(new_next_elem != -1)`. -/
  | no_next_element
  /-- `assert(m_ptr->tet_contains_vertex(next_sample.elem_id, next_sample.vert_id))`. -/
  | vertex_not_in_element
  /-- `assert("Integral Curve Convergence Error" && false)`. -/
  | convergence_error
  /-- The loop of `make_curve` was cut by the model's step bound. -/
  | out_of_fuel
deriving DecidableEq, Repr

deriving instance DecidableEq for Except

/-- The last sample, `curve.back()`. -/
def back (curve : List CurveSample) : CurveSample :=
  curve.getLastD CurveSample.fresh

/-- First element of a `std::set< std::pair<double,int> >` holding the given pairs: the
least pair in the lexicographic order (smaller angle, then smaller index). -/
def set_begin (first : ℚ × Int) (rest : List (ℚ × Int)) : ℚ × Int :=
  rest.foldl
    (fun best p => if p.1 < best.1 ∨ (p.1 = best.1 ∧ p.2 < best.2) then p else best) first

/-- The outcome of the loop of `make_curve`: the curve and the three flags at the stop. -/
structure LoopEnd where
  curve : List CurveSample
  border_reached : Bool
  locmax_reached : Bool
  target_reached : Bool
deriving DecidableEq, Repr

/-! ## Surface variant (`IntegralCurve<Trimesh>`) -/

namespace Tri

/-- `IntegralCurve<Trimesh>::find_exit_gate`. -/
def find_exit_gate (lib : Lib) (m : Trimesh) (curr_sample : CurveSample)
    (target_dir : vec3d) : Int :=
  let uvw : Int → vec3d := fun i =>
    (m.triangle_vertex curr_sample.elem_id i).sub curr_sample.pos
  let vert := (set_begin (lib.angle_rad target_dir (uvw 0), 0)
    [(lib.angle_rad target_dir (uvw 1), 1), (lib.angle_rad target_dir (uvw 2), 2)]).2
  let tn := m.triangle_normal curr_sample.elem_id
  let cross := target_dir.cross (uvw vert)
  if cross.dot tn ≥ 0 then (vert + 2) % 3 else vert

/-- `IntegralCurve<Trimesh>::gradient_skins_into`. -/
def gradient_skins_into (lib : Lib) (m : Trimesh) (grad : VectorField)
    (curr_sample next_sample : CurveSample) : Bool :=
  let next_target_dir := lib.normalize (grad.vec_at next_sample.elem_id)
  let next_exit_edge := find_exit_gate lib m next_sample next_target_dir
  let next_vidA := m.triangle_vertex_id next_sample.elem_id (lib.TRI_EDGES next_exit_edge 0)
  let next_vidB := m.triangle_vertex_id next_sample.elem_id (lib.TRI_EDGES next_exit_edge 1)
  let next_next_tid := m.triangle_adjacent_along next_sample.elem_id next_vidA next_vidB
  if next_next_tid = curr_sample.elem_id then true else false

/-- `IntegralCurve<Trimesh>::traverse_element`. -/
def traverse_element (lib : Lib) (m : Trimesh) (grad : VectorField)
    (curr_sample : CurveSample) : Except Fault CurveSample :=
  let target_dir := lib.normalize (grad.vec_at curr_sample.elem_id)
  let exit_edge := find_exit_gate lib m curr_sample target_dir
  let vidA := m.triangle_vertex_id curr_sample.elem_id (lib.TRI_EDGES exit_edge 0)
  let vidB := m.triangle_vertex_id curr_sample.elem_id (lib.TRI_EDGES exit_edge 1)
  let A := m.vertex vidA
  let B := m.vertex vidB
  let V0 := curr_sample.pos
  let V1 := A
  let e0_dir := lib.normalize (B.sub A)
  let e1_dir := target_dir.neg
  let e2_dir := lib.normalize (V1.sub V0)
  let V0_ang := lib.angle_rad e2_dir e1_dir.neg
  let V2_ang := lib.angle_rad e1_dir e0_dir.neg
  let e2_len := lib.length (V1.sub V0)
  let e0_len := lib.triangle_law_of_sines V2_ang V0_ang e2_len
  let next_pos := V1.add (vec3d.smul e0_len e0_dir)
  let next_tid := m.triangle_adjacent_along curr_sample.elem_id vidA vidB
  let next_sample : CurveSample :=
    { CurveSample.fresh with pos := next_pos, elem_id := next_tid, gate_id := exit_edge }
  if gradient_skins_into lib m grad curr_sample next_sample then
    let vert_id := if (B.sub A).dot target_dir > 0 then vidB else vidA
    let elem_id := (m.adj_vtx2tri vert_id).foldl
      (fun e tid => if tid ≠ next_tid ∧ tid ≠ curr_sample.elem_id then tid else e) (-1)
    if elem_id ≠ -1 then
      .ok { next_sample with vert_id := vert_id, pos := m.vertex vert_id, gate_id := -1,
                             elem_id := elem_id }
    else .error Fault.no_next_element
  else .ok next_sample

/-- `IntegralCurve<Trimesh>::is_converged`. -/
def is_converged (m : Trimesh) (opt : Options) (curr_tid convergence_criterion : Int) :
    Except Fault Bool :=
  if convergence_criterion = STOP_AT_LOCAL_MAX then
    .ok ([0, 1, 2].any fun i => m.vertex_is_local_maxima (m.triangle_vertex_id curr_tid i))
  else if convergence_criterion = STOP_AT_GIVEN_VAL then
    .ok (if m.triangle_min_u_text curr_tid > opt.stop_at_this_value then true else false)
  else if convergence_criterion = STOP_AT_GIVEN_VTX then
    .ok (if m.triangle_contains_vertex curr_tid opt.stop_at_this_vertex then true else false)
  else .error Fault.convergence_error

/-- The `do ... while` loop of `IntegralCurve<Trimesh>::make_curve`, cut after `fuel`
traversal steps. -/
def trace (lib : Lib) (m : Trimesh) (grad : VectorField) (opt : Options) :
    Nat → List CurveSample → Except Fault LoopEnd
  | 0, _ => .error Fault.out_of_fuel
  | fuel + 1, curve => do
    let next ← traverse_element lib m grad (back curve)
    let curve := curve ++ [next]
    let border_reached : Bool := (back curve).elem_id == -1
    let locmax_reached ←
      if border_reached then pure false
      else is_converged m opt (back curve).elem_id STOP_AT_LOCAL_MAX
    let target_reached ←
      if border_reached then pure false
      else is_converged m opt (back curve).elem_id opt.convergence_criterion
    if !border_reached && !locmax_reached && !target_reached then
      trace lib m grad opt fuel curve
    else pure ⟨curve, border_reached, locmax_reached, target_reached⟩

/-- The source sample pushed first by `make_curve`. -/
def seed (opt : Options) : CurveSample :=
  { CurveSample.fresh with
    pos := opt.source_pos, elem_id := opt.source_tid, vert_id := opt.source_vid }

/-- The body of the closing scan of `make_curve` for local vertex `i`. -/
def close_step (m : Trimesh) (curve : List CurveSample) (i : Int) : List CurveSample :=
  if m.vertex_is_local_maxima (m.triangle_vertex_id (back curve).elem_id i) then
    let vert_id := m.triangle_vertex_id (back curve).elem_id i
    curve ++ [{ CurveSample.fresh with
      vert_id := vert_id, pos := m.vertex vert_id, elem_id := (back curve).elem_id }]
  else curve

/-- The closing scan `for(int i=0; i<3; ++i)` of `make_curve`, run when `locmax_reached`. -/
def close (m : Trimesh) (curve : List CurveSample) : List CurveSample :=
  [0, 1, 2].foldl (close_step m) curve

/-- `IntegralCurve<Trimesh>::make_curve`, with at most `fuel` traversal steps. -/
def make_curve (lib : Lib) (m : Trimesh) (grad : VectorField) (opt : Options)
    (fuel : Nat) : Except Fault (List CurveSample) := do
  let r ← trace lib m grad opt fuel [seed opt]
  if r.locmax_reached then pure (close m r.curve) else pure r.curve

/-- The constructor with no stopping argument (criterion `STOP_AT_LOCAL_MAX`); `opt0` is
the default-constructed `opt`. -/
def IntegralCurve (lib : Lib) (m : Trimesh) (grad : VectorField) (opt0 : Options)
    (source_tid source_vid : Int) (fuel : Nat) : Except Fault (List CurveSample) :=
  make_curve lib m grad
    { opt0 with source_tid := source_tid, source_vid := source_vid,
                source_pos := m.vertex source_vid,
                convergence_criterion := STOP_AT_LOCAL_MAX } fuel

/-- The constructor taking `stop_at_this_value` (criterion `STOP_AT_GIVEN_VAL`). -/
def IntegralCurve_val (lib : Lib) (m : Trimesh) (grad : VectorField) (opt0 : Options)
    (source_tid source_vid : Int) (stop_at_this_value : ℚ) (fuel : Nat) :
    Except Fault (List CurveSample) :=
  make_curve lib m grad
    { opt0 with source_tid := source_tid, source_vid := source_vid,
                source_pos := m.vertex source_vid,
                convergence_criterion := STOP_AT_GIVEN_VAL,
                stop_at_this_value := stop_at_this_value } fuel

/-- The constructor taking `stop_at_this_vertex` (criterion `STOP_AT_GIVEN_VTX`). -/
def IntegralCurve_vtx (lib : Lib) (m : Trimesh) (grad : VectorField) (opt0 : Options)
    (source_tid source_vid : Int) (stop_at_this_vertex : Int) (fuel : Nat) :
    Except Fault (List CurveSample) :=
  make_curve lib m grad
    { opt0 with source_tid := source_tid, source_vid := source_vid,
                source_pos := m.vertex source_vid,
                convergence_criterion := STOP_AT_GIVEN_VTX,
                stop_at_this_vertex := stop_at_this_vertex } fuel

end Tri

/-! ## Volumetric variant (`IntegralCurve<Tetmesh>`) -/

namespace Tet

/-- The ray-triangle test of the facet loop of `find_exit_gate` for local facet `facet`:
`some inters` when the facet reports an intersection. -/
def facet_intersection (lib : Lib) (m : Tetmesh) (curr_sample : CurveSample)
    (target_dir : vec3d) (facet : Int) : Option vec3d :=
  let f0 := m.tet_vertex curr_sample.elem_id (lib.TET_FACES facet 0)
  let f1 := m.tet_vertex curr_sample.elem_id (lib.TET_FACES facet 1)
  let f2 := m.tet_vertex curr_sample.elem_id (lib.TET_FACES facet 2)
  lib.ray_triangle_intersection curr_sample.pos target_dir f0 f1 f2

/-- The body of the facet loop of `find_exit_gate`: the state is `(exit_facet, exit_pos)`. -/
def exit_step (lib : Lib) (m : Tetmesh) (curr_sample : CurveSample) (target_dir : vec3d)
    (st : Int × vec3d) (facet : Int) : Int × vec3d :=
  match facet_intersection lib m curr_sample target_dir facet with
  | some inters =>
    if lib.length (inters.sub curr_sample.pos) ≥ lib.length (st.2.sub curr_sample.pos) then
      (facet, inters)
    else st
  | none => st

/-- `IntegralCurve<Tetmesh>::find_exit_gate`: the returned facet and `exit_pos`. -/
def find_exit_gate (lib : Lib) (m : Tetmesh) (curr_sample : CurveSample)
    (target_dir : vec3d) : Except Fault (Int × vec3d) :=
  let r := [0, 1, 2, 3].foldl (exit_step lib m curr_sample target_dir) (-1, curr_sample.pos)
  if r.1 ≠ -1 then .ok r else .error Fault.no_exit_gate

/-- `IntegralCurve<Tetmesh>::gradient_skins_into`. -/
def gradient_skins_into (lib : Lib) (m : Tetmesh) (grad : VectorField)
    (curr_sample next_sample : CurveSample) : Except Fault Bool :=
  if next_sample.elem_id = -1 then .ok false
  else do
    let next_target_dir := lib.normalize (grad.vec_at next_sample.elem_id)
    let (exit_face, _) ← find_exit_gate lib m next_sample next_target_dir
    if m.adjacent_tet_through_facet next_sample.elem_id exit_face = curr_sample.elem_id then
      pure true
    else pure false

/-- The body of the re-selection loop of `traverse_element` over `adj_vtx2tet`: the state
is `new_next_elem`. -/
def reselect_step (lib : Lib) (m : Tetmesh) (grad : VectorField)
    (curr_sample next_sample : CurveSample) (best_pos : vec3d)
    (new_next_elem : Int) (tid : Int) : Except Fault Int :=
  if tid ≠ next_sample.elem_id ∧ tid ≠ curr_sample.elem_id then do
    let sample : CurveSample := { CurveSample.fresh with elem_id := tid, pos := best_pos }
    let dir := lib.normalize (grad.vec_at tid)
    let (gate, _) ← find_exit_gate lib m sample dir
    if gate ≠ -1 then pure tid else pure new_next_elem
  else pure new_next_elem

/-- `IntegralCurve<Tetmesh>::traverse_element`. -/
def traverse_element (lib : Lib) (m : Tetmesh) (grad : VectorField)
    (curr_sample : CurveSample) : Except Fault CurveSample := do
  let target_dir := lib.normalize (grad.vec_at curr_sample.elem_id)
  let (gate_id, pos) ← find_exit_gate lib m curr_sample target_dir
  let next_sample : CurveSample :=
    { CurveSample.fresh with
      gate_id := gate_id, pos := pos,
      elem_id := m.adjacent_tet_through_facet curr_sample.elem_id gate_id }
  if ← gradient_skins_into lib m grad curr_sample next_sample then
    let avg_target_dir := lib.normalize
      ((grad.vec_at curr_sample.elem_id).add (grad.vec_at next_sample.elem_id))
    let tri : Int → vec3d := fun i =>
      m.tet_vertex curr_sample.elem_id (lib.TET_FACES next_sample.gate_id i)
    let best := (set_begin (lib.angle_rad avg_target_dir ((tri 0).sub next_sample.pos), 0)
      [(lib.angle_rad avg_target_dir ((tri 1).sub next_sample.pos), 1),
       (lib.angle_rad avg_target_dir ((tri 2).sub next_sample.pos), 2)]).2
    let vert_id := m.tet_vertex_id curr_sample.elem_id (lib.TET_FACES next_sample.gate_id best)
    let new_next_elem ← (m.adj_vtx2tet vert_id).foldlM
      (reselect_step lib m grad curr_sample next_sample (tri best)) (-1)
    if new_next_elem = -1 then throw Fault.no_next_element
    let next_sample : CurveSample :=
      { next_sample with vert_id := vert_id, pos := tri best, gate_id := -1,
                         elem_id := new_next_elem }
    if !m.tet_contains_vertex next_sample.elem_id next_sample.vert_id then
      throw Fault.vertex_not_in_element
    pure next_sample
  else pure next_sample

/-- `IntegralCurve<Tetmesh>::is_converged`. -/
def is_converged (m : Tetmesh) (opt : Options) (curr_tid convergence_criterion : Int) :
    Except Fault Bool :=
  if convergence_criterion = STOP_AT_LOCAL_MAX then
    .ok ([0, 1, 2].any fun i => m.vertex_is_local_maxima (m.tet_vertex_id curr_tid i))
  else if convergence_criterion = STOP_AT_GIVEN_VAL then
    .ok (if m.tet_min_u_text curr_tid > opt.stop_at_this_value then true else false)
  else if convergence_criterion = STOP_AT_GIVEN_VTX then
    .ok (if m.tet_contains_vertex curr_tid opt.stop_at_this_vertex then true else false)
  else .error Fault.convergence_error

/-- The `do ... while` loop of `IntegralCurve<Tetmesh>::make_curve`, cut after `fuel`
traversal steps. -/
def trace (lib : Lib) (m : Tetmesh) (grad : VectorField) (opt : Options) :
    Nat → List CurveSample → Except Fault LoopEnd
  | 0, _ => .error Fault.out_of_fuel
  | fuel + 1, curve => do
    let next ← traverse_element lib m grad (back curve)
    let curve := curve ++ [next]
    let border_reached : Bool := (back curve).elem_id == -1
    let locmax_reached ←
      if border_reached then pure false
      else is_converged m opt (back curve).elem_id STOP_AT_LOCAL_MAX
    let target_reached ←
      if border_reached then pure false
      else is_converged m opt (back curve).elem_id opt.convergence_criterion
    if !border_reached && !locmax_reached && !target_reached then
      trace lib m grad opt fuel curve
    else pure ⟨curve, border_reached, locmax_reached, target_reached⟩

/-- The source sample pushed first by `make_curve`. -/
def seed (opt : Options) : CurveSample :=
  { CurveSample.fresh with
    pos := opt.source_pos, elem_id := opt.source_tid, vert_id := opt.source_vid }

/-- The body of the closing scan of `make_curve` for local vertex `i`. -/
def close_step (m : Tetmesh) (curve : List CurveSample) (i : Int) : List CurveSample :=
  if m.vertex_is_local_maxima (m.tet_vertex_id (back curve).elem_id i) then
    curve ++ [{ CurveSample.fresh with
      pos := m.tet_vertex (back curve).elem_id i, elem_id := (back curve).elem_id,
      gate_id := -1 }]
  else curve

/-- The closing scan `for(int i=0; i<4; ++i)` of `make_curve`, run when `locmax_reached`. -/
def close (m : Tetmesh) (curve : List CurveSample) : List CurveSample :=
  [0, 1, 2, 3].foldl (close_step m) curve

/-- `IntegralCurve<Tetmesh>::make_curve`, with at most `fuel` traversal steps. -/
def make_curve (lib : Lib) (m : Tetmesh) (grad : VectorField) (opt : Options)
    (fuel : Nat) : Except Fault (List CurveSample) := do
  let r ← trace lib m grad opt fuel [seed opt]
  if r.locmax_reached then pure (close m r.curve) else pure r.curve

/-- The constructor with no stopping argument (criterion `STOP_AT_LOCAL_MAX`); `opt0` is
the default-constructed `opt`. -/
def IntegralCurve (lib : Lib) (m : Tetmesh) (grad : VectorField) (opt0 : Options)
    (source_tid source_vid : Int) (fuel : Nat) : Except Fault (List CurveSample) :=
  make_curve lib m grad
    { opt0 with source_tid := source_tid, source_vid := source_vid,
                source_pos := m.vertex source_vid,
                convergence_criterion := STOP_AT_LOCAL_MAX } fuel

/-- The constructor taking `stop_at_this_value` (criterion `STOP_AT_GIVEN_VAL`). -/
def IntegralCurve_val (lib : Lib) (m : Tetmesh) (grad : VectorField) (opt0 : Options)
    (source_tid source_vid : Int) (stop_at_this_value : ℚ) (fuel : Nat) :
    Except Fault (List CurveSample) :=
  make_curve lib m grad
    { opt0 with source_tid := source_tid, source_vid := source_vid,
                source_pos := m.vertex source_vid,
                convergence_criterion := STOP_AT_GIVEN_VAL,
                stop_at_this_value := stop_at_this_value } fuel

/-- The constructor taking `stop_at_this_vertex` (criterion `STOP_AT_GIVEN_VTX`). -/
def IntegralCurve_vtx (lib : Lib) (m : Tetmesh) (grad : VectorField) (opt0 : Options)
    (source_tid source_vid : Int) (stop_at_this_vertex : Int) (fuel : Nat) :
    Except Fault (List CurveSample) :=
  make_curve lib m grad
    { opt0 with source_tid := source_tid, source_vid := source_vid,
                source_pos := m.vertex source_vid,
                convergence_criterion := STOP_AT_GIVEN_VTX,
                stop_at_this_vertex := stop_at_this_vertex } fuel

end Tet

/-! ## The parts of `traverse_element`, by name -/

/-- The normalised field direction in the element of the current sample (lines 180-181 and
379-380). -/
def target_dir (lib : Lib) (grad : VectorField) (curr_sample : CurveSample) : vec3d :=
  lib.normalize (grad.vec_at curr_sample.elem_id)

/-- The `exit_edge` of the surface `traverse_element` (line 183). -/
def Tri.exit_edge (lib : Lib) (m : Trimesh) (grad : VectorField)
    (curr_sample : CurveSample) : Int :=
  Tri.find_exit_gate lib m curr_sample (target_dir lib grad curr_sample)

/-- The `vidA` of the surface `traverse_element` (line 184). -/
def Tri.exit_vidA (lib : Lib) (m : Trimesh) (grad : VectorField)
    (curr_sample : CurveSample) : Int :=
  m.triangle_vertex_id curr_sample.elem_id
    (lib.TRI_EDGES (Tri.exit_edge lib m grad curr_sample) 0)

/-- The `vidB` of the surface `traverse_element` (line 185). -/
def Tri.exit_vidB (lib : Lib) (m : Trimesh) (grad : VectorField)
    (curr_sample : CurveSample) : Int :=
  m.triangle_vertex_id curr_sample.elem_id
    (lib.TRI_EDGES (Tri.exit_edge lib m grad curr_sample) 1)

/-- The `next_pos` of the surface `traverse_element` (lines 186-200): the law-of-sines
point on the exit edge. -/
def Tri.next_pos (lib : Lib) (m : Trimesh) (grad : VectorField)
    (curr_sample : CurveSample) : vec3d :=
  let A := m.vertex (Tri.exit_vidA lib m grad curr_sample)
  let B := m.vertex (Tri.exit_vidB lib m grad curr_sample)
  let V0 := curr_sample.pos
  let V1 := A
  let e0_dir := lib.normalize (B.sub A)
  let e1_dir := (target_dir lib grad curr_sample).neg
  let e2_dir := lib.normalize (V1.sub V0)
  let V0_ang := lib.angle_rad e2_dir e1_dir.neg
  let V2_ang := lib.angle_rad e1_dir e0_dir.neg
  let e2_len := lib.length (V1.sub V0)
  let e0_len := lib.triangle_law_of_sines V2_ang V0_ang e2_len
  V1.add (vec3d.smul e0_len e0_dir)

/-- The `next_tid` of the surface `traverse_element` (line 201): the triangle across the
exit edge, `-1` if there is none. -/
def Tri.next_tid (lib : Lib) (m : Trimesh) (grad : VectorField)
    (curr_sample : CurveSample) : Int :=
  m.triangle_adjacent_along curr_sample.elem_id (Tri.exit_vidA lib m grad curr_sample)
    (Tri.exit_vidB lib m grad curr_sample)

/-- The `next_sample` of the surface `traverse_element` before the skins-into test
(lines 203-206). -/
def Tri.raw_next (lib : Lib) (m : Trimesh) (grad : VectorField)
    (curr_sample : CurveSample) : CurveSample :=
  ⟨Tri.next_pos lib m grad curr_sample, Tri.next_tid lib m grad curr_sample,
    Tri.exit_edge lib m grad curr_sample, -1⟩

/-- The vertex the surface correction moves to (line 213): `vidB` when `(B-A).dot(d) > 0`,
else `vidA`. -/
def Tri.skins_vertex (lib : Lib) (m : Trimesh) (grad : VectorField)
    (curr_sample : CurveSample) : Int :=
  if ((m.vertex (Tri.exit_vidB lib m grad curr_sample)).sub
      (m.vertex (Tri.exit_vidA lib m grad curr_sample))).dot
      (target_dir lib grad curr_sample) > 0
  then Tri.exit_vidB lib m grad curr_sample else Tri.exit_vidA lib m grad curr_sample

/-- The element the surface correction ends with (lines 216-223): the last triangle of
`adj_vtx2tri(v)` that differs from the candidate `n` and from the current element `c`,
`-1` if there is none. -/
def Tri.reselect (m : Trimesh) (v n c : Int) : Int :=
  (m.adj_vtx2tri v).foldl (fun e tid => if tid ≠ n ∧ tid ≠ c then tid else e) (-1)

/-- The `next_sample` of the volumetric `traverse_element` before the skins-into test
(lines 382-384), for the exit facet `g` and exit position `p` of `find_exit_gate`. -/
def Tet.raw_next (m : Tetmesh) (curr_sample : CurveSample) (g : Int) (p : vec3d) :
    CurveSample :=
  ⟨p, m.adjacent_tet_through_facet curr_sample.elem_id g, g, -1⟩

/-- The corner of the shared facet the volumetric correction moves to (lines 392-409), as
an index 0, 1, 2 into the facet `next_sample.gate_id` of the current element. -/
def Tet.skins_best (lib : Lib) (m : Tetmesh) (grad : VectorField)
    (curr_sample next_sample : CurveSample) : Int :=
  let avg_target_dir := lib.normalize
    ((grad.vec_at curr_sample.elem_id).add (grad.vec_at next_sample.elem_id))
  let tri : Int → vec3d := fun i =>
    m.tet_vertex curr_sample.elem_id (lib.TET_FACES next_sample.gate_id i)
  (set_begin (lib.angle_rad avg_target_dir ((tri 0).sub next_sample.pos), 0)
    [(lib.angle_rad avg_target_dir ((tri 1).sub next_sample.pos), 1),
     (lib.angle_rad avg_target_dir ((tri 2).sub next_sample.pos), 2)]).2

/-- The vertex id the volumetric correction moves to (line 409). -/
def Tet.skins_vertex (lib : Lib) (m : Tetmesh) (grad : VectorField)
    (curr_sample next_sample : CurveSample) : Int :=
  m.tet_vertex_id curr_sample.elem_id
    (lib.TET_FACES next_sample.gate_id (Tet.skins_best lib m grad curr_sample next_sample))

/-- The position the volumetric correction moves to, `tri[best]` (line 410). -/
def Tet.skins_pos (lib : Lib) (m : Tetmesh) (grad : VectorField)
    (curr_sample next_sample : CurveSample) : vec3d :=
  m.tet_vertex curr_sample.elem_id
    (lib.TET_FACES next_sample.gate_id (Tet.skins_best lib m grad curr_sample next_sample))

/-- The re-selection loop of the volumetric correction (lines 414-436): `new_next_elem`
after the scan of `adj_vtx2tet(vert_id)`, or the fault of a probe. -/
def Tet.reselect (lib : Lib) (m : Tetmesh) (grad : VectorField)
    (curr_sample next_sample : CurveSample) : Except Fault Int :=
  (m.adj_vtx2tet (Tet.skins_vertex lib m grad curr_sample next_sample)).foldlM
    (Tet.reselect_step lib m grad curr_sample next_sample
      (Tet.skins_pos lib m grad curr_sample next_sample)) (-1)

/-- The `uvw[i]` of the surface `find_exit_gate` (lines 132-137): the vector from the
sample position to the local vertex `i` of its triangle. -/
def Tri.uvw (m : Trimesh) (curr_sample : CurveSample) (i : Int) : vec3d :=
  (m.triangle_vertex curr_sample.elem_id i).sub curr_sample.pos

/-- The `vert` of the surface `find_exit_gate` (lines 139-145): the local vertex at the
head of the set of pairs (angle to the target direction, local index). -/
def Tri.nearest_vertex (lib : Lib) (m : Trimesh) (curr_sample : CurveSample)
    (target_dir : vec3d) : Int :=
  (set_begin (lib.angle_rad target_dir (Tri.uvw m curr_sample 0), 0)
    [(lib.angle_rad target_dir (Tri.uvw m curr_sample 1), 1),
     (lib.angle_rad target_dir (Tri.uvw m curr_sample 2), 2)]).2

/-- The local edge table `TRI_EDGES = {{0,1},{1,2},{2,0}}`. -/
def TRI_EDGES_std (e k : Int) : Int :=
  if e = 0 then (if k = 0 then 0 else 1)
  else if e = 1 then (if k = 0 then 1 else 2)
  else (if k = 0 then 2 else 0)

/-! ## The stopping criteria, as the specification words them -/

/-- The configured criterion on triangle `tid`, in the words of the specification: with
`GIVEN_VALUE` the minimum scalar sample exceeds the threshold, with `GIVEN_VERTEX` the
element contains the target vertex. -/
def Tri.satisfies (m : Trimesh) (opt : Options) (tid : Int) : Bool :=
  (opt.convergence_criterion == STOP_AT_GIVEN_VAL &&
      decide (m.triangle_min_u_text tid > opt.stop_at_this_value)) ||
    (opt.convergence_criterion == STOP_AT_GIVEN_VTX &&
      m.triangle_contains_vertex tid opt.stop_at_this_vertex)

/-- The configured criterion on tetrahedron `tid`, in the words of the specification. -/
def Tet.satisfies (m : Tetmesh) (opt : Options) (tid : Int) : Bool :=
  (opt.convergence_criterion == STOP_AT_GIVEN_VAL &&
      decide (m.tet_min_u_text tid > opt.stop_at_this_value)) ||
    (opt.convergence_criterion == STOP_AT_GIVEN_VTX &&
      m.tet_contains_vertex tid opt.stop_at_this_vertex)

/-! ## The closing samples, as a list -/

/-- The closing samples for final element `e` of the surface variant: one per local vertex
of `e` flagged as a local maximum, in increasing local index. -/
def Tri.closing (m : Trimesh) (e : Int) : List CurveSample :=
  ([0, 1, 2].filter fun i => m.vertex_is_local_maxima (m.triangle_vertex_id e i)).map
    fun i => { pos := m.vertex (m.triangle_vertex_id e i), elem_id := e, gate_id := -1,
               vert_id := m.triangle_vertex_id e i }

/-- The closing samples for final element `e` of the volumetric variant: one per local
vertex of `e` flagged as a local maximum, in increasing local index. -/
def Tet.closing (m : Tetmesh) (e : Int) : List CurveSample :=
  ([0, 1, 2, 3].filter fun i => m.vertex_is_local_maxima (m.tet_vertex_id e i)).map
    fun i => { pos := m.vertex (m.tet_vertex_id e i), elem_id := e, gate_id := -1,
               vert_id := -1 }

/-! ## The exit point of the surface step, over the reals -/

/-- Points and vectors with real coordinates, for the reading of the surface step in exact
real arithmetic. -/
abbrev rvec3 : Type := EuclideanSpace ℝ (Fin 3)

namespace Exact

/-- The point with coordinates `x`, `y`, `z`. -/
noncomputable def pt (x y z : ℝ) : rvec3 := (WithLp.equiv 2 (Fin 3 → ℝ)).symm ![x, y, z]

/-- Modelled from the spec: `normalize` (vec3.h, not in the file) scales a vector to unit
length. -/
noncomputable def normalize (v : rvec3) : rvec3 := ‖v‖⁻¹ • v

/-- Modelled from the spec: `angle_rad` (vec3.h, not in the file) is the angle between two
vectors, in radians. -/
noncomputable def angle_rad (u v : rvec3) : ℝ := InnerProductGeometry.angle u v

/-- Modelled from the spec: `length` (vec3.h, not in the file) is the Euclidean norm. -/
noncomputable def length (v : rvec3) : ℝ := ‖v‖

/-- Modelled from the spec: `triangle_law_of_sines` (triangle.h, not in the file) gives the
side opposite `angle_1` from the side `length_0` opposite `angle_0`. -/
noncomputable def triangle_law_of_sines (angle_0 angle_1 length_0 : ℝ) : ℝ :=
  length_0 * Real.sin angle_1 / Real.sin angle_0

/-- The `next_pos` of the surface `traverse_element` (lines 189-200) over the reals, for
the endpoints `A`, `B` of the exit edge, the sample position `V0` and the target
direction. -/
noncomputable def next_pos (A B V0 target_dir : rvec3) : rvec3 :=
  let V1 := A
  let e0_dir := normalize (B - A)
  let e1_dir := -target_dir
  let e2_dir := normalize (V1 - V0)
  let V0_ang := angle_rad e2_dir (-e1_dir)
  let V2_ang := angle_rad e1_dir (-e0_dir)
  let e2_len := length (V1 - V0)
  let e0_len := triangle_law_of_sines V2_ang V0_ang e2_len
  V1 + e0_len • e0_dir

end Exact

/-! ## Concrete meshes -/

namespace Example

/-- Square roots of the squared lengths that occur in the examples (0 elsewhere). -/
def sqrt_tab (q : ℚ) : ℚ :=
  if q = 1 then 1 else if q = 9 then 3 else if q = 16 then 4 else if q = 25 then 5
  else if q = 25 / 4 then 5 / 2 else if q = 9 / 16 then 3 / 4 else if q = 4 then 2 else 0

/-- Length of a vector, read off `sqrt_tab`. -/
def ex_length (v : vec3d) : ℚ := sqrt_tab (v.dot v)

/-- Normalisation by `ex_length`; a vector of length 0 is left as it is. -/
def ex_normalize (v : vec3d) : vec3d :=
  if ex_length v = 0 then v else vec3d.smul (1 / ex_length v) v

/-- Arc cosine, to six decimals, of the cosines that occur in the examples (a right
angle elsewhere). -/
def acos_tab (c : ℚ) : ℚ :=
  if c = 1 then 0 else if c = 4 / 5 then 643501 / 1000000
  else if c = 3 / 5 then 927295 / 1000000 else if c = 7 / 25 then 1287002 / 1000000
  else if c = -7 / 25 then 1854590 / 1000000 else if c = -3 / 5 then 2214297 / 1000000
  else if c = -4 / 5 then 2498092 / 1000000 else if c = -1 then 3141593 / 1000000
  else 1570796 / 1000000

/-- Angle between two vectors, read off `acos_tab`. -/
def ex_angle_rad (u v : vec3d) : ℚ := acos_tab ((ex_normalize u).dot (ex_normalize v))

/-- Sine of the angles of `acos_tab`. -/
def sin_tab (a : ℚ) : ℚ :=
  if a = 0 then 0 else if a = 643501 / 1000000 then 3 / 5
  else if a = 927295 / 1000000 then 4 / 5 else if a = 1287002 / 1000000 then 24 / 25
  else if a = 1854590 / 1000000 then 24 / 25 else if a = 2214297 / 1000000 then 4 / 5
  else if a = 2498092 / 1000000 then 3 / 5 else if a = 3141593 / 1000000 then 0
  else 1

/-- Law of sines: the side opposite `angle_1`, from the side `length_0` opposite
`angle_0`. -/
def ex_law_of_sines (angle_0 angle_1 length_0 : ℚ) : ℚ :=
  length_0 * sin_tab angle_1 / sin_tab angle_0

/-- Ray-triangle intersection (Moeller-Trumbore), exact over the rationals. -/
def ex_ray_triangle_intersection (P dir V0 V1 V2 : vec3d) : Option vec3d :=
  let e1 := V1.sub V0
  let e2 := V2.sub V0
  let h := dir.cross e2
  let a := e1.dot h
  if a = 0 then none
  else
    let s := P.sub V0
    let u := s.dot h / a
    if u < 0 ∨ u > 1 then none
    else
      let q := s.cross e1
      let v := dir.dot q / a
      if v < 0 ∨ u + v > 1 then none
      else
        let t := e2.dot q / a
        if t ≥ 0 then some (P.add (vec3d.smul t dir)) else none

/-- The library routines used in the examples, with the tables
`TRI_EDGES = {{0,1},{1,2},{2,0}}` and `TET_FACES = {{0,2,1},{0,1,3},{0,3,2},{1,2,3}}`. -/
def lib : Lib :=
  { normalize := ex_normalize
    angle_rad := ex_angle_rad
    length := ex_length
    triangle_law_of_sines := ex_law_of_sines
    ray_triangle_intersection := ex_ray_triangle_intersection
    TRI_EDGES := fun e k =>
      if e = 0 then (if k = 0 then 0 else 1)
      else if e = 1 then (if k = 0 then 1 else 2)
      else (if k = 0 then 2 else 0)
    TET_FACES := fun f k =>
      if f = 0 then (if k = 0 then 0 else if k = 1 then 2 else 1)
      else if f = 1 then (if k = 0 then 0 else if k = 1 then 1 else 3)
      else if f = 2 then (if k = 0 then 0 else if k = 1 then 3 else 2)
      else (if k = 0 then 1 else if k = 1 then 2 else 3) }

/-- Two triangles `0 = (0,1,2)` and `1 = (1,3,2)` over the rectangle with corners
`0 = (0,0)`, `1 = (3,0)`, `2 = (0,4)`, `3 = (3,4)`, sharing the edge `(1,2)`; scalar field
`0` on triangle 0 and `1` on triangle 1; `flag` says which vertices are local maxima.
A query about an element id other than 0 and 1 is answered as for triangle 1, except that
`triangle_adjacent_along` answers `ghost` when asked about element `-1`. -/
def strip (flag : Int → Bool) (ghost : Int) : Trimesh :=
  { vertex := fun v =>
      if v = 0 then ⟨0, 0, 0⟩ else if v = 1 then ⟨3, 0, 0⟩
      else if v = 2 then ⟨0, 4, 0⟩ else ⟨3, 4, 0⟩
    triangle_vertex_id := fun t i =>
      if t = 0 then (if i = 0 then 0 else if i = 1 then 1 else 2)
      else (if i = 0 then 1 else if i = 1 then 3 else 2)
    triangle_normal := fun _ => ⟨0, 0, 1⟩
    triangle_adjacent_along := fun t a b =>
      if t = -1 then ghost
      else if t = 0 ∧ ((a = 1 ∧ b = 2) ∨ (a = 2 ∧ b = 1)) then 1
      else if t = 1 ∧ ((a = 1 ∧ b = 2) ∨ (a = 2 ∧ b = 1)) then 0
      else -1
    adj_vtx2tri := fun v => if v = 0 then [0] else if v = 3 then [1] else [0, 1]
    vertex_is_local_maxima := flag
    triangle_min_u_text := fun t => if t = 0 then 0 else 1
    triangle_contains_vertex := fun t v =>
      if t = 0 then decide (v = 0 ∨ v = 1 ∨ v = 2) else decide (v = 1 ∨ v = 3 ∨ v = 2) }

/-- The strip with a third triangle `2 = (1,4,3)` glued along the edge `(1,3)`, vertex 4
at `(7,5)`; scalar field `0`, `1`, `2` on the triangles 0, 1, 2; no local maximum. -/
def strip3 : Trimesh :=
  { vertex := fun v =>
      if v = 0 then ⟨0, 0, 0⟩ else if v = 1 then ⟨3, 0, 0⟩
      else if v = 2 then ⟨0, 4, 0⟩ else if v = 3 then ⟨3, 4, 0⟩ else ⟨7, 5, 0⟩
    triangle_vertex_id := fun t i =>
      if t = 0 then (if i = 0 then 0 else if i = 1 then 1 else 2)
      else if t = 1 then (if i = 0 then 1 else if i = 1 then 3 else 2)
      else (if i = 0 then 1 else if i = 1 then 4 else 3)
    triangle_normal := fun _ => ⟨0, 0, 1⟩
    triangle_adjacent_along := fun t a b =>
      if t = 0 ∧ ((a = 1 ∧ b = 2) ∨ (a = 2 ∧ b = 1)) then 1
      else if t = 1 ∧ ((a = 1 ∧ b = 2) ∨ (a = 2 ∧ b = 1)) then 0
      else if t = 1 ∧ ((a = 1 ∧ b = 3) ∨ (a = 3 ∧ b = 1)) then 2
      else if t = 2 ∧ ((a = 1 ∧ b = 3) ∨ (a = 3 ∧ b = 1)) then 1
      else -1
    adj_vtx2tri := fun v =>
      if v = 0 then [0] else if v = 1 then [0, 1, 2] else if v = 2 then [0, 1]
      else if v = 3 then [1, 2] else [2]
    vertex_is_local_maxima := fun _ => false
    triangle_min_u_text := fun t => if t = 0 then 0 else if t = 1 then 1 else 2
    triangle_contains_vertex := fun t v =>
      if t = 0 then decide (v = 0 ∨ v = 1 ∨ v = 2)
      else if t = 1 then decide (v = 1 ∨ v = 3 ∨ v = 2)
      else decide (v = 1 ∨ v = 4 ∨ v = 3) }

/-- Field `(3,4,0)` on triangle 0 and `(1,0,0)` elsewhere. -/
def field : VectorField := { vec_at := fun t => if t = 0 then ⟨3, 4, 0⟩ else ⟨1, 0, 0⟩ }

/-- Options of a trace from element 0 and vertex 0 (the origin in both meshes) with the
criterion `STOP_AT_LOCAL_MAX`; also the default-constructed `opt` handed to the
constructors. -/
def opt0 : Options :=
  { source_tid := 0, source_vid := 0, source_pos := ⟨0, 0, 0⟩,
    convergence_criterion := STOP_AT_LOCAL_MAX, stop_at_this_value := 0,
    stop_at_this_vertex := -1 }

/-- Two tetrahedra `0 = (0,1,2,3)` and `1 = (1,2,3,4)` sharing the facet `(1,2,3)`, which
lies in the plane `x = 3`; vertex 0 is the origin and vertex 4 is `(6,3,0)`; scalar field
`0` on tetrahedron 0 and `1` on tetrahedron 1. -/
def two_tets (flag : Int → Bool) : Tetmesh :=
  { vertex := fun v =>
      if v = 0 then ⟨0, 0, 0⟩ else if v = 1 then ⟨3, -1, -1⟩
      else if v = 2 then ⟨3, 2, -1⟩ else if v = 3 then ⟨3, -1, 2⟩ else ⟨6, 3, 0⟩
    tet_vertex_id := fun t i =>
      if t = 0 then (if i = 0 then 0 else if i = 1 then 1 else if i = 2 then 2 else 3)
      else (if i = 0 then 1 else if i = 1 then 2 else if i = 2 then 3 else 4)
    adjacent_tet_through_facet := fun t f =>
      if t = 0 ∧ f = 3 then 1 else if t = 1 ∧ f = 0 then 0 else -1
    adj_vtx2tet := fun v => if v = 0 then [0] else if v = 4 then [1] else [0, 1]
    vertex_is_local_maxima := flag
    tet_min_u_text := fun t => if t = 0 then 0 else 1
    tet_contains_vertex := fun t v =>
      if t = 0 then decide (v = 0 ∨ v = 1 ∨ v = 2 ∨ v = 3)
      else decide (v = 1 ∨ v = 2 ∨ v = 3 ∨ v = 4) }

/-- The uniform field `(1,0,0)`. -/
def tet_field : VectorField := { vec_at := fun _ => ⟨1, 0, 0⟩ }

/-- Options of a trace from element 0 and vertex 0 that stops at vertex `target`. -/
def opt_vtx (target : Int) : Options :=
  { opt0 with convergence_criterion := STOP_AT_GIVEN_VTX, stop_at_this_vertex := target }

/-- Options of a trace from element 0 and vertex 0 that stops above `value`. -/
def opt_val (value : ℚ) : Options :=
  { opt0 with convergence_criterion := STOP_AT_GIVEN_VAL, stop_at_this_value := value }

/-- The strip with a third triangle `2 = (2,3,4)` glued along the edge `(2,3)`, vertex 4 at
`(0,8)`; no local maximum. -/
def ridge : Trimesh :=
  { vertex := fun v =>
      if v = 0 then ⟨0, 0, 0⟩ else if v = 1 then ⟨3, 0, 0⟩
      else if v = 2 then ⟨0, 4, 0⟩ else if v = 3 then ⟨3, 4, 0⟩ else ⟨0, 8, 0⟩
    triangle_vertex_id := fun t i =>
      if t = 0 then (if i = 0 then 0 else if i = 1 then 1 else 2)
      else if t = 1 then (if i = 0 then 1 else if i = 1 then 3 else 2)
      else (if i = 0 then 2 else if i = 1 then 3 else 4)
    triangle_normal := fun _ => ⟨0, 0, 1⟩
    triangle_adjacent_along := fun t a b =>
      if t = 0 ∧ ((a = 1 ∧ b = 2) ∨ (a = 2 ∧ b = 1)) then 1
      else if t = 1 ∧ ((a = 1 ∧ b = 2) ∨ (a = 2 ∧ b = 1)) then 0
      else if t = 1 ∧ ((a = 2 ∧ b = 3) ∨ (a = 3 ∧ b = 2)) then 2
      else if t = 2 ∧ ((a = 2 ∧ b = 3) ∨ (a = 3 ∧ b = 2)) then 1
      else -1
    adj_vtx2tri := fun v =>
      if v = 0 then [0] else if v = 1 then [0, 1] else if v = 2 then [0, 1, 2]
      else if v = 3 then [1, 2] else [2]
    vertex_is_local_maxima := fun _ => false
    triangle_min_u_text := fun t => if t = 0 then 0 else if t = 1 then 1 else 2
    triangle_contains_vertex := fun t v =>
      if t = 0 then decide (v = 0 ∨ v = 1 ∨ v = 2)
      else if t = 1 then decide (v = 1 ∨ v = 3 ∨ v = 2)
      else decide (v = 2 ∨ v = 3 ∨ v = 4) }

/-- Field `(3,4,0)` on triangle 0, `(-1,0,0)` on triangle 1 (back towards triangle 0) and
`(0,1,0)` elsewhere. -/
def field_back : VectorField :=
  { vec_at := fun t => if t = 0 then ⟨3, 4, 0⟩ else if t = 1 then ⟨-1, 0, 0⟩ else ⟨0, 1, 0⟩ }

/-- Ray-triangle intersection that reports only hits strictly inside the triangle: a ray
that starts at a corner of the triangle, or crosses an edge of it, reports nothing. -/
def ex_ray_triangle_intersection_open (P dir V0 V1 V2 : vec3d) : Option vec3d :=
  let e1 := V1.sub V0
  let e2 := V2.sub V0
  let h := dir.cross e2
  let a := e1.dot h
  if a = 0 then none
  else
    let s := P.sub V0
    let u := s.dot h / a
    if u ≤ 0 ∨ u ≥ 1 then none
    else
      let q := s.cross e1
      let v := dir.dot q / a
      if v ≤ 0 ∨ u + v ≥ 1 then none
      else
        let t := e2.dot q / a
        if t ≥ 0 then some (P.add (vec3d.smul t dir)) else none

/-- The library of the examples with the ray-triangle test that loses the hits at the
corners of a facet. -/
def lib_open : Lib :=
  { lib with ray_triangle_intersection := ex_ray_triangle_intersection_open }

/-- Four tetrahedra around vertex `1 = (3,4,3)`: `0 = (0,1,2,3)` with apex at the origin
and `1 = (1,2,3,4)` with apex `(6,0,0)` share the facet `(1,2,3)` in the plane `x = 3`
(`2 = (3,-3,4)`, `3 = (3,0,-5)`); `3 = (1,5,6,7)` and `2 = (1,6,7,8)` sit above vertex 1
with their far facets in the plane `y = 8` (`5 = (0,8,2)`, `6 = (6,8,2)`, `7 = (3,8,6)`,
`8 = (9,8,6)`) and share the facet `(1,6,7)`. `incident_1` is `adj_vtx2tet(1)`. -/
def fan (incident_1 : List Int) : Tetmesh :=
  { vertex := fun v =>
      if v = 0 then ⟨0, 0, 0⟩ else if v = 1 then ⟨3, 4, 3⟩
      else if v = 2 then ⟨3, -3, 4⟩ else if v = 3 then ⟨3, 0, -5⟩
      else if v = 4 then ⟨6, 0, 0⟩ else if v = 5 then ⟨0, 8, 2⟩
      else if v = 6 then ⟨6, 8, 2⟩ else if v = 7 then ⟨3, 8, 6⟩ else ⟨9, 8, 6⟩
    tet_vertex_id := fun t i =>
      if t = 0 then (if i = 0 then 0 else if i = 1 then 1 else if i = 2 then 2 else 3)
      else if t = 1 then (if i = 0 then 1 else if i = 1 then 2 else if i = 2 then 3 else 4)
      else if t = 2 then (if i = 0 then 1 else if i = 1 then 6 else if i = 2 then 7 else 8)
      else (if i = 0 then 1 else if i = 1 then 5 else if i = 2 then 6 else 7)
    adjacent_tet_through_facet := fun t f =>
      if t = 0 ∧ f = 3 then 1 else if t = 1 ∧ f = 0 then 0
      else if t = 2 ∧ f = 0 then 3 else if t = 3 ∧ f = 2 then 2 else -1
    adj_vtx2tet := fun v =>
      if v = 0 then [0] else if v = 1 then incident_1
      else if v = 2 ∨ v = 3 then [0, 1] else if v = 4 then [1]
      else if v = 5 then [3] else if v = 8 then [2] else [2, 3]
    vertex_is_local_maxima := fun _ => false
    tet_min_u_text := fun _ => 0
    tet_contains_vertex := fun t v =>
      if t = 0 then decide (v = 0 ∨ v = 1 ∨ v = 2 ∨ v = 3)
      else if t = 1 then decide (v = 1 ∨ v = 2 ∨ v = 3 ∨ v = 4)
      else if t = 2 then decide (v = 1 ∨ v = 6 ∨ v = 7 ∨ v = 8)
      else decide (v = 1 ∨ v = 5 ∨ v = 6 ∨ v = 7) }

/-- Field `(3,0,0)` on tetrahedron 0, `(-3,4,0)` on tetrahedron 1 (back towards
tetrahedron 0), `(0,-1,0)` on tetrahedron 2 (out of it at vertex 1) and `(0,1,0)` on
tetrahedron 3 (into it at vertex 1). -/
def fan_field : VectorField :=
  { vec_at := fun t =>
      if t = 0 then ⟨3, 0, 0⟩ else if t = 1 then ⟨-3, 4, 0⟩
      else if t = 2 then ⟨0, -1, 0⟩ else ⟨0, 1, 0⟩ }

/-- The ridge with a fourth triangle `3 = (2,4,5)` glued along the edge `(2,4)`, vertex 5
at `(-3,4)`, so that the triangles 0, 1, 2, 3 go round vertex `2 = (0,4)`; no local
maximum. `incident_2` is `adj_vtx2tri(2)`. -/
def crest (incident_2 : List Int) : Trimesh :=
  { vertex := fun v =>
      if v = 0 then ⟨0, 0, 0⟩ else if v = 1 then ⟨3, 0, 0⟩
      else if v = 2 then ⟨0, 4, 0⟩ else if v = 3 then ⟨3, 4, 0⟩
      else if v = 4 then ⟨0, 8, 0⟩ else ⟨-3, 4, 0⟩
    triangle_vertex_id := fun t i =>
      if t = 0 then (if i = 0 then 0 else if i = 1 then 1 else 2)
      else if t = 1 then (if i = 0 then 1 else if i = 1 then 3 else 2)
      else if t = 2 then (if i = 0 then 2 else if i = 1 then 3 else 4)
      else (if i = 0 then 2 else if i = 1 then 4 else 5)
    triangle_normal := fun _ => ⟨0, 0, 1⟩
    triangle_adjacent_along := fun t a b =>
      if t = 0 ∧ ((a = 1 ∧ b = 2) ∨ (a = 2 ∧ b = 1)) then 1
      else if t = 1 ∧ ((a = 1 ∧ b = 2) ∨ (a = 2 ∧ b = 1)) then 0
      else if t = 1 ∧ ((a = 2 ∧ b = 3) ∨ (a = 3 ∧ b = 2)) then 2
      else if t = 2 ∧ ((a = 2 ∧ b = 3) ∨ (a = 3 ∧ b = 2)) then 1
      else if t = 2 ∧ ((a = 2 ∧ b = 4) ∨ (a = 4 ∧ b = 2)) then 3
      else if t = 3 ∧ ((a = 2 ∧ b = 4) ∨ (a = 4 ∧ b = 2)) then 2
      else -1
    adj_vtx2tri := fun v =>
      if v = 0 then [0] else if v = 1 then [0, 1] else if v = 2 then incident_2
      else if v = 3 then [1, 2] else if v = 4 then [2, 3] else [3]
    vertex_is_local_maxima := fun _ => false
    triangle_min_u_text := fun t => if t = 0 then 0 else if t = 1 then 1 else 2
    triangle_contains_vertex := fun t v =>
      if t = 0 then decide (v = 0 ∨ v = 1 ∨ v = 2)
      else if t = 1 then decide (v = 1 ∨ v = 3 ∨ v = 2)
      else if t = 2 then decide (v = 2 ∨ v = 3 ∨ v = 4)
      else decide (v = 2 ∨ v = 4 ∨ v = 5) }

end Example

/-! ## Lemmas on the loop and on the closing scan -/

theorem back_push (curve : List CurveSample) (s : CurveSample) : back (curve ++ [s]) = s := by
  simp [back, List.getLastD_eq_getLast?]

theorem back_push_two (curve : List CurveSample) (a s : CurveSample) :
    back (curve ++ [a, s]) = s := by
  simp [back, List.getLastD_eq_getLast?]

theorem back_push_three (curve : List CurveSample) (a b s : CurveSample) :
    back (curve ++ [a, b, s]) = s := by
  simp [back, List.getLastD_eq_getLast?]

/-- A property of all but the last entry of a list holds at every index before the last. -/
theorem before_last_of_dropLast {α : Type} (P : α → Prop) (l : List α)
    (h : ∀ s ∈ l.dropLast, P s) (i : Nat) (s : α) (hs : l[i]? = some s)
    (hi : i + 1 < l.length) : P s := by
  apply h
  rw [List.dropLast_eq_take]
  have hlt : i < l.length - 1 := by omega
  have : (l.take (l.length - 1))[i]? = some s := by
    rw [List.getElem?_take_of_lt hlt]; exact hs
  exact List.getElem?_mem this

/-- What the loop of the surface `make_curve` guarantees when it stops. -/
theorem tri_trace_stop (lib : Lib) (m : Trimesh) (grad : VectorField) (opt : Options)
    (fuel : Nat) (curve : List CurveSample) (r : LoopEnd)
    (h : Tri.trace lib m grad opt fuel curve = .ok r) :
    ∃ mid last, r.curve = curve ++ mid ++ [last] ∧
      (∀ s ∈ mid, s.elem_id ≠ -1 ∧
        Tri.is_converged m opt s.elem_id STOP_AT_LOCAL_MAX = .ok false ∧
        Tri.is_converged m opt s.elem_id opt.convergence_criterion = .ok false) ∧
      r.border_reached = (last.elem_id == -1) ∧
      (r.border_reached = true → r.locmax_reached = false ∧ r.target_reached = false) ∧
      (r.border_reached = false →
        Tri.is_converged m opt last.elem_id STOP_AT_LOCAL_MAX = .ok r.locmax_reached ∧
        Tri.is_converged m opt last.elem_id opt.convergence_criterion
          = .ok r.target_reached) ∧
      (r.border_reached || r.locmax_reached || r.target_reached) = true := by
  induction fuel generalizing curve with
  | zero => simp [Tri.trace] at h
  | succ n ih =>
    rw [Tri.trace] at h
    cases ht : Tri.traverse_element lib m grad (back curve) with
    | error e => simp [ht, bind, Except.bind] at h
    | ok next =>
      simp only [ht, bind, Except.bind, back_push] at h
      by_cases hb : next.elem_id = -1
      · simp [hb, pure, Except.pure] at h
        subst h
        exact ⟨[], next, by simp, by simp, by simp [hb], by simp, by simp, by simp⟩
      · have hb' : (next.elem_id == -1) = false := by simpa using hb
        simp only [hb', Bool.false_eq_true, if_false] at h
        cases hl : Tri.is_converged m opt next.elem_id STOP_AT_LOCAL_MAX with
        | error e => simp [hl] at h
        | ok l =>
          cases hc : Tri.is_converged m opt next.elem_id opt.convergence_criterion with
          | error e => simp [hl, hc] at h
          | ok t =>
            simp only [hl, hc] at h
            by_cases hcont : l = false ∧ t = false
            · obtain ⟨rfl, rfl⟩ := hcont
              simp at h
              obtain ⟨mid, last, h1, h2, h3⟩ := ih _ h
              refine ⟨next :: mid, last, by simp [h1], ?_, h3⟩
              intro s hs
              rcases List.mem_cons.1 hs with rfl | hs
              · exact ⟨hb, hl, hc⟩
              · exact h2 s hs
            · have hstop : (!false && !l && !t) = false := by
                cases l <;> cases t <;> simp at hcont ⊢
              simp only [hstop, Bool.false_eq_true, if_false, pure, Except.pure,
                Except.ok.injEq] at h
              subst h
              refine ⟨[], next, by simp, by simp, by simp [hb'], by simp, ?_, ?_⟩
              · intro _; exact ⟨hl, hc⟩
              · cases l <;> cases t <;> simp at hcont ⊢

/-- What the loop of the volumetric `make_curve` guarantees when it stops. -/
theorem tet_trace_stop (lib : Lib) (m : Tetmesh) (grad : VectorField) (opt : Options)
    (fuel : Nat) (curve : List CurveSample) (r : LoopEnd)
    (h : Tet.trace lib m grad opt fuel curve = .ok r) :
    ∃ mid last, r.curve = curve ++ mid ++ [last] ∧
      (∀ s ∈ mid, s.elem_id ≠ -1 ∧
        Tet.is_converged m opt s.elem_id STOP_AT_LOCAL_MAX = .ok false ∧
        Tet.is_converged m opt s.elem_id opt.convergence_criterion = .ok false) ∧
      r.border_reached = (last.elem_id == -1) ∧
      (r.border_reached = true → r.locmax_reached = false ∧ r.target_reached = false) ∧
      (r.border_reached = false →
        Tet.is_converged m opt last.elem_id STOP_AT_LOCAL_MAX = .ok r.locmax_reached ∧
        Tet.is_converged m opt last.elem_id opt.convergence_criterion
          = .ok r.target_reached) ∧
      (r.border_reached || r.locmax_reached || r.target_reached) = true := by
  induction fuel generalizing curve with
  | zero => simp [Tet.trace] at h
  | succ n ih =>
    rw [Tet.trace] at h
    cases ht : Tet.traverse_element lib m grad (back curve) with
    | error e => simp [ht, bind, Except.bind] at h
    | ok next =>
      simp only [ht, bind, Except.bind, back_push] at h
      by_cases hb : next.elem_id = -1
      · simp [hb, pure, Except.pure] at h
        subst h
        exact ⟨[], next, by simp, by simp, by simp [hb], by simp, by simp, by simp⟩
      · have hb' : (next.elem_id == -1) = false := by simpa using hb
        simp only [hb', Bool.false_eq_true, if_false] at h
        cases hl : Tet.is_converged m opt next.elem_id STOP_AT_LOCAL_MAX with
        | error e => simp [hl] at h
        | ok l =>
          cases hc : Tet.is_converged m opt next.elem_id opt.convergence_criterion with
          | error e => simp [hl, hc] at h
          | ok t =>
            simp only [hl, hc] at h
            by_cases hcont : l = false ∧ t = false
            · obtain ⟨rfl, rfl⟩ := hcont
              simp at h
              obtain ⟨mid, last, h1, h2, h3⟩ := ih _ h
              refine ⟨next :: mid, last, by simp [h1], ?_, h3⟩
              intro s hs
              rcases List.mem_cons.1 hs with rfl | hs
              · exact ⟨hb, hl, hc⟩
              · exact h2 s hs
            · have hstop : (!false && !l && !t) = false := by
                cases l <;> cases t <;> simp at hcont ⊢
              simp only [hstop, Bool.false_eq_true, if_false, pure, Except.pure,
                Except.ok.injEq] at h
              subst h
              refine ⟨[], next, by simp, by simp, by simp [hb'], by simp, ?_, ?_⟩
              · intro _; exact ⟨hl, hc⟩
              · cases l <;> cases t <;> simp at hcont ⊢

/-- The closing scan of the surface variant appends `Tri.closing` of the final element. -/
theorem tri_close_eq (m : Trimesh) (curve : List CurveSample) :
    Tri.close m curve = curve ++ Tri.closing m (back curve).elem_id := by
  simp only [Tri.close, Tri.closing, List.foldl, Tri.close_step, List.filter]
  cases h0 : m.vertex_is_local_maxima (m.triangle_vertex_id (back curve).elem_id 0) <;>
  cases h1 : m.vertex_is_local_maxima (m.triangle_vertex_id (back curve).elem_id 1) <;>
  cases h2 : m.vertex_is_local_maxima (m.triangle_vertex_id (back curve).elem_id 2) <;>
  simp [h0, h1, h2, back_push, back_push_two, CurveSample.fresh]

/-- The closing scan of the volumetric variant appends `Tet.closing` of the final
element. -/
theorem tet_close_eq (m : Tetmesh) (curve : List CurveSample) :
    Tet.close m curve = curve ++ Tet.closing m (back curve).elem_id := by
  simp only [Tet.close, Tet.closing, List.foldl, Tet.close_step, List.filter]
  cases h0 : m.vertex_is_local_maxima (m.tet_vertex_id (back curve).elem_id 0) <;>
  cases h1 : m.vertex_is_local_maxima (m.tet_vertex_id (back curve).elem_id 1) <;>
  cases h2 : m.vertex_is_local_maxima (m.tet_vertex_id (back curve).elem_id 2) <;>
  cases h3 : m.vertex_is_local_maxima (m.tet_vertex_id (back curve).elem_id 3) <;>
  simp [h0, h1, h2, h3, back_push, back_push_two, back_push_three, CurveSample.fresh,
    Tetmesh.tet_vertex]


/-- The shape of a curve built by the surface `make_curve`: the source sample, the samples
at which the loop went on, the sample at which it stopped, and the closing samples. -/
theorem tri_make_curve_shape (lib : Lib) (m : Trimesh) (grad : VectorField) (opt : Options)
    (fuel : Nat) (curve : List CurveSample)
    (h : Tri.make_curve lib m grad opt fuel = .ok curve) :
    ∃ r mid last, Tri.trace lib m grad opt fuel [Tri.seed opt] = .ok r ∧
      r.curve = Tri.seed opt :: (mid ++ [last]) ∧
      (∀ s ∈ mid, s.elem_id ≠ -1 ∧
        Tri.is_converged m opt s.elem_id STOP_AT_LOCAL_MAX = .ok false ∧
        Tri.is_converged m opt s.elem_id opt.convergence_criterion = .ok false) ∧
      r.border_reached = (last.elem_id == -1) ∧
      (r.border_reached = true → r.locmax_reached = false ∧ r.target_reached = false) ∧
      (r.border_reached = false →
        Tri.is_converged m opt last.elem_id STOP_AT_LOCAL_MAX = .ok r.locmax_reached ∧
        Tri.is_converged m opt last.elem_id opt.convergence_criterion
          = .ok r.target_reached) ∧
      (r.border_reached || r.locmax_reached || r.target_reached) = true ∧
      curve = r.curve ++ (if r.locmax_reached then Tri.closing m last.elem_id else []) := by
  unfold Tri.make_curve at h
  cases ht : Tri.trace lib m grad opt fuel [Tri.seed opt] with
  | error e => simp [ht, bind, Except.bind] at h
  | ok r =>
    obtain ⟨mid, last, h1, h2, h3, h4, h5, h6⟩ := tri_trace_stop lib m grad opt fuel _ r ht
    have h1' : r.curve = Tri.seed opt :: (mid ++ [last]) := by simpa using h1
    have hback : back r.curve = last := by
      rw [h1, back_push]
    refine ⟨r, mid, last, rfl, h1', h2, h3, h4, h5, h6, ?_⟩
    simp only [ht, bind, Except.bind, pure, Except.pure] at h
    by_cases hl : r.locmax_reached = true
    · simp only [hl, if_true, Except.ok.injEq] at h
      rw [← h, tri_close_eq, hback]; simp [hl]
    · simp only [hl, Bool.false_eq_true, if_false, Except.ok.injEq] at h
      simp [hl, h]

/-- The shape of a curve built by the volumetric `make_curve`: the source sample, the samples
at which the loop went on, the sample at which it stopped, and the closing samples. -/
theorem tet_make_curve_shape (lib : Lib) (m : Tetmesh) (grad : VectorField) (opt : Options)
    (fuel : Nat) (curve : List CurveSample)
    (h : Tet.make_curve lib m grad opt fuel = .ok curve) :
    ∃ r mid last, Tet.trace lib m grad opt fuel [Tet.seed opt] = .ok r ∧
      r.curve = Tet.seed opt :: (mid ++ [last]) ∧
      (∀ s ∈ mid, s.elem_id ≠ -1 ∧
        Tet.is_converged m opt s.elem_id STOP_AT_LOCAL_MAX = .ok false ∧
        Tet.is_converged m opt s.elem_id opt.convergence_criterion = .ok false) ∧
      r.border_reached = (last.elem_id == -1) ∧
      (r.border_reached = true → r.locmax_reached = false ∧ r.target_reached = false) ∧
      (r.border_reached = false →
        Tet.is_converged m opt last.elem_id STOP_AT_LOCAL_MAX = .ok r.locmax_reached ∧
        Tet.is_converged m opt last.elem_id opt.convergence_criterion
          = .ok r.target_reached) ∧
      (r.border_reached || r.locmax_reached || r.target_reached) = true ∧
      curve = r.curve ++ (if r.locmax_reached then Tet.closing m last.elem_id else []) := by
  unfold Tet.make_curve at h
  cases ht : Tet.trace lib m grad opt fuel [Tet.seed opt] with
  | error e => simp [ht, bind, Except.bind] at h
  | ok r =>
    obtain ⟨mid, last, h1, h2, h3, h4, h5, h6⟩ := tet_trace_stop lib m grad opt fuel _ r ht
    have h1' : r.curve = Tet.seed opt :: (mid ++ [last]) := by simpa using h1
    have hback : back r.curve = last := by
      rw [h1, back_push]
    refine ⟨r, mid, last, rfl, h1', h2, h3, h4, h5, h6, ?_⟩
    simp only [ht, bind, Except.bind, pure, Except.pure] at h
    by_cases hl : r.locmax_reached = true
    · simp only [hl, if_true, Except.ok.injEq] at h
      rw [← h, tet_close_eq, hback]; simp [hl]
    · simp only [hl, Bool.false_eq_true, if_false, Except.ok.injEq] at h
      simp [hl, h]

/-- In a curve of the given shape with no Boundary element up to the stop sample's
predecessors, no sample before the last has `elem_id = -1`. -/
theorem no_boundary_before_last (seed last : CurveSample) (mid closing : List CurveSample)
    (border locmax : Bool) (hseed : seed.elem_id ≠ -1)
    (hmid : ∀ s ∈ mid, s.elem_id ≠ -1) (hb : border = (last.elem_id == -1))
    (hbl : border = true → locmax = false) (hcl : ∀ s ∈ closing, s.elem_id = last.elem_id)
    (s : CurveSample)
    (hs : s ∈ ((seed :: (mid ++ [last])) ++ (if locmax then closing else [])).dropLast) :
    s.elem_id ≠ -1 := by
  by_cases hl : locmax = true
  · have hbf : border = false := by
      cases border
      · rfl
      · have := hbl rfl; rw [this] at hl; exact absurd hl (by simp)
    have hlast : last.elem_id ≠ -1 := by
      rw [hbf] at hb; simpa using hb.symm
    have hmem := List.mem_of_mem_dropLast hs
    simp only [hl, if_true, List.mem_append, List.mem_cons, List.mem_singleton,
      List.not_mem_nil, or_false] at hmem
    rcases hmem with (rfl | hm | rfl) | hc
    · exact hseed
    · exact hmid s hm
    · exact hlast
    · rw [hcl s hc]; exact hlast
  · have hl' : locmax = false := by simpa using hl
    simp only [hl', Bool.false_eq_true, if_false, List.append_nil] at hs
    have hd : (seed :: (mid ++ [last])).dropLast = seed :: mid := by
      rw [← List.cons_append, List.dropLast_concat]
    rw [hd] at hs
    rcases List.mem_cons.1 hs with rfl | hm
    · exact hseed
    · exact hmid s hm

theorem tri_closing_elem (m : Trimesh) (e : Int) (s : CurveSample)
    (h : s ∈ Tri.closing m e) : s.elem_id = e := by
  simp only [Tri.closing, List.mem_map] at h
  obtain ⟨i, _, rfl⟩ := h
  rfl

theorem tet_closing_elem (m : Tetmesh) (e : Int) (s : CurveSample)
    (h : s ∈ Tet.closing m e) : s.elem_id = e := by
  simp only [Tet.closing, List.mem_map] at h
  obtain ⟨i, _, rfl⟩ := h
  rfl

/-! ## C1: a Boundary sample is the last sample -/

/-- C1: in a curve built by `make_curve` (surface and volumetric) from a source element that
is an element of the mesh (not the Boundary sentinel `-1`), no sample at an index before the
last has `elem_id = -1`; and when the loop stops with `border_reached` the curve returned is
the curve of the loop, with no closing sample after the Boundary sample. -/
theorem boundary_sample_is_last (lib : Lib) (grad : VectorField) (opt : Options)
    (fuel : Nat) (hsrc : opt.source_tid ≠ -1) :
    (∀ (m : Trimesh) (curve : List CurveSample),
      Tri.make_curve lib m grad opt fuel = .ok curve →
      ∀ (i : Nat) (s : CurveSample),
        curve[i]? = some s → i + 1 < curve.length → s.elem_id ≠ -1) ∧
    (∀ (m : Tetmesh) (curve : List CurveSample),
      Tet.make_curve lib m grad opt fuel = .ok curve →
      ∀ (i : Nat) (s : CurveSample),
        curve[i]? = some s → i + 1 < curve.length → s.elem_id ≠ -1) ∧
    (∀ (m : Trimesh) (r : LoopEnd),
      Tri.trace lib m grad opt fuel [Tri.seed opt] = .ok r → r.border_reached = true →
      Tri.make_curve lib m grad opt fuel = .ok r.curve) ∧
    (∀ (m : Tetmesh) (r : LoopEnd),
      Tet.trace lib m grad opt fuel [Tet.seed opt] = .ok r → r.border_reached = true →
      Tet.make_curve lib m grad opt fuel = .ok r.curve) := by
  refine ⟨?_, ?_, ?_, ?_⟩
  · intro m curve h i s hs hi
    obtain ⟨r, mid, last, _, h1, h2, h3, h4, _, _, h7⟩ :=
      tri_make_curve_shape lib m grad opt fuel curve h
    refine before_last_of_dropLast (fun s => s.elem_id ≠ -1) curve ?_ i s hs hi
    intro s hs
    rw [h7, h1] at hs
    exact no_boundary_before_last (Tri.seed opt) last mid (Tri.closing m last.elem_id)
      r.border_reached r.locmax_reached hsrc (fun s hm => (h2 s hm).1) h3
      (fun hb => (h4 hb).1) (tri_closing_elem m last.elem_id) s hs
  · intro m curve h i s hs hi
    obtain ⟨r, mid, last, _, h1, h2, h3, h4, _, _, h7⟩ :=
      tet_make_curve_shape lib m grad opt fuel curve h
    refine before_last_of_dropLast (fun s => s.elem_id ≠ -1) curve ?_ i s hs hi
    intro s hs
    rw [h7, h1] at hs
    exact no_boundary_before_last (Tet.seed opt) last mid (Tet.closing m last.elem_id)
      r.border_reached r.locmax_reached hsrc (fun s hm => (h2 s hm).1) h3
      (fun hb => (h4 hb).1) (tet_closing_elem m last.elem_id) s hs
  · intro m r ht hb
    obtain ⟨mid, last, _, _, _, h4, _⟩ := tri_trace_stop lib m grad opt fuel _ r ht
    simp [Tri.make_curve, ht, bind, Except.bind, (h4 hb).1, pure, Except.pure]
  · intro m r ht hb
    obtain ⟨mid, last, _, _, _, h4, _⟩ := tet_trace_stop lib m grad opt fuel _ r ht
    simp [Tet.make_curve, ht, bind, Except.bind, (h4 hb).1, pure, Except.pure]

/-- C1, at the strip and at the two tetrahedra: both traces run into the border, the
Boundary sample is the third and last one. -/
theorem boundary_sample_is_last_witness :
    Tri.make_curve Example.lib (Example.strip (fun _ => false) (-1)) Example.field
        Example.opt0 5
      = .ok [⟨⟨0, 0, 0⟩, 0, -1, 0⟩, ⟨⟨3 / 2, 2, 0⟩, 1, 1, -1⟩, ⟨⟨3, 2, 0⟩, -1, 0, -1⟩] ∧
    Tet.make_curve Example.lib (Example.two_tets fun _ => false) Example.tet_field
        Example.opt0 5
      = .ok [⟨⟨0, 0, 0⟩, 0, -1, 0⟩, ⟨⟨3, 0, 0⟩, 1, 3, -1⟩, ⟨⟨15 / 4, 0, 0⟩, -1, 2, -1⟩] ∧
    (∀ (i : Nat) (s : CurveSample),
      ([⟨⟨0, 0, 0⟩, 0, -1, 0⟩, ⟨⟨3 / 2, 2, 0⟩, 1, 1, -1⟩, ⟨⟨3, 2, 0⟩, -1, 0, -1⟩] :
        List CurveSample)[i]? = some s → i + 1 < 3 → s.elem_id ≠ -1) ∧
    (∀ (i : Nat) (s : CurveSample),
      ([⟨⟨0, 0, 0⟩, 0, -1, 0⟩, ⟨⟨3, 0, 0⟩, 1, 3, -1⟩, ⟨⟨15 / 4, 0, 0⟩, -1, 2, -1⟩] :
        List CurveSample)[i]? = some s → i + 1 < 3 → s.elem_id ≠ -1) :=
  have hsrc : Example.opt0.source_tid ≠ -1 := by decide
  have ht : Tri.make_curve Example.lib (Example.strip (fun _ => false) (-1)) Example.field
        Example.opt0 5
      = .ok [⟨⟨0, 0, 0⟩, 0, -1, 0⟩, ⟨⟨3 / 2, 2, 0⟩, 1, 1, -1⟩, ⟨⟨3, 2, 0⟩, -1, 0, -1⟩] := by
    decide!
  have hv : Tet.make_curve Example.lib (Example.two_tets fun _ => false) Example.tet_field
        Example.opt0 5
      = .ok [⟨⟨0, 0, 0⟩, 0, -1, 0⟩, ⟨⟨3, 0, 0⟩, 1, 3, -1⟩, ⟨⟨15 / 4, 0, 0⟩, -1, 2, -1⟩] := by
    decide!
  ⟨ht, hv,
    (boundary_sample_is_last Example.lib Example.field Example.opt0 5 hsrc).1 _ _ ht,
    (boundary_sample_is_last Example.lib Example.tet_field Example.opt0 5 hsrc).2.1 _ _ hv⟩


/-! ## C2: the first sample is the source sample -/

/-- C2: the first sample of a curve built by `make_curve` is the source sample: position
`opt.source_pos`, element `opt.source_tid`, vertex `opt.source_vid`, gate None (`-1`); and
for each of the three constructors that position is the position of the source vertex.
Surface and volumetric. -/
theorem first_sample_is_source (lib : Lib) (grad : VectorField) (fuel : Nat)
    (curve : List CurveSample) :
    (∀ (m : Trimesh) (opt : Options), Tri.make_curve lib m grad opt fuel = .ok curve →
      curve.head? = some ⟨opt.source_pos, opt.source_tid, -1, opt.source_vid⟩) ∧
    (∀ (m : Tetmesh) (opt : Options), Tet.make_curve lib m grad opt fuel = .ok curve →
      curve.head? = some ⟨opt.source_pos, opt.source_tid, -1, opt.source_vid⟩) ∧
    (∀ (m : Trimesh) (opt0 : Options) (source_tid source_vid : Int),
      Tri.IntegralCurve lib m grad opt0 source_tid source_vid fuel = .ok curve →
      curve.head? = some ⟨m.vertex source_vid, source_tid, -1, source_vid⟩) ∧
    (∀ (m : Trimesh) (opt0 : Options) (source_tid source_vid : Int) (value : ℚ),
      Tri.IntegralCurve_val lib m grad opt0 source_tid source_vid value fuel = .ok curve →
      curve.head? = some ⟨m.vertex source_vid, source_tid, -1, source_vid⟩) ∧
    (∀ (m : Trimesh) (opt0 : Options) (source_tid source_vid target : Int),
      Tri.IntegralCurve_vtx lib m grad opt0 source_tid source_vid target fuel = .ok curve →
      curve.head? = some ⟨m.vertex source_vid, source_tid, -1, source_vid⟩) ∧
    (∀ (m : Tetmesh) (opt0 : Options) (source_tid source_vid : Int),
      Tet.IntegralCurve lib m grad opt0 source_tid source_vid fuel = .ok curve →
      curve.head? = some ⟨m.vertex source_vid, source_tid, -1, source_vid⟩) ∧
    (∀ (m : Tetmesh) (opt0 : Options) (source_tid source_vid : Int) (value : ℚ),
      Tet.IntegralCurve_val lib m grad opt0 source_tid source_vid value fuel = .ok curve →
      curve.head? = some ⟨m.vertex source_vid, source_tid, -1, source_vid⟩) ∧
    (∀ (m : Tetmesh) (opt0 : Options) (source_tid source_vid target : Int),
      Tet.IntegralCurve_vtx lib m grad opt0 source_tid source_vid target fuel = .ok curve →
      curve.head? = some ⟨m.vertex source_vid, source_tid, -1, source_vid⟩) := by
  have ht : ∀ (m : Trimesh) (opt : Options), Tri.make_curve lib m grad opt fuel = .ok curve →
      curve.head? = some ⟨opt.source_pos, opt.source_tid, -1, opt.source_vid⟩ := by
    intro m opt h
    obtain ⟨r, mid, last, _, h1, _, _, _, _, _, h7⟩ :=
      tri_make_curve_shape lib m grad opt fuel curve h
    rw [h7, h1]
    rfl
  have hv : ∀ (m : Tetmesh) (opt : Options), Tet.make_curve lib m grad opt fuel = .ok curve →
      curve.head? = some ⟨opt.source_pos, opt.source_tid, -1, opt.source_vid⟩ := by
    intro m opt h
    obtain ⟨r, mid, last, _, h1, _, _, _, _, _, h7⟩ :=
      tet_make_curve_shape lib m grad opt fuel curve h
    rw [h7, h1]
    rfl
  exact ⟨ht, hv, fun m _ _ _ h => ht m _ h, fun m _ _ _ _ h => ht m _ h,
    fun m _ _ _ _ h => ht m _ h, fun m _ _ _ h => hv m _ h, fun m _ _ _ _ h => hv m _ h,
    fun m _ _ _ _ h => hv m _ h⟩

/-- C2, at the strip (target vertex 1) and at the two tetrahedra (threshold 1/2), both
traced from element 0 and vertex 0. -/
theorem first_sample_is_source_witness :
    Tri.IntegralCurve_vtx Example.lib (Example.strip (fun _ => false) (-1)) Example.field
        Example.opt0 0 0 1 5
      = .ok [⟨⟨0, 0, 0⟩, 0, -1, 0⟩, ⟨⟨3 / 2, 2, 0⟩, 1, 1, -1⟩] ∧
    Tet.IntegralCurve_val Example.lib (Example.two_tets fun _ => false) Example.tet_field
        Example.opt0 0 0 (1 / 2) 5
      = .ok [⟨⟨0, 0, 0⟩, 0, -1, 0⟩, ⟨⟨3, 0, 0⟩, 1, 3, -1⟩] ∧
    ([⟨⟨0, 0, 0⟩, 0, -1, 0⟩, ⟨⟨3 / 2, 2, 0⟩, 1, 1, -1⟩] : List CurveSample).head?
      = some ⟨(Example.strip (fun _ => false) (-1)).vertex 0, 0, -1, 0⟩ ∧
    ([⟨⟨0, 0, 0⟩, 0, -1, 0⟩, ⟨⟨3, 0, 0⟩, 1, 3, -1⟩] : List CurveSample).head?
      = some ⟨(Example.two_tets fun _ => false).vertex 0, 0, -1, 0⟩ :=
  have ht : Tri.IntegralCurve_vtx Example.lib (Example.strip (fun _ => false) (-1))
        Example.field Example.opt0 0 0 1 5
      = .ok [⟨⟨0, 0, 0⟩, 0, -1, 0⟩, ⟨⟨3 / 2, 2, 0⟩, 1, 1, -1⟩] := by decide!
  have hv : Tet.IntegralCurve_val Example.lib (Example.two_tets fun _ => false)
        Example.tet_field Example.opt0 0 0 (1 / 2) 5
      = .ok [⟨⟨0, 0, 0⟩, 0, -1, 0⟩, ⟨⟨3, 0, 0⟩, 1, 3, -1⟩] := by decide!
  ⟨ht, hv,
    (first_sample_is_source Example.lib Example.field 5 _).2.2.2.2.1 _ _ _ _ _ ht,
    (first_sample_is_source Example.lib Example.tet_field 5 _).2.2.2.2.2.2.1 _ _ _ _ _ hv⟩


/-! ## C3: the stop element is the first tested element that satisfies the criterion -/

theorem tri_is_converged_satisfies (m : Trimesh) (opt : Options) (tid : Int)
    (hcrit : opt.convergence_criterion = STOP_AT_GIVEN_VAL ∨
      opt.convergence_criterion = STOP_AT_GIVEN_VTX) :
    Tri.is_converged m opt tid opt.convergence_criterion = .ok (Tri.satisfies m opt tid) := by
  rcases hcrit with h | h <;>
    simp [Tri.is_converged, Tri.satisfies, h, STOP_AT_GIVEN_VAL, STOP_AT_GIVEN_VTX,
      STOP_AT_LOCAL_MAX]

theorem tet_is_converged_satisfies (m : Tetmesh) (opt : Options) (tid : Int)
    (hcrit : opt.convergence_criterion = STOP_AT_GIVEN_VAL ∨
      opt.convergence_criterion = STOP_AT_GIVEN_VTX) :
    Tet.is_converged m opt tid opt.convergence_criterion = .ok (Tet.satisfies m opt tid) := by
  rcases hcrit with h | h <;>
    simp [Tet.is_converged, Tet.satisfies, h, STOP_AT_GIVEN_VAL, STOP_AT_GIVEN_VTX,
      STOP_AT_LOCAL_MAX]

/-- C3 as written fails: on the strip, traced from vertex 0 in triangle 0 towards target
vertex 1, the loop stops with `target_reached` at the second sample, in triangle 1, while
the element of the earlier sample (the source, triangle 0) contains the target vertex
too. -/
theorem target_stop_counterexample :
    (Example.opt_vtx 1).convergence_criterion = STOP_AT_GIVEN_VTX ∧
    Tri.trace Example.lib (Example.strip (fun _ => false) (-1)) Example.field
        (Example.opt_vtx 1) 5 [Tri.seed (Example.opt_vtx 1)]
      = .ok ⟨[⟨⟨0, 0, 0⟩, 0, -1, 0⟩, ⟨⟨3 / 2, 2, 0⟩, 1, 1, -1⟩], false, false, true⟩ ∧
    ∃ s ∈ ([⟨⟨0, 0, 0⟩, 0, -1, 0⟩, ⟨⟨3 / 2, 2, 0⟩, 1, 1, -1⟩] : List CurveSample).dropLast,
      Tri.satisfies (Example.strip (fun _ => false) (-1)) (Example.opt_vtx 1) s.elem_id
        = true := by
  refine ⟨rfl, by decide!, ⟨⟨⟨0, 0, 0⟩, 0, -1, 0⟩, by simp, by decide⟩⟩

/-- C3, amended: for a trace configured with `GIVEN_VALUE` or `GIVEN_VERTEX` whose loop
stops with `target_reached`, the curve of the loop is the source sample, then samples whose
elements do not satisfy the criterion, then the stop sample, whose element satisfies it.
The source sample's element is not tested. Surface and volumetric. -/
theorem target_stop_is_first_tested (lib : Lib) (grad : VectorField) (opt : Options)
    (fuel : Nat)
    (hcrit : opt.convergence_criterion = STOP_AT_GIVEN_VAL ∨
      opt.convergence_criterion = STOP_AT_GIVEN_VTX) :
    (∀ (m : Trimesh) (r : LoopEnd),
      Tri.trace lib m grad opt fuel [Tri.seed opt] = .ok r → r.target_reached = true →
      ∃ mid last, r.curve = Tri.seed opt :: (mid ++ [last]) ∧
        Tri.satisfies m opt last.elem_id = true ∧
        ∀ s ∈ mid, Tri.satisfies m opt s.elem_id = false) ∧
    (∀ (m : Tetmesh) (r : LoopEnd),
      Tet.trace lib m grad opt fuel [Tet.seed opt] = .ok r → r.target_reached = true →
      ∃ mid last, r.curve = Tet.seed opt :: (mid ++ [last]) ∧
        Tet.satisfies m opt last.elem_id = true ∧
        ∀ s ∈ mid, Tet.satisfies m opt s.elem_id = false) := by
  constructor
  · intro m r ht htr
    obtain ⟨mid, last, h1, h2, _, h4, h5, _⟩ := tri_trace_stop lib m grad opt fuel _ r ht
    have hb : r.border_reached = false := by
      cases hbr : r.border_reached
      · rfl
      · rw [(h4 hbr).2] at htr; exact absurd htr (by simp)
    refine ⟨mid, last, by simpa using h1, ?_, ?_⟩
    · have := (h5 hb).2
      rw [tri_is_converged_satisfies m opt _ hcrit, htr] at this
      simpa using this
    · intro s hs
      have := (h2 s hs).2.2
      rw [tri_is_converged_satisfies m opt _ hcrit] at this
      simpa using this
  · intro m r ht htr
    obtain ⟨mid, last, h1, h2, _, h4, h5, _⟩ := tet_trace_stop lib m grad opt fuel _ r ht
    have hb : r.border_reached = false := by
      cases hbr : r.border_reached
      · rfl
      · rw [(h4 hbr).2] at htr; exact absurd htr (by simp)
    refine ⟨mid, last, by simpa using h1, ?_, ?_⟩
    · have := (h5 hb).2
      rw [tet_is_converged_satisfies m opt _ hcrit, htr] at this
      simpa using this
    · intro s hs
      have := (h2 s hs).2.2
      rw [tet_is_converged_satisfies m opt _ hcrit] at this
      simpa using this

/-- C3 amended, at the three-triangle strip with threshold 3/2 (the loop passes triangle 1,
minimum 1, and stops in triangle 2, minimum 2) and at the two tetrahedra with threshold
1/2. -/
theorem target_stop_is_first_tested_witness :
    ((Example.opt_val (3 / 2)).convergence_criterion = STOP_AT_GIVEN_VAL ∨
      (Example.opt_val (3 / 2)).convergence_criterion = STOP_AT_GIVEN_VTX) ∧
    Tri.trace Example.lib Example.strip3 Example.field (Example.opt_val (3 / 2)) 5
        [Tri.seed (Example.opt_val (3 / 2))]
      = .ok ⟨[⟨⟨0, 0, 0⟩, 0, -1, 0⟩, ⟨⟨3 / 2, 2, 0⟩, 1, 1, -1⟩, ⟨⟨3, 2, 0⟩, 2, 0, -1⟩],
          false, false, true⟩ ∧
    (∃ mid last,
      ([⟨⟨0, 0, 0⟩, 0, -1, 0⟩, ⟨⟨3 / 2, 2, 0⟩, 1, 1, -1⟩, ⟨⟨3, 2, 0⟩, 2, 0, -1⟩] :
          List CurveSample) = Tri.seed (Example.opt_val (3 / 2)) :: (mid ++ [last]) ∧
        Tri.satisfies Example.strip3 (Example.opt_val (3 / 2)) last.elem_id = true ∧
        ∀ s ∈ mid, Tri.satisfies Example.strip3 (Example.opt_val (3 / 2)) s.elem_id = false) ∧
    Tet.trace Example.lib (Example.two_tets fun _ => false) Example.tet_field
        (Example.opt_val (1 / 2)) 5 [Tet.seed (Example.opt_val (1 / 2))]
      = .ok ⟨[⟨⟨0, 0, 0⟩, 0, -1, 0⟩, ⟨⟨3, 0, 0⟩, 1, 3, -1⟩], false, false, true⟩ ∧
    (∃ mid last,
      ([⟨⟨0, 0, 0⟩, 0, -1, 0⟩, ⟨⟨3, 0, 0⟩, 1, 3, -1⟩] : List CurveSample)
          = Tet.seed (Example.opt_val (1 / 2)) :: (mid ++ [last]) ∧
        Tet.satisfies (Example.two_tets fun _ => false) (Example.opt_val (1 / 2))
          last.elem_id = true ∧
        ∀ s ∈ mid, Tet.satisfies (Example.two_tets fun _ => false) (Example.opt_val (1 / 2))
          s.elem_id = false) :=
  have hcrit : (Example.opt_val (3 / 2)).convergence_criterion = STOP_AT_GIVEN_VAL ∨
      (Example.opt_val (3 / 2)).convergence_criterion = STOP_AT_GIVEN_VTX := Or.inl rfl
  have hcrit2 : (Example.opt_val (1 / 2)).convergence_criterion = STOP_AT_GIVEN_VAL ∨
      (Example.opt_val (1 / 2)).convergence_criterion = STOP_AT_GIVEN_VTX := Or.inl rfl
  have ht : Tri.trace Example.lib Example.strip3 Example.field (Example.opt_val (3 / 2)) 5
        [Tri.seed (Example.opt_val (3 / 2))]
      = .ok ⟨[⟨⟨0, 0, 0⟩, 0, -1, 0⟩, ⟨⟨3 / 2, 2, 0⟩, 1, 1, -1⟩, ⟨⟨3, 2, 0⟩, 2, 0, -1⟩],
          false, false, true⟩ := by decide!
  have hv : Tet.trace Example.lib (Example.two_tets fun _ => false) Example.tet_field
        (Example.opt_val (1 / 2)) 5 [Tet.seed (Example.opt_val (1 / 2))]
      = .ok ⟨[⟨⟨0, 0, 0⟩, 0, -1, 0⟩, ⟨⟨3, 0, 0⟩, 1, 3, -1⟩], false, false, true⟩ := by
    decide!
  ⟨hcrit, ht,
    (target_stop_is_first_tested Example.lib Example.field (Example.opt_val (3 / 2)) 5
      hcrit).1 _ _ ht rfl,
    hv,
    (target_stop_is_first_tested Example.lib Example.tet_field (Example.opt_val (1 / 2)) 5
      hcrit2).2 _ _ hv rfl⟩


/-! ## C4 and C10: the closing samples -/

theorem tri_make_curve_of_trace (lib : Lib) (m : Trimesh) (grad : VectorField)
    (opt : Options) (fuel : Nat) (r : LoopEnd)
    (h : Tri.trace lib m grad opt fuel [Tri.seed opt] = .ok r) :
    Tri.make_curve lib m grad opt fuel =
      .ok (if r.locmax_reached then r.curve ++ Tri.closing m (back r.curve).elem_id
           else r.curve) := by
  cases hl : r.locmax_reached <;>
    simp [Tri.make_curve, h, bind, Except.bind, pure, Except.pure, hl, tri_close_eq]

theorem tet_make_curve_of_trace (lib : Lib) (m : Tetmesh) (grad : VectorField)
    (opt : Options) (fuel : Nat) (r : LoopEnd)
    (h : Tet.trace lib m grad opt fuel [Tet.seed opt] = .ok r) :
    Tet.make_curve lib m grad opt fuel =
      .ok (if r.locmax_reached then r.curve ++ Tet.closing m (back r.curve).elem_id
           else r.curve) := by
  cases hl : r.locmax_reached <;>
    simp [Tet.make_curve, h, bind, Except.bind, pure, Except.pure, hl, tet_close_eq]

theorem tri_closing_ne_nil (m : Trimesh) (opt : Options) (e : Int)
    (h : Tri.is_converged m opt e STOP_AT_LOCAL_MAX = .ok true) : Tri.closing m e ≠ [] := by
  simp only [Tri.is_converged, if_true, Except.ok.injEq, List.any_cons, List.any_nil,
    Bool.or_false] at h
  simp only [Tri.closing, List.filter]
  cases h0 : m.vertex_is_local_maxima (m.triangle_vertex_id e 0) <;>
  cases h1 : m.vertex_is_local_maxima (m.triangle_vertex_id e 1) <;>
  cases h2 : m.vertex_is_local_maxima (m.triangle_vertex_id e 2) <;>
  simp [h0, h1, h2] at h ⊢

theorem tet_closing_ne_nil (m : Tetmesh) (opt : Options) (e : Int)
    (h : Tet.is_converged m opt e STOP_AT_LOCAL_MAX = .ok true) : Tet.closing m e ≠ [] := by
  simp only [Tet.is_converged, if_true, Except.ok.injEq, List.any_cons, List.any_nil,
    Bool.or_false] at h
  simp only [Tet.closing, List.filter]
  cases h0 : m.vertex_is_local_maxima (m.tet_vertex_id e 0) <;>
  cases h1 : m.vertex_is_local_maxima (m.tet_vertex_id e 1) <;>
  cases h2 : m.vertex_is_local_maxima (m.tet_vertex_id e 2) <;>
  cases h3 : m.vertex_is_local_maxima (m.tet_vertex_id e 3) <;>
  simp [h0, h1, h2, h3] at h ⊢

/-- When the loop stops with `locmax_reached`, the stop sample is in a mesh element on
which `is_converged` with `STOP_AT_LOCAL_MAX` holds. Surface variant. -/
theorem tri_locmax_stop (lib : Lib) (m : Trimesh) (grad : VectorField) (opt : Options)
    (fuel : Nat) (r : LoopEnd)
    (h : Tri.trace lib m grad opt fuel [Tri.seed opt] = .ok r)
    (hl : r.locmax_reached = true) :
    ∃ last, r.curve.getLast? = some last ∧ back r.curve = last ∧
      Tri.is_converged m opt last.elem_id STOP_AT_LOCAL_MAX = .ok true := by
  obtain ⟨mid, last, h1, _, _, h4, h5, _⟩ := tri_trace_stop lib m grad opt fuel _ r h
  have hb : r.border_reached = false := by
    cases hbr : r.border_reached
    · rfl
    · rw [(h4 hbr).1] at hl; exact absurd hl (by simp)
  refine ⟨last, by rw [h1, List.getLast?_concat], by rw [h1, back_push], ?_⟩
  rw [(h5 hb).1, hl]

/-- When the loop stops with `locmax_reached`, the stop sample is in a mesh element on
which `is_converged` with `STOP_AT_LOCAL_MAX` holds. Volumetric variant. -/
theorem tet_locmax_stop (lib : Lib) (m : Tetmesh) (grad : VectorField) (opt : Options)
    (fuel : Nat) (r : LoopEnd)
    (h : Tet.trace lib m grad opt fuel [Tet.seed opt] = .ok r)
    (hl : r.locmax_reached = true) :
    ∃ last, r.curve.getLast? = some last ∧ back r.curve = last ∧
      Tet.is_converged m opt last.elem_id STOP_AT_LOCAL_MAX = .ok true := by
  obtain ⟨mid, last, h1, _, _, h4, h5, _⟩ := tet_trace_stop lib m grad opt fuel _ r h
  have hb : r.border_reached = false := by
    cases hbr : r.border_reached
    · rfl
    · rw [(h4 hbr).1] at hl; exact absurd hl (by simp)
  refine ⟨last, by rw [h1, List.getLast?_concat], by rw [h1, back_push], ?_⟩
  rw [(h5 hb).1, hl]

theorem getLast?_append_of_ne_nil {α : Type} (l k : List α) (hk : k ≠ []) :
    ∃ a, (l ++ k).getLast? = some a ∧ a ∈ k := by
  refine ⟨k.getLast hk, ?_, List.getLast_mem hk⟩
  rw [List.getLast?_append, List.getLast?_eq_getLast k hk]
  rfl

/-- C4: on a mesh where exactly one vertex `v` is flagged as a local maximum, a trace whose
loop stops with `locmax_reached` builds a curve whose last sample has the position of `v`
(surface and volumetric) and, in the surface variant, `vert_id = v`. -/
theorem locmax_stop_ends_at_the_maximum (lib : Lib) (grad : VectorField) (opt : Options)
    (fuel : Nat) (v : Int) :
    (∀ (m : Trimesh) (r : LoopEnd), (∀ w, m.vertex_is_local_maxima w = true ↔ w = v) →
      Tri.trace lib m grad opt fuel [Tri.seed opt] = .ok r → r.locmax_reached = true →
      ∃ curve last, Tri.make_curve lib m grad opt fuel = .ok curve ∧
        curve.getLast? = some last ∧ last.pos = m.vertex v ∧ last.vert_id = v) ∧
    (∀ (m : Tetmesh) (r : LoopEnd), (∀ w, m.vertex_is_local_maxima w = true ↔ w = v) →
      Tet.trace lib m grad opt fuel [Tet.seed opt] = .ok r → r.locmax_reached = true →
      ∃ curve last, Tet.make_curve lib m grad opt fuel = .ok curve ∧
        curve.getLast? = some last ∧ last.pos = m.vertex v) := by
  constructor
  · intro m r hv ht hl
    obtain ⟨last, _, hback, hconv⟩ := tri_locmax_stop lib m grad opt fuel r ht hl
    obtain ⟨a, ha, hmem⟩ :=
      getLast?_append_of_ne_nil r.curve _ (tri_closing_ne_nil m opt last.elem_id hconv)
    refine ⟨_, a, ?_, ha, ?_⟩
    · rw [tri_make_curve_of_trace lib m grad opt fuel r ht, hl, hback]; rfl
    · simp only [Tri.closing, List.mem_map, List.mem_filter] at hmem
      obtain ⟨i, ⟨_, hi⟩, rfl⟩ := hmem
      rw [(hv _).1 hi]
      exact ⟨rfl, rfl⟩
  · intro m r hv ht hl
    obtain ⟨last, _, hback, hconv⟩ := tet_locmax_stop lib m grad opt fuel r ht hl
    obtain ⟨a, ha, hmem⟩ :=
      getLast?_append_of_ne_nil r.curve _ (tet_closing_ne_nil m opt last.elem_id hconv)
    refine ⟨_, a, ?_, ha, ?_⟩
    · rw [tet_make_curve_of_trace lib m grad opt fuel r ht, hl, hback]; rfl
    · simp only [Tet.closing, List.mem_map, List.mem_filter] at hmem
      obtain ⟨i, ⟨_, hi⟩, rfl⟩ := hmem
      rw [(hv _).1 hi]


/-- C4, at the strip with vertex 3 as the only local maximum and at the two tetrahedra with
vertex 2 as the only local maximum: both loops stop with `locmax_reached` in element 1. -/
theorem locmax_stop_ends_at_the_maximum_witness :
    (∀ w, (Example.strip (fun w => decide (w = 3)) (-1)).vertex_is_local_maxima w = true
      ↔ w = 3) ∧
    Tri.trace Example.lib (Example.strip (fun w => decide (w = 3)) (-1)) Example.field
        Example.opt0 5 [Tri.seed Example.opt0]
      = .ok ⟨[⟨⟨0, 0, 0⟩, 0, -1, 0⟩, ⟨⟨3 / 2, 2, 0⟩, 1, 1, -1⟩], false, true, true⟩ ∧
    (∃ curve last,
      Tri.make_curve Example.lib (Example.strip (fun w => decide (w = 3)) (-1))
        Example.field Example.opt0 5 = .ok curve ∧
      curve.getLast? = some last ∧
      last.pos = (Example.strip (fun w => decide (w = 3)) (-1)).vertex 3 ∧
      last.vert_id = 3) ∧
    (∀ w, (Example.two_tets fun w => decide (w = 2)).vertex_is_local_maxima w = true
      ↔ w = 2) ∧
    Tet.trace Example.lib (Example.two_tets fun w => decide (w = 2)) Example.tet_field
        Example.opt0 5 [Tet.seed Example.opt0]
      = .ok ⟨[⟨⟨0, 0, 0⟩, 0, -1, 0⟩, ⟨⟨3, 0, 0⟩, 1, 3, -1⟩], false, true, true⟩ ∧
    (∃ curve last,
      Tet.make_curve Example.lib (Example.two_tets fun w => decide (w = 2))
        Example.tet_field Example.opt0 5 = .ok curve ∧
      curve.getLast? = some last ∧
      last.pos = (Example.two_tets fun w => decide (w = 2)).vertex 2) :=
  have h3 : ∀ w, (Example.strip (fun w => decide (w = 3)) (-1)).vertex_is_local_maxima w
      = true ↔ w = 3 := fun w => by simp [Example.strip]
  have h2 : ∀ w, (Example.two_tets fun w => decide (w = 2)).vertex_is_local_maxima w
      = true ↔ w = 2 := fun w => by simp [Example.two_tets]
  have ht : Tri.trace Example.lib (Example.strip (fun w => decide (w = 3)) (-1))
        Example.field Example.opt0 5 [Tri.seed Example.opt0]
      = .ok ⟨[⟨⟨0, 0, 0⟩, 0, -1, 0⟩, ⟨⟨3 / 2, 2, 0⟩, 1, 1, -1⟩], false, true, true⟩ := by
    decide!
  have hv : Tet.trace Example.lib (Example.two_tets fun w => decide (w = 2))
        Example.tet_field Example.opt0 5 [Tet.seed Example.opt0]
      = .ok ⟨[⟨⟨0, 0, 0⟩, 0, -1, 0⟩, ⟨⟨3, 0, 0⟩, 1, 3, -1⟩], false, true, true⟩ := by
    decide!
  ⟨h3, ht,
    (locmax_stop_ends_at_the_maximum Example.lib Example.field Example.opt0 5 3).1
      _ _ h3 ht rfl,
    h2, hv,
    (locmax_stop_ends_at_the_maximum Example.lib Example.tet_field Example.opt0 5 2).2
      _ _ h2 hv rfl⟩

/-! ### C10: the surface closing step appends one sample per flagged vertex -/

/-- C10 as written fails: on the strip with the vertices 1 and 2 flagged, the loop stops
with `locmax_reached` in triangle `1 = (1,3,2)` and `make_curve` appends two closing
samples, at vertex 1 and at vertex 2. -/
theorem tri_closing_counterexample :
    Tri.trace Example.lib (Example.strip (fun w => decide (w = 1 ∨ w = 2)) (-1))
        Example.field Example.opt0 5 [Tri.seed Example.opt0]
      = .ok ⟨[⟨⟨0, 0, 0⟩, 0, -1, 0⟩, ⟨⟨3 / 2, 2, 0⟩, 1, 1, -1⟩], false, true, true⟩ ∧
    Tri.make_curve Example.lib (Example.strip (fun w => decide (w = 1 ∨ w = 2)) (-1))
        Example.field Example.opt0 5
      = .ok ([⟨⟨0, 0, 0⟩, 0, -1, 0⟩, ⟨⟨3 / 2, 2, 0⟩, 1, 1, -1⟩] ++
          [⟨⟨3, 0, 0⟩, 1, -1, 1⟩, ⟨⟨0, 4, 0⟩, 1, -1, 2⟩]) := by
  constructor <;> decide!

/-- C10, amended: when the loop of the surface `make_curve` stops with `locmax_reached` in
final element `e`, the curve returned is the curve of the loop followed by one closing
sample for each local vertex of `e` flagged as a local maximum, in increasing local index,
each at the position of its vertex, with that vertex as `vert_id`, element `e` and gate
None; there is at least one, the first is at the lowest flagged local index, and there are
as many as flagged local vertices. -/
theorem tri_closing_step (lib : Lib) (m : Trimesh) (grad : VectorField) (opt : Options)
    (fuel : Nat) (r : LoopEnd)
    (ht : Tri.trace lib m grad opt fuel [Tri.seed opt] = .ok r)
    (hl : r.locmax_reached = true) :
    ∃ last, r.curve.getLast? = some last ∧
      Tri.make_curve lib m grad opt fuel = .ok (r.curve ++ Tri.closing m last.elem_id) ∧
      Tri.closing m last.elem_id =
        ([0, 1, 2].filter fun i =>
            m.vertex_is_local_maxima (m.triangle_vertex_id last.elem_id i)).map
          (fun i => ⟨m.vertex (m.triangle_vertex_id last.elem_id i), last.elem_id, -1,
            m.triangle_vertex_id last.elem_id i⟩) ∧
      (Tri.closing m last.elem_id).length =
        ([0, 1, 2].filter fun i =>
            m.vertex_is_local_maxima (m.triangle_vertex_id last.elem_id i)).length ∧
      1 ≤ (Tri.closing m last.elem_id).length ∧
      ∃ i, ([0, 1, 2].find? fun i =>
            m.vertex_is_local_maxima (m.triangle_vertex_id last.elem_id i)) = some i ∧
        (Tri.closing m last.elem_id).head? =
          some ⟨m.vertex (m.triangle_vertex_id last.elem_id i), last.elem_id, -1,
            m.triangle_vertex_id last.elem_id i⟩ := by
  obtain ⟨last, hlast, hback, hconv⟩ := tri_locmax_stop lib m grad opt fuel r ht hl
  have hne := tri_closing_ne_nil m opt last.elem_id hconv
  refine ⟨last, hlast, ?_, rfl, by simp [Tri.closing], ?_, ?_⟩
  · rw [tri_make_curve_of_trace lib m grad opt fuel r ht, hl, hback]; rfl
  · cases hc : Tri.closing m last.elem_id with
    | nil => exact absurd hc hne
    | cons a l => simp
  · simp only [Tri.closing, List.filter, List.find?] at hne ⊢
    cases h0 : m.vertex_is_local_maxima (m.triangle_vertex_id last.elem_id 0) <;>
    cases h1 : m.vertex_is_local_maxima (m.triangle_vertex_id last.elem_id 1) <;>
    cases h2 : m.vertex_is_local_maxima (m.triangle_vertex_id last.elem_id 2) <;>
    simp [h0, h1, h2] at hne ⊢

/-- C10 amended, at the strip with the vertices 1 and 2 flagged. -/
theorem tri_closing_step_witness :
    ∃ last,
      ([⟨⟨0, 0, 0⟩, 0, -1, 0⟩, ⟨⟨3 / 2, 2, 0⟩, 1, 1, -1⟩] : List CurveSample).getLast?
        = some last ∧
      Tri.make_curve Example.lib (Example.strip (fun w => decide (w = 1 ∨ w = 2)) (-1))
          Example.field Example.opt0 5
        = .ok ([⟨⟨0, 0, 0⟩, 0, -1, 0⟩, ⟨⟨3 / 2, 2, 0⟩, 1, 1, -1⟩] ++
            Tri.closing (Example.strip (fun w => decide (w = 1 ∨ w = 2)) (-1))
              last.elem_id) ∧
      (Tri.closing (Example.strip (fun w => decide (w = 1 ∨ w = 2)) (-1))
          last.elem_id).length = 2 :=
  have ht : Tri.trace Example.lib (Example.strip (fun w => decide (w = 1 ∨ w = 2)) (-1))
        Example.field Example.opt0 5 [Tri.seed Example.opt0]
      = .ok ⟨[⟨⟨0, 0, 0⟩, 0, -1, 0⟩, ⟨⟨3 / 2, 2, 0⟩, 1, 1, -1⟩], false, true, true⟩ := by
    decide!
  match tri_closing_step Example.lib _ Example.field Example.opt0 5 _ ht rfl with
  | ⟨last, h1, h2, _, _, _, _⟩ =>
    ⟨last, h1, h2, by
      have hl : last = ⟨⟨3 / 2, 2, 0⟩, 1, 1, -1⟩ := by
        simpa using h1.symm
      subst hl
      decide⟩


/-! ## C5: the surface step at a border edge -/

/-- C5, the code at a border exit: on the strip, the sample at `(3/2, 2)` in triangle 1
with field `(1,0,0)` leaves through local edge 0, the border edge `(1,3)`. The surface
`traverse_element` then runs `gradient_skins_into` on the candidate with `elem_id = -1`,
and what it returns depends on what the mesh answers about element `-1`: with the answer
`-1` the Boundary sample, with the answer `1` (the current element) the corrected sample
in triangle 0 at vertex 1, with gate None. The two meshes differ in nothing else. -/
theorem tri_border_step_reads_element_minus_one :
    Tri.find_exit_gate Example.lib (Example.strip (fun _ => false) (-1))
        ⟨⟨3 / 2, 2, 0⟩, 1, 1, -1⟩ (Example.lib.normalize (Example.field.vec_at 1)) = 0 ∧
    (Example.strip (fun _ => false) (-1)).triangle_adjacent_along 1 1 3 = -1 ∧
    (Example.strip (fun _ => false) 1).triangle_adjacent_along 1 1 3 = -1 ∧
    Tri.traverse_element Example.lib (Example.strip (fun _ => false) (-1)) Example.field
        ⟨⟨3 / 2, 2, 0⟩, 1, 1, -1⟩ = .ok ⟨⟨3, 2, 0⟩, -1, 0, -1⟩ ∧
    Tri.gradient_skins_into Example.lib (Example.strip (fun _ => false) 1) Example.field
        ⟨⟨3 / 2, 2, 0⟩, 1, 1, -1⟩ ⟨⟨3, 2, 0⟩, -1, 0, -1⟩ = true ∧
    Tri.traverse_element Example.lib (Example.strip (fun _ => false) 1) Example.field
        ⟨⟨3 / 2, 2, 0⟩, 1, 1, -1⟩ = .ok ⟨⟨3, 0, 0⟩, 0, -1, 1⟩ := by
  refine ⟨?_, ?_, ?_, ?_, ?_, ?_⟩ <;> decide!

/-! ## C6: `is_converged` with `STOP_AT_LOCAL_MAX` -/

/-- The surface `is_converged` with `STOP_AT_LOCAL_MAX` tests the three vertices of the
triangle; the volumetric one tests the local vertices 0, 1, 2 of the tetrahedron and not
the local vertex 3. -/
theorem is_converged_local_max_eq (mt : Trimesh) (mv : Tetmesh) (opt : Options)
    (tid : Int) :
    Tri.is_converged mt opt tid STOP_AT_LOCAL_MAX =
      .ok (mt.vertex_is_local_maxima (mt.triangle_vertex_id tid 0) ||
        mt.vertex_is_local_maxima (mt.triangle_vertex_id tid 1) ||
        mt.vertex_is_local_maxima (mt.triangle_vertex_id tid 2)) ∧
    Tet.is_converged mv opt tid STOP_AT_LOCAL_MAX =
      .ok (mv.vertex_is_local_maxima (mv.tet_vertex_id tid 0) ||
        mv.vertex_is_local_maxima (mv.tet_vertex_id tid 1) ||
        mv.vertex_is_local_maxima (mv.tet_vertex_id tid 2)) := by
  constructor <;> simp [Tri.is_converged, Tet.is_converged, Bool.or_assoc]

/-- C6, the code at a tetrahedron whose only flagged vertex has local index 3: in the two
tetrahedra with vertex 4 flagged, vertex 4 is the local vertex 3 of tetrahedron 1,
`is_converged` with `STOP_AT_LOCAL_MAX` answers false on tetrahedron 1, and the curve
traced towards it passes tetrahedron 1 and ends at the border. -/
theorem tet_is_converged_skips_fourth_vertex :
    (Example.two_tets fun w => decide (w = 4)).vertex_is_local_maxima
        ((Example.two_tets fun w => decide (w = 4)).tet_vertex_id 1 3) = true ∧
    Tet.is_converged (Example.two_tets fun w => decide (w = 4)) Example.opt0 1
        STOP_AT_LOCAL_MAX = .ok false ∧
    Tet.make_curve Example.lib (Example.two_tets fun w => decide (w = 4)) Example.tet_field
        Example.opt0 5
      = .ok [⟨⟨0, 0, 0⟩, 0, -1, 0⟩, ⟨⟨3, 0, 0⟩, 1, 3, -1⟩, ⟨⟨15 / 4, 0, 0⟩, -1, 2, -1⟩] := by
  refine ⟨?_, ?_, ?_⟩ <;> decide!

/-! ## C7 and C8: `is_converged` with `STOP_AT_GIVEN_VAL`, and the unknown tag -/

/-- C7: `is_converged` with `STOP_AT_GIVEN_VAL` returns true exactly when the element's
minimum scalar sample is strictly greater than `stop_at_this_value`; it returns false when
the two are equal; and the result is the same whatever the local-maximum flags, the
element-contains-vertex relation and the target vertex are. Surface and volumetric. -/
theorem is_converged_given_value (mt : Trimesh) (mv : Tetmesh) (opt : Options)
    (tid : Int) :
    Tri.is_converged mt opt tid STOP_AT_GIVEN_VAL
      = .ok (decide (mt.triangle_min_u_text tid > opt.stop_at_this_value)) ∧
    Tet.is_converged mv opt tid STOP_AT_GIVEN_VAL
      = .ok (decide (mv.tet_min_u_text tid > opt.stop_at_this_value)) ∧
    (Tri.is_converged mt opt tid STOP_AT_GIVEN_VAL = .ok true
      ↔ mt.triangle_min_u_text tid > opt.stop_at_this_value) ∧
    (Tet.is_converged mv opt tid STOP_AT_GIVEN_VAL = .ok true
      ↔ mv.tet_min_u_text tid > opt.stop_at_this_value) ∧
    Tri.is_converged mt { opt with stop_at_this_value := mt.triangle_min_u_text tid } tid
      STOP_AT_GIVEN_VAL = .ok false ∧
    Tet.is_converged mv { opt with stop_at_this_value := mv.tet_min_u_text tid } tid
      STOP_AT_GIVEN_VAL = .ok false ∧
    (∀ (flag : Int → Bool) (contains : Int → Int → Bool) (target : Int),
      Tri.is_converged
          { mt with vertex_is_local_maxima := flag, triangle_contains_vertex := contains }
          { opt with stop_at_this_vertex := target } tid STOP_AT_GIVEN_VAL
        = Tri.is_converged mt opt tid STOP_AT_GIVEN_VAL) ∧
    (∀ (flag : Int → Bool) (contains : Int → Int → Bool) (target : Int),
      Tet.is_converged
          { mv with vertex_is_local_maxima := flag, tet_contains_vertex := contains }
          { opt with stop_at_this_vertex := target } tid STOP_AT_GIVEN_VAL
        = Tet.is_converged mv opt tid STOP_AT_GIVEN_VAL) := by
  refine ⟨?_, ?_, ?_, ?_, ?_, ?_, ?_, ?_⟩ <;>
    simp [Tri.is_converged, Tet.is_converged, STOP_AT_GIVEN_VAL, STOP_AT_LOCAL_MAX]

theorem val_ne_max : STOP_AT_GIVEN_VAL ≠ STOP_AT_LOCAL_MAX := by decide

theorem vtx_ne_max : STOP_AT_GIVEN_VTX ≠ STOP_AT_LOCAL_MAX := by decide

theorem vtx_ne_val : STOP_AT_GIVEN_VTX ≠ STOP_AT_GIVEN_VAL := by decide

/-- C8: `is_converged` aborts on the convergence assertion exactly when the tag is none of
`STOP_AT_LOCAL_MAX`, `STOP_AT_GIVEN_VAL`, `STOP_AT_GIVEN_VTX`, and returns a boolean exactly
when it is one of the three, for every element. Surface and volumetric. -/
theorem is_converged_fails_iff (mt : Trimesh) (mv : Tetmesh) (opt : Options)
    (tid crit : Int) :
    (Tri.is_converged mt opt tid crit = .error Fault.convergence_error ↔
      crit ≠ STOP_AT_LOCAL_MAX ∧ crit ≠ STOP_AT_GIVEN_VAL ∧ crit ≠ STOP_AT_GIVEN_VTX) ∧
    ((∃ b, Tri.is_converged mt opt tid crit = .ok b) ↔
      crit = STOP_AT_LOCAL_MAX ∨ crit = STOP_AT_GIVEN_VAL ∨ crit = STOP_AT_GIVEN_VTX) ∧
    (Tet.is_converged mv opt tid crit = .error Fault.convergence_error ↔
      crit ≠ STOP_AT_LOCAL_MAX ∧ crit ≠ STOP_AT_GIVEN_VAL ∧ crit ≠ STOP_AT_GIVEN_VTX) ∧
    ((∃ b, Tet.is_converged mv opt tid crit = .ok b) ↔
      crit = STOP_AT_LOCAL_MAX ∨ crit = STOP_AT_GIVEN_VAL ∨ crit = STOP_AT_GIVEN_VTX) := by
  refine ⟨?_, ?_, ?_, ?_⟩ <;>
  · by_cases h0 : crit = STOP_AT_LOCAL_MAX
    · simp [Tri.is_converged, Tet.is_converged, h0]
    · by_cases h1 : crit = STOP_AT_GIVEN_VAL
      · simp [Tri.is_converged, Tet.is_converged, h1, val_ne_max]
      · by_cases h2 : crit = STOP_AT_GIVEN_VTX
        · simp [Tri.is_converged, Tet.is_converged, h2, vtx_ne_max, vtx_ne_val]
        · simp [Tri.is_converged, Tet.is_converged, h0, h1, h2]


/-! ## C9: the volumetric `find_exit_gate` -/

/-- One pass of the facet loop either keeps the state or moves it to the scanned facet and
its intersection point. -/
theorem exit_step_cases (lib : Lib) (m : Tetmesh) (s : CurveSample) (d : vec3d)
    (st : Int × vec3d) (f : Int) :
    Tet.exit_step lib m s d st f = st ∨
      ∃ p, Tet.facet_intersection lib m s d f = some p ∧
        lib.length (p.sub s.pos) ≥ lib.length (st.2.sub s.pos) ∧
        Tet.exit_step lib m s d st f = (f, p) := by
  unfold Tet.exit_step
  cases h : Tet.facet_intersection lib m s d f with
  | none => exact Or.inl rfl
  | some p =>
    by_cases hc : lib.length (p.sub s.pos) ≥ lib.length (st.2.sub s.pos)
    · exact Or.inr ⟨p, rfl, hc, by simp [hc]⟩
    · exact Or.inl (by simp [hc])

/-- The facet loop over `l` either keeps the state or ends on a facet of `l` that reports
the intersection point held in the state. -/
theorem exit_fold_cases (lib : Lib) (m : Tetmesh) (s : CurveSample) (d : vec3d)
    (l : List Int) (st : Int × vec3d) :
    l.foldl (Tet.exit_step lib m s d) st = st ∨
      ∃ f ∈ l, ∃ p, Tet.facet_intersection lib m s d f = some p ∧
        l.foldl (Tet.exit_step lib m s d) st = (f, p) := by
  induction l generalizing st with
  | nil => exact Or.inl rfl
  | cons f l ih =>
    rw [List.foldl_cons]
    rcases ih (Tet.exit_step lib m s d st f) with h | ⟨g, hg, p, hp, h⟩
    · rcases exit_step_cases lib m s d st f with h' | ⟨p, hp, _, h'⟩
      · left; rw [h, h']
      · right; exact ⟨f, List.mem_cons_self _ _, p, hp, by rw [h, h']⟩
    · right; exact ⟨g, List.mem_cons_of_mem _ hg, p, hp, h⟩

/-- Started from `exit_facet = -1` and `exit_pos = curr_sample.pos`, the facet loop over a
list of facets with an intersecting one ends on a facet of the list, provided lengths are
non-negative and the zero vector has length zero. -/
theorem exit_fold_found (lib : Lib) (m : Tetmesh) (s : CurveSample) (d : vec3d)
    (h0 : lib.length vec3d.zero = 0) (hnn : ∀ v, 0 ≤ lib.length v)
    (l : List Int) (hl : ∃ f ∈ l, (Tet.facet_intersection lib m s d f).isSome = true) :
    ∃ f ∈ l, ∃ p, Tet.facet_intersection lib m s d f = some p ∧
      l.foldl (Tet.exit_step lib m s d) (-1, s.pos) = (f, p) := by
  induction l with
  | nil => obtain ⟨f, hf, _⟩ := hl; exact absurd hf (List.not_mem_nil f)
  | cons f l ih =>
    rw [List.foldl_cons]
    cases hf : Tet.facet_intersection lib m s d f with
    | none =>
      have hst : Tet.exit_step lib m s d (-1, s.pos) f = (-1, s.pos) := by
        simp [Tet.exit_step, hf]
      rw [hst]
      have hl' : ∃ g ∈ l, (Tet.facet_intersection lib m s d g).isSome = true := by
        obtain ⟨g, hg, hsome⟩ := hl
        rcases List.mem_cons.1 hg with rfl | hg
        · rw [hf] at hsome; exact absurd hsome (by simp)
        · exact ⟨g, hg, hsome⟩
      obtain ⟨g, hg, p, hp, h⟩ := ih hl'
      exact ⟨g, List.mem_cons_of_mem _ hg, p, hp, h⟩
    | some p =>
      have hzero : s.pos.sub s.pos = vec3d.zero := by
        simp [vec3d.sub, vec3d.zero]
      have hst : Tet.exit_step lib m s d (-1, s.pos) f = (f, p) := by
        simp [Tet.exit_step, hf, hzero, h0, hnn]
      rw [hst]
      rcases exit_fold_cases lib m s d l (f, p) with h | ⟨g, hg, q, hq, h⟩
      · exact ⟨f, List.mem_cons_self _ _, p, hf, h⟩
      · exact ⟨g, List.mem_cons_of_mem _ hg, q, hq, h⟩

/-- C9: provided `length` is non-negative and zero on the zero vector, the volumetric
`find_exit_gate` aborts on `assert(exit_facet != -1)` exactly when none of the facets
0, 1, 2, 3 reports a ray-triangle intersection; when it returns, the facet returned is one
of 0, 1, 2, 3 and reports an intersection; and it returns whenever some facet reports one. -/
theorem tet_find_exit_gate_fails_iff (lib : Lib) (m : Tetmesh) (s : CurveSample)
    (d : vec3d) (h0 : lib.length vec3d.zero = 0) (hnn : ∀ v, 0 ≤ lib.length v) :
    (Tet.find_exit_gate lib m s d = .error Fault.no_exit_gate ↔
      ∀ f ∈ [0, 1, 2, 3], Tet.facet_intersection lib m s d f = none) ∧
    (∀ r, Tet.find_exit_gate lib m s d = .ok r →
      r.1 ∈ [0, 1, 2, 3] ∧ (Tet.facet_intersection lib m s d r.1).isSome = true) ∧
    ((∃ f ∈ [0, 1, 2, 3], (Tet.facet_intersection lib m s d f).isSome = true) →
      ∃ r, Tet.find_exit_gate lib m s d = .ok r) := by
  have hfound := exit_fold_found lib m s d h0 hnn [0, 1, 2, 3]
  have hcases := exit_fold_cases lib m s d [0, 1, 2, 3] (-1, s.pos)
  have hne : ∀ f ∈ ([0, 1, 2, 3] : List Int), f ≠ -1 := by
    intro f hf; fin_cases hf <;> decide
  refine ⟨⟨?_, ?_⟩, ?_, ?_⟩
  · intro herr f hf
    cases hi : Tet.facet_intersection lib m s d f with
    | none => rfl
    | some p =>
      obtain ⟨g, hg, q, _, h⟩ := hfound ⟨f, hf, by simp [hi]⟩
      simp only [Tet.find_exit_gate, h] at herr
      rw [if_pos (hne g hg)] at herr
      exact absurd herr (by simp)
  · intro hnone
    rcases hcases with h | ⟨g, hg, q, hq, _⟩
    · simp [Tet.find_exit_gate, h]
    · rw [hnone g hg] at hq; exact absurd hq (by simp)
  · intro r hr
    rcases hcases with h | ⟨g, hg, q, hq, h⟩
    · simp [Tet.find_exit_gate, h] at hr
    · simp only [Tet.find_exit_gate, h] at hr
      rw [if_pos (hne g hg)] at hr
      obtain rfl : (g, q) = r := by simpa using hr
      exact ⟨hg, by simp [hq]⟩
  · intro hex
    obtain ⟨g, hg, q, _, h⟩ := hfound hex
    refine ⟨(g, q), ?_⟩
    simp only [Tet.find_exit_gate, h]
    rw [if_pos (hne g hg)]


theorem example_length_zero : Example.lib.length vec3d.zero = 0 := by decide!

theorem example_length_nonneg (v : vec3d) : 0 ≤ Example.lib.length v := by
  show 0 ≤ Example.sqrt_tab (v.dot v)
  unfold Example.sqrt_tab
  split_ifs <;> norm_num

/-- C9, at tetrahedron 0 of the two tetrahedra: from the origin (its vertex 0) along
`(1,0,0)` the facet returned is 3, the one opposite to vertex 0, hit at `(3,0,0)`; from
`(10,0,0)` along `(1,0,0)` no facet is hit and the assertion fails. -/
theorem tet_find_exit_gate_fails_iff_witness :
    Example.lib.length vec3d.zero = 0 ∧ (∀ v, 0 ≤ Example.lib.length v) ∧
    Tet.find_exit_gate Example.lib (Example.two_tets fun _ => false)
        ⟨⟨0, 0, 0⟩, 0, -1, 0⟩ ⟨1, 0, 0⟩ = .ok (3, ⟨3, 0, 0⟩) ∧
    ((3 : Int) ∈ [0, 1, 2, 3] ∧
      (Tet.facet_intersection Example.lib (Example.two_tets fun _ => false)
        ⟨⟨0, 0, 0⟩, 0, -1, 0⟩ ⟨1, 0, 0⟩ 3).isSome = true) ∧
    Tet.find_exit_gate Example.lib (Example.two_tets fun _ => false)
        ⟨⟨10, 0, 0⟩, 0, -1, 0⟩ ⟨1, 0, 0⟩ = .error Fault.no_exit_gate ∧
    (∀ f ∈ [0, 1, 2, 3],
      Tet.facet_intersection Example.lib (Example.two_tets fun _ => false)
        ⟨⟨10, 0, 0⟩, 0, -1, 0⟩ ⟨1, 0, 0⟩ f = none) :=
  have hok : Tet.find_exit_gate Example.lib (Example.two_tets fun _ => false)
      ⟨⟨0, 0, 0⟩, 0, -1, 0⟩ ⟨1, 0, 0⟩ = .ok (3, ⟨3, 0, 0⟩) := by decide!
  have herr : Tet.find_exit_gate Example.lib (Example.two_tets fun _ => false)
      ⟨⟨10, 0, 0⟩, 0, -1, 0⟩ ⟨1, 0, 0⟩ = .error Fault.no_exit_gate := by decide!
  ⟨example_length_zero, example_length_nonneg, hok,
    (tet_find_exit_gate_fails_iff Example.lib _ _ _ example_length_zero
      example_length_nonneg).2.1 _ hok,
    herr,
    (tet_find_exit_gate_fails_iff Example.lib _ _ _ example_length_zero
      example_length_nonneg).1.1 herr⟩

/-! ## C11: the volumetric closing step -/

/-- C11: when the loop of the volumetric `make_curve` stops with `locmax_reached` in final
element `t`, the curve returned is the curve of the loop followed by one closing sample for
each of the local vertices 0, 1, 2, 3 of `t` flagged as a local maximum, in increasing
local index, each at the position of its vertex, with element `t` and gate None; there are
as many closing samples as flagged local vertices, and at least one. -/
theorem tet_closing_step (lib : Lib) (m : Tetmesh) (grad : VectorField) (opt : Options)
    (fuel : Nat) (r : LoopEnd)
    (ht : Tet.trace lib m grad opt fuel [Tet.seed opt] = .ok r)
    (hl : r.locmax_reached = true) :
    ∃ last, r.curve.getLast? = some last ∧
      Tet.make_curve lib m grad opt fuel = .ok (r.curve ++ Tet.closing m last.elem_id) ∧
      Tet.closing m last.elem_id =
        ([0, 1, 2, 3].filter fun i =>
            m.vertex_is_local_maxima (m.tet_vertex_id last.elem_id i)).map
          (fun i => ⟨m.vertex (m.tet_vertex_id last.elem_id i), last.elem_id, -1, -1⟩) ∧
      (∀ s ∈ Tet.closing m last.elem_id, s.elem_id = last.elem_id ∧ s.gate_id = -1 ∧
        ∃ i ∈ [0, 1, 2, 3], m.vertex_is_local_maxima (m.tet_vertex_id last.elem_id i) = true ∧
          s.pos = m.vertex (m.tet_vertex_id last.elem_id i)) ∧
      (Tet.closing m last.elem_id).length =
        ([0, 1, 2, 3].filter fun i =>
            m.vertex_is_local_maxima (m.tet_vertex_id last.elem_id i)).length ∧
      1 ≤ (Tet.closing m last.elem_id).length := by
  obtain ⟨last, hlast, hback, hconv⟩ := tet_locmax_stop lib m grad opt fuel r ht hl
  have hne := tet_closing_ne_nil m opt last.elem_id hconv
  refine ⟨last, hlast, ?_, rfl, ?_, by simp [Tet.closing], ?_⟩
  · rw [tet_make_curve_of_trace lib m grad opt fuel r ht, hl, hback]; rfl
  · intro s hs
    simp only [Tet.closing, List.mem_map, List.mem_filter] at hs
    obtain ⟨i, ⟨hi, hflag⟩, rfl⟩ := hs
    exact ⟨rfl, rfl, i, hi, hflag, rfl⟩
  · cases hc : Tet.closing m last.elem_id with
    | nil => exact absurd hc hne
    | cons a l => simp

/-- C11, at the two tetrahedra with the vertices 2 and 4 flagged: the loop stops in
tetrahedron `1 = (1,2,3,4)` and two closing samples are appended, at vertex 2 (local
index 1) and at vertex 4 (local index 3). -/
theorem tet_closing_step_witness :
    Tet.trace Example.lib (Example.two_tets fun w => decide (w = 2 ∨ w = 4))
        Example.tet_field Example.opt0 5 [Tet.seed Example.opt0]
      = .ok ⟨[⟨⟨0, 0, 0⟩, 0, -1, 0⟩, ⟨⟨3, 0, 0⟩, 1, 3, -1⟩], false, true, true⟩ ∧
    ∃ last,
      ([⟨⟨0, 0, 0⟩, 0, -1, 0⟩, ⟨⟨3, 0, 0⟩, 1, 3, -1⟩] : List CurveSample).getLast?
        = some last ∧
      Tet.make_curve Example.lib (Example.two_tets fun w => decide (w = 2 ∨ w = 4))
          Example.tet_field Example.opt0 5
        = .ok ([⟨⟨0, 0, 0⟩, 0, -1, 0⟩, ⟨⟨3, 0, 0⟩, 1, 3, -1⟩] ++
            Tet.closing (Example.two_tets fun w => decide (w = 2 ∨ w = 4)) last.elem_id) ∧
      Tet.closing (Example.two_tets fun w => decide (w = 2 ∨ w = 4)) last.elem_id
        = [⟨⟨3, 2, -1⟩, 1, -1, -1⟩, ⟨⟨6, 3, 0⟩, 1, -1, -1⟩] :=
  have ht : Tet.trace Example.lib (Example.two_tets fun w => decide (w = 2 ∨ w = 4))
        Example.tet_field Example.opt0 5 [Tet.seed Example.opt0]
      = .ok ⟨[⟨⟨0, 0, 0⟩, 0, -1, 0⟩, ⟨⟨3, 0, 0⟩, 1, 3, -1⟩], false, true, true⟩ := by
    decide!
  ⟨ht,
    match tet_closing_step Example.lib _ Example.tet_field Example.opt0 5 _ ht rfl with
    | ⟨last, h1, h2, _⟩ =>
      ⟨last, h1, h2, by
        have hl : last = ⟨⟨3, 0, 0⟩, 1, 3, -1⟩ := by
          simpa using h1.symm
        subst hl
        decide!⟩⟩

/-! ## C13: the curve has at least two samples -/

/-- The first pass of the surface loop pushes the sample that `traverse_element` returns
for the last sample of the curve it starts from. -/
theorem tri_trace_first (lib : Lib) (m : Trimesh) (grad : VectorField) (opt : Options)
    (fuel : Nat) (curve : List CurveSample) (r : LoopEnd)
    (h : Tri.trace lib m grad opt fuel curve = .ok r) :
    ∃ s rest, Tri.traverse_element lib m grad (back curve) = .ok s ∧
      r.curve = curve ++ s :: rest := by
  cases fuel with
  | zero => simp [Tri.trace] at h
  | succ n =>
    rw [Tri.trace] at h
    cases ht : Tri.traverse_element lib m grad (back curve) with
    | error e => simp [ht, bind, Except.bind] at h
    | ok next =>
      refine ⟨next, ?_⟩
      simp only [ht, bind, Except.bind, back_push] at h
      by_cases hb : next.elem_id = -1
      · simp [hb, pure, Except.pure] at h
        subst h
        exact ⟨[], rfl, rfl⟩
      · have hb' : (next.elem_id == -1) = false := by simpa using hb
        simp only [hb', Bool.false_eq_true, if_false] at h
        cases hl : Tri.is_converged m opt next.elem_id STOP_AT_LOCAL_MAX with
        | error e => simp [hl] at h
        | ok l =>
          cases hc : Tri.is_converged m opt next.elem_id opt.convergence_criterion with
          | error e => simp [hl, hc] at h
          | ok t =>
            simp only [hl, hc] at h
            by_cases hgo : (!false && !l && !t) = true
            · simp only [hgo, if_true] at h
              obtain ⟨mid, last, h1, _⟩ := tri_trace_stop lib m grad opt n _ r h
              exact ⟨mid ++ [last], rfl, by simp [h1]⟩
            · simp only [hgo, Bool.false_eq_true, if_false, pure, Except.pure,
                Except.ok.injEq] at h
              subst h
              exact ⟨[], rfl, rfl⟩

/-- The first pass of the volumetric loop pushes the sample that `traverse_element`
returns for the last sample of the curve it starts from. -/
theorem tet_trace_first (lib : Lib) (m : Tetmesh) (grad : VectorField) (opt : Options)
    (fuel : Nat) (curve : List CurveSample) (r : LoopEnd)
    (h : Tet.trace lib m grad opt fuel curve = .ok r) :
    ∃ s rest, Tet.traverse_element lib m grad (back curve) = .ok s ∧
      r.curve = curve ++ s :: rest := by
  cases fuel with
  | zero => simp [Tet.trace] at h
  | succ n =>
    rw [Tet.trace] at h
    cases ht : Tet.traverse_element lib m grad (back curve) with
    | error e => simp [ht, bind, Except.bind] at h
    | ok next =>
      refine ⟨next, ?_⟩
      simp only [ht, bind, Except.bind, back_push] at h
      by_cases hb : next.elem_id = -1
      · simp [hb, pure, Except.pure] at h
        subst h
        exact ⟨[], rfl, rfl⟩
      · have hb' : (next.elem_id == -1) = false := by simpa using hb
        simp only [hb', Bool.false_eq_true, if_false] at h
        cases hl : Tet.is_converged m opt next.elem_id STOP_AT_LOCAL_MAX with
        | error e => simp [hl] at h
        | ok l =>
          cases hc : Tet.is_converged m opt next.elem_id opt.convergence_criterion with
          | error e => simp [hl, hc] at h
          | ok t =>
            simp only [hl, hc] at h
            by_cases hgo : (!false && !l && !t) = true
            · simp only [hgo, if_true] at h
              obtain ⟨mid, last, h1, _⟩ := tet_trace_stop lib m grad opt n _ r h
              exact ⟨mid ++ [last], rfl, by simp [h1]⟩
            · simp only [hgo, Bool.false_eq_true, if_false, pure, Except.pure,
                Except.ok.injEq] at h
              subst h
              exact ⟨[], rfl, rfl⟩

/-- C13: a curve built by `make_curve` has at least two samples: the source sample, then
the sample that `traverse_element` returns for the source sample. That step is taken
before any stopping test, whatever the source element is. Surface and volumetric. -/
theorem curve_has_two_samples (lib : Lib) (grad : VectorField) (opt : Options)
    (fuel : Nat) (curve : List CurveSample) :
    (∀ (m : Trimesh), Tri.make_curve lib m grad opt fuel = .ok curve →
      2 ≤ curve.length ∧ curve[0]? = some (Tri.seed opt) ∧
      ∃ s, Tri.traverse_element lib m grad (Tri.seed opt) = .ok s ∧ curve[1]? = some s) ∧
    (∀ (m : Tetmesh), Tet.make_curve lib m grad opt fuel = .ok curve →
      2 ≤ curve.length ∧ curve[0]? = some (Tet.seed opt) ∧
      ∃ s, Tet.traverse_element lib m grad (Tet.seed opt) = .ok s ∧ curve[1]? = some s) := by
  constructor
  · intro m h
    obtain ⟨r, _, _, ht, _, _, _, _, _, _, h7⟩ :=
      tri_make_curve_shape lib m grad opt fuel curve h
    obtain ⟨s, rest, hs, hr⟩ := tri_trace_first lib m grad opt fuel _ r ht
    have hb : back [Tri.seed opt] = Tri.seed opt := rfl
    rw [hb] at hs
    rw [h7, hr]
    exact ⟨by simp, by simp, s, hs, by simp⟩
  · intro m h
    obtain ⟨r, _, _, ht, _, _, _, _, _, _, h7⟩ :=
      tet_make_curve_shape lib m grad opt fuel curve h
    obtain ⟨s, rest, hs, hr⟩ := tet_trace_first lib m grad opt fuel _ r ht
    have hb : back [Tet.seed opt] = Tet.seed opt := rfl
    rw [hb] at hs
    rw [h7, hr]
    exact ⟨by simp, by simp, s, hs, by simp⟩

/-- C13, at the strip traced towards target vertex 1: the source triangle 0 contains the
target vertex, and the curve still takes the step into triangle 1 before it stops. -/
theorem curve_has_two_samples_witness :
    Tri.satisfies (Example.strip (fun _ => false) (-1)) (Example.opt_vtx 1)
        (Example.opt_vtx 1).source_tid = true ∧
    Tri.make_curve Example.lib (Example.strip (fun _ => false) (-1)) Example.field
        (Example.opt_vtx 1) 5
      = .ok [⟨⟨0, 0, 0⟩, 0, -1, 0⟩, ⟨⟨3 / 2, 2, 0⟩, 1, 1, -1⟩] ∧
    (2 ≤ ([⟨⟨0, 0, 0⟩, 0, -1, 0⟩, ⟨⟨3 / 2, 2, 0⟩, 1, 1, -1⟩] : List CurveSample).length ∧
      ([⟨⟨0, 0, 0⟩, 0, -1, 0⟩, ⟨⟨3 / 2, 2, 0⟩, 1, 1, -1⟩] : List CurveSample)[0]?
        = some (Tri.seed (Example.opt_vtx 1)) ∧
      ∃ s, Tri.traverse_element Example.lib (Example.strip (fun _ => false) (-1))
          Example.field (Tri.seed (Example.opt_vtx 1)) = .ok s ∧
        ([⟨⟨0, 0, 0⟩, 0, -1, 0⟩, ⟨⟨3 / 2, 2, 0⟩, 1, 1, -1⟩] : List CurveSample)[1]?
          = some s) :=
  have hrun : Tri.make_curve Example.lib (Example.strip (fun _ => false) (-1))
        Example.field (Example.opt_vtx 1) 5
      = .ok [⟨⟨0, 0, 0⟩, 0, -1, 0⟩, ⟨⟨3 / 2, 2, 0⟩, 1, 1, -1⟩] := by decide!
  ⟨by decide, hrun,
    (curve_has_two_samples Example.lib Example.field (Example.opt_vtx 1) 5 _).1 _ hrun⟩

/-! ## `traverse_element` in terms of its parts -/

/-- The surface `traverse_element`, written with its parts. -/
theorem tri_traverse_element_eq (lib : Lib) (m : Trimesh) (grad : VectorField)
    (curr_sample : CurveSample) :
    Tri.traverse_element lib m grad curr_sample =
      if Tri.gradient_skins_into lib m grad curr_sample
          (Tri.raw_next lib m grad curr_sample) = true then
        if Tri.reselect m (Tri.skins_vertex lib m grad curr_sample)
            (Tri.next_tid lib m grad curr_sample) curr_sample.elem_id ≠ -1 then
          .ok ⟨m.vertex (Tri.skins_vertex lib m grad curr_sample),
            Tri.reselect m (Tri.skins_vertex lib m grad curr_sample)
              (Tri.next_tid lib m grad curr_sample) curr_sample.elem_id,
            -1, Tri.skins_vertex lib m grad curr_sample⟩
        else .error Fault.no_next_element
      else .ok (Tri.raw_next lib m grad curr_sample) := rfl

/-- The volumetric `traverse_element`, written with its parts. -/
theorem tet_traverse_element_eq (lib : Lib) (m : Tetmesh) (grad : VectorField)
    (curr_sample : CurveSample) :
    Tet.traverse_element lib m grad curr_sample = (do
      let (g, p) ← Tet.find_exit_gate lib m curr_sample (target_dir lib grad curr_sample)
      if ← Tet.gradient_skins_into lib m grad curr_sample (Tet.raw_next m curr_sample g p)
      then
        let new_next_elem ←
          Tet.reselect lib m grad curr_sample (Tet.raw_next m curr_sample g p)
        if new_next_elem = -1 then throw Fault.no_next_element
        if !m.tet_contains_vertex new_next_elem
            (Tet.skins_vertex lib m grad curr_sample (Tet.raw_next m curr_sample g p)) then
          throw Fault.vertex_not_in_element
        pure ⟨Tet.skins_pos lib m grad curr_sample (Tet.raw_next m curr_sample g p),
          new_next_elem, -1,
          Tet.skins_vertex lib m grad curr_sample (Tet.raw_next m curr_sample g p)⟩
      else pure (Tet.raw_next m curr_sample g p)) := rfl

/-- The volumetric `traverse_element` when `find_exit_gate` returns facet `g` and position
`p` and the skins-into test is negative: the raw sample. -/
theorem tet_traverse_raw (lib : Lib) (m : Tetmesh) (grad : VectorField)
    (curr_sample : CurveSample) (g : Int) (p : vec3d)
    (hexit : Tet.find_exit_gate lib m curr_sample (target_dir lib grad curr_sample)
      = .ok (g, p))
    (hskins : Tet.gradient_skins_into lib m grad curr_sample (Tet.raw_next m curr_sample g p)
      = .ok false) :
    Tet.traverse_element lib m grad curr_sample = .ok (Tet.raw_next m curr_sample g p) := by
  rw [tet_traverse_element_eq]
  simp [hexit, hskins, bind, Except.bind, pure, Except.pure]

/-- The volumetric `traverse_element` when `find_exit_gate` returns facet `g` and position
`p` and the skins-into test is positive: the outcome of the re-selection. -/
theorem tet_traverse_corrected (lib : Lib) (m : Tetmesh) (grad : VectorField)
    (curr_sample : CurveSample) (g : Int) (p : vec3d)
    (hexit : Tet.find_exit_gate lib m curr_sample (target_dir lib grad curr_sample)
      = .ok (g, p))
    (hskins : Tet.gradient_skins_into lib m grad curr_sample (Tet.raw_next m curr_sample g p)
      = .ok true) :
    Tet.traverse_element lib m grad curr_sample =
      match Tet.reselect lib m grad curr_sample (Tet.raw_next m curr_sample g p) with
      | .error e => .error e
      | .ok new_next_elem =>
        if new_next_elem = -1 then .error Fault.no_next_element
        else if m.tet_contains_vertex new_next_elem
            (Tet.skins_vertex lib m grad curr_sample (Tet.raw_next m curr_sample g p))
            = true then
          .ok ⟨Tet.skins_pos lib m grad curr_sample (Tet.raw_next m curr_sample g p),
            new_next_elem, -1,
            Tet.skins_vertex lib m grad curr_sample (Tet.raw_next m curr_sample g p)⟩
        else .error Fault.vertex_not_in_element := by
  rw [tet_traverse_element_eq]
  simp only [hexit, hskins, bind, Except.bind, if_true]
  cases hr : Tet.reselect lib m grad curr_sample (Tet.raw_next m curr_sample g p) with
  | error e => rfl
  | ok r =>
    by_cases h1 : r = -1
    · simp [h1, throw, throwThe, MonadExceptOf.throw]
    · by_cases h2 : m.tet_contains_vertex r
          (Tet.skins_vertex lib m grad curr_sample (Tet.raw_next m curr_sample g p)) = true
      · simp [h1, h2, pure, Except.pure]
      · simp [h1, h2, throw, throwThe, MonadExceptOf.throw, pure, Except.pure]

/-! ## C17: the volumetric step at a border facet -/

/-- C17: `gradient_skins_into` of the volumetric variant answers false for a candidate with
`elem_id = -1`, whatever the library, the mesh, the field and the current sample are (none
is consulted); so for a current sample whose exit facet `g`, found by `find_exit_gate` with
exit position `p`, has no adjacent tetrahedron, `traverse_element` returns the raw sample:
position `p`, element `-1`, gate `g`, no vertex. -/
theorem tet_border_step (lib : Lib) (m : Tetmesh) (grad : VectorField)
    (curr_sample : CurveSample) (g : Int) (p : vec3d)
    (hexit : Tet.find_exit_gate lib m curr_sample (target_dir lib grad curr_sample)
      = .ok (g, p))
    (hborder : m.adjacent_tet_through_facet curr_sample.elem_id g = -1) :
    (∀ (lib' : Lib) (m' : Tetmesh) (grad' : VectorField) (curr' next : CurveSample),
      next.elem_id = -1 → Tet.gradient_skins_into lib' m' grad' curr' next = .ok false) ∧
    Tet.traverse_element lib m grad curr_sample = .ok ⟨p, -1, g, -1⟩ := by
  constructor
  · intro lib' m' grad' curr' next hn
    simp [Tet.gradient_skins_into, hn]
  · rw [tet_traverse_raw lib m grad curr_sample g p hexit
      (by simp [Tet.gradient_skins_into, Tet.raw_next, hborder])]
    simp [Tet.raw_next, hborder]

/-- C17, at tetrahedron 1 of the two tetrahedra: from `(3,0,0)` along `(1,0,0)` the exit
facet is 2, hit at `(15/4,0,0)`, and no tetrahedron lies behind it. -/
theorem tet_border_step_witness :
    Tet.find_exit_gate Example.lib (Example.two_tets fun _ => false) ⟨⟨3, 0, 0⟩, 1, 3, -1⟩
        (target_dir Example.lib Example.tet_field ⟨⟨3, 0, 0⟩, 1, 3, -1⟩)
      = .ok (2, ⟨15 / 4, 0, 0⟩) ∧
    (Example.two_tets fun _ => false).adjacent_tet_through_facet 1 2 = -1 ∧
    Tet.traverse_element Example.lib (Example.two_tets fun _ => false) Example.tet_field
        ⟨⟨3, 0, 0⟩, 1, 3, -1⟩ = .ok ⟨⟨15 / 4, 0, 0⟩, -1, 2, -1⟩ :=
  have hexit : Tet.find_exit_gate Example.lib (Example.two_tets fun _ => false)
      ⟨⟨3, 0, 0⟩, 1, 3, -1⟩ (target_dir Example.lib Example.tet_field ⟨⟨3, 0, 0⟩, 1, 3, -1⟩)
      = .ok (2, ⟨15 / 4, 0, 0⟩) := by decide!
  have hborder : (Example.two_tets fun _ => false).adjacent_tet_through_facet 1 2 = -1 := by
    decide
  ⟨hexit, hborder,
    (tet_border_step Example.lib (Example.two_tets fun _ => false) Example.tet_field
      ⟨⟨3, 0, 0⟩, 1, 3, -1⟩ 2 ⟨15 / 4, 0, 0⟩ hexit hborder).2⟩

/-! ## C18: a step leaves the current element -/

/-- The re-selection loop of the surface `traverse_element` keeps its start value or ends
on an entry of the list that differs from `n` and from `c`. -/
theorem tri_reselect_cases (n c : Int) (l : List Int) (init : Int) :
    l.foldl (fun e tid => if tid ≠ n ∧ tid ≠ c then tid else e) init = init ∨
      (l.foldl (fun e tid => if tid ≠ n ∧ tid ≠ c then tid else e) init ∈ l ∧
        l.foldl (fun e tid => if tid ≠ n ∧ tid ≠ c then tid else e) init ≠ n ∧
        l.foldl (fun e tid => if tid ≠ n ∧ tid ≠ c then tid else e) init ≠ c) := by
  induction l generalizing init with
  | nil => exact Or.inl rfl
  | cons x l ih =>
    rw [List.foldl_cons]
    rcases ih (if x ≠ n ∧ x ≠ c then x else init) with h | ⟨h1, h2, h3⟩
    · rw [h]
      by_cases hx : x ≠ n ∧ x ≠ c
      · rw [if_pos hx]
        exact Or.inr ⟨List.mem_cons_self _ _, hx.1, hx.2⟩
      · rw [if_neg hx]
        exact Or.inl rfl
    · exact Or.inr ⟨List.mem_cons_of_mem _ h1, h2, h3⟩

/-- One probe of the volumetric re-selection loop, when it does not abort, keeps
`new_next_elem` or moves it to the probed tetrahedron, which then differs from the
candidate and from the current element and has an exit gate. -/
theorem tet_reselect_step_cases (lib : Lib) (m : Tetmesh) (grad : VectorField)
    (curr next : CurveSample) (best_pos : vec3d) (init x a : Int)
    (hx : Tet.reselect_step lib m grad curr next best_pos init x = .ok a) :
    a = init ∨ (a = x ∧ x ≠ next.elem_id ∧ x ≠ curr.elem_id ∧
      ∃ gp, Tet.find_exit_gate lib m ⟨best_pos, x, -1, -1⟩
        (lib.normalize (grad.vec_at x)) = .ok gp) := by
  unfold Tet.reselect_step at hx
  by_cases hc : x ≠ next.elem_id ∧ x ≠ curr.elem_id
  · rw [if_pos hc] at hx
    have hs : ({ CurveSample.fresh with elem_id := x, pos := best_pos } : CurveSample)
        = ⟨best_pos, x, -1, -1⟩ := rfl
    rw [hs] at hx
    cases hf : Tet.find_exit_gate lib m ⟨best_pos, x, -1, -1⟩
        (lib.normalize (grad.vec_at x)) with
    | error e => simp [hf, bind, Except.bind] at hx
    | ok gp =>
      obtain ⟨g, q⟩ := gp
      simp only [hf, bind, Except.bind] at hx
      by_cases hg : g = -1
      · simp only [hg, ne_eq, not_true_eq_false, if_false, pure, Except.pure,
          Except.ok.injEq] at hx
        exact Or.inl hx.symm
      · simp only [ne_eq, hg, not_false_eq_true, if_true, pure, Except.pure,
          Except.ok.injEq] at hx
        exact Or.inr ⟨hx.symm, hc.1, hc.2, (g, q), rfl⟩
  · rw [if_neg hc] at hx
    simp only [pure, Except.pure, Except.ok.injEq] at hx
    exact Or.inl hx.symm

/-- The re-selection loop of the volumetric `traverse_element`, when it does not abort,
keeps its start value or ends on an entry of the list that differs from the candidate and
from the current element and has an exit gate. -/
theorem tet_reselect_cases (lib : Lib) (m : Tetmesh) (grad : VectorField)
    (curr next : CurveSample) (best_pos : vec3d) (l : List Int) (init r : Int)
    (h : l.foldlM (Tet.reselect_step lib m grad curr next best_pos) init = .ok r) :
    r = init ∨ (r ∈ l ∧ r ≠ next.elem_id ∧ r ≠ curr.elem_id ∧
      ∃ gp, Tet.find_exit_gate lib m ⟨best_pos, r, -1, -1⟩
        (lib.normalize (grad.vec_at r)) = .ok gp) := by
  induction l generalizing init with
  | nil =>
    simp only [List.foldlM_nil, pure, Except.pure, Except.ok.injEq] at h
    exact Or.inl h.symm
  | cons x l ih =>
    rw [List.foldlM_cons] at h
    cases hx : Tet.reselect_step lib m grad curr next best_pos init x with
    | error e => simp [hx, bind, Except.bind] at h
    | ok a =>
      simp only [hx, bind, Except.bind] at h
      rcases ih a h with h1 | ⟨h1, h2⟩
      · rcases tet_reselect_step_cases lib m grad curr next best_pos init x a hx with
          ha | ⟨ha, hrest⟩
        · exact Or.inl (h1.trans ha)
        · have hrx : r = x := h1.trans ha
          rw [hrx]
          exact Or.inr ⟨List.mem_cons_self _ _, hrest⟩
      · exact Or.inr ⟨List.mem_cons_of_mem _ h1, h2⟩

/-- C18: if the adjacency queries of the mesh never answer the queried element itself
(they answer `-1` or another element), the sample returned by `traverse_element` for a
current sample in element `c` has `elem_id = -1` or an `elem_id` different from `c`, with
or without the skins-into correction. Surface and volumetric. -/
theorem step_leaves_element (lib : Lib) (grad : VectorField) (curr_sample s : CurveSample) :
    (∀ (m : Trimesh),
      (∀ t a b, m.triangle_adjacent_along t a b = -1 ∨ m.triangle_adjacent_along t a b ≠ t) →
      Tri.traverse_element lib m grad curr_sample = .ok s →
      s.elem_id = -1 ∨ s.elem_id ≠ curr_sample.elem_id) ∧
    (∀ (m : Tetmesh),
      (∀ t f, m.adjacent_tet_through_facet t f = -1 ∨ m.adjacent_tet_through_facet t f ≠ t) →
      Tet.traverse_element lib m grad curr_sample = .ok s →
      s.elem_id = -1 ∨ s.elem_id ≠ curr_sample.elem_id) := by
  constructor
  · intro m hadj h
    rw [tri_traverse_element_eq] at h
    split_ifs at h with h1 h2
    · simp only [Except.ok.injEq] at h
      subst h
      rcases tri_reselect_cases (Tri.next_tid lib m grad curr_sample) curr_sample.elem_id
        (m.adj_vtx2tri (Tri.skins_vertex lib m grad curr_sample)) (-1) with h3 | h3
      · exact Or.inl h3
      · exact Or.inr h3.2.2
    · simp only [Except.ok.injEq] at h
      subst h
      exact hadj _ _ _
  · intro m hadj h
    cases hf : Tet.find_exit_gate lib m curr_sample (target_dir lib grad curr_sample) with
    | error e =>
      rw [tet_traverse_element_eq] at h
      simp [hf, bind, Except.bind] at h
    | ok gp =>
      obtain ⟨g, p⟩ := gp
      cases hs : Tet.gradient_skins_into lib m grad curr_sample
          (Tet.raw_next m curr_sample g p) with
      | error e =>
        rw [tet_traverse_element_eq] at h
        simp [hf, hs, bind, Except.bind] at h
      | ok b =>
        cases b with
        | false =>
          rw [tet_traverse_raw lib m grad curr_sample g p hf hs] at h
          simp only [Except.ok.injEq] at h
          subst h
          exact hadj _ _
        | true =>
          rw [tet_traverse_corrected lib m grad curr_sample g p hf hs] at h
          cases hr : Tet.reselect lib m grad curr_sample (Tet.raw_next m curr_sample g p) with
          | error e => simp [hr] at h
          | ok r =>
            simp only [hr] at h
            split_ifs at h with h1 h2
            simp only [Except.ok.injEq] at h
            subst h
            rcases tet_reselect_cases lib m grad _ _ _ _ _ _ hr with h3 | h3
            · exact absurd h3 h1
            · exact Or.inr h3.2.2.1

/-! ## C12: the surface skins-into correction -/

/-- The surface re-selection loop keeps its start value when no entry differs from both
`n` and `c`. -/
theorem tri_reselect_none (n c : Int) (l : List Int) (init : Int)
    (h : ∀ tid ∈ l, tid = c ∨ tid = n) :
    l.foldl (fun e tid => if tid ≠ n ∧ tid ≠ c then tid else e) init = init := by
  induction l generalizing init with
  | nil => rfl
  | cons x l ih =>
    rw [List.foldl_cons]
    have hx : ¬(x ≠ n ∧ x ≠ c) := by
      rcases h x (List.mem_cons_self _ _) with h1 | h1
      · exact fun hc => hc.2 h1
      · exact fun hc => hc.1 h1
    rw [if_neg hx]
    exact ih init (fun tid ht => h tid (List.mem_cons_of_mem _ ht))

/-- The surface re-selection loop ends on an entry that differs from both `n` and `c` as
soon as the list has one. -/
theorem tri_reselect_found (n c : Int) (l : List Int)
    (h : ∃ tid ∈ l, tid ≠ n ∧ tid ≠ c) (init : Int) :
    l.foldl (fun e tid => if tid ≠ n ∧ tid ≠ c then tid else e) init ∈ l ∧
      l.foldl (fun e tid => if tid ≠ n ∧ tid ≠ c then tid else e) init ≠ n ∧
      l.foldl (fun e tid => if tid ≠ n ∧ tid ≠ c then tid else e) init ≠ c := by
  rcases tri_reselect_cases n c l init with h1 | h1
  · induction l generalizing init with
    | nil => obtain ⟨tid, ht, _⟩ := h; exact absurd ht (List.not_mem_nil tid)
    | cons x l ih =>
      rw [List.foldl_cons] at h1 ⊢
      by_cases hl : ∃ tid ∈ l, tid ≠ n ∧ tid ≠ c
      · rcases tri_reselect_cases n c l (if x ≠ n ∧ x ≠ c then x else init) with h2 | h2
        · obtain ⟨h3, h4, h5⟩ := ih hl _ h2
          exact ⟨List.mem_cons_of_mem _ h3, h4, h5⟩
        · exact ⟨List.mem_cons_of_mem _ h2.1, h2.2⟩
      · have hx : x ≠ n ∧ x ≠ c := by
          obtain ⟨tid, ht, hc⟩ := h
          rcases List.mem_cons.1 ht with rfl | ht
          · exact hc
          · exact absurd ⟨tid, ht, hc⟩ hl
        have hnone : ∀ tid ∈ l, tid = c ∨ tid = n := by
          intro tid ht
          by_contra hcon
          exact hl ⟨tid, ht, fun hn => hcon (Or.inr hn), fun hc => hcon (Or.inl hc)⟩
        rw [tri_reselect_none n c l _ hnone, if_pos hx]
        exact ⟨List.mem_cons_self _ _, hx⟩
  · exact h1

/-- C12: when `gradient_skins_into` fires in the surface `traverse_element` for the current
element `c` and the candidate `n` across the exit edge `(A,B)`: the vertex chosen is `B`
when `(B-A).d > 0`, that is when `B.d > A.d`, and `A` otherwise; a sample returned has
that vertex as `vert_id`, its position, gate None, and an element of the vertex's
incident-triangle list different from `c` and `n`; and, the incident list holding no `-1`,
the step aborts on the assertion exactly when every incident triangle is `c` or `n`. -/
theorem tri_skins_correction (lib : Lib) (m : Trimesh) (grad : VectorField)
    (curr_sample : CurveSample)
    (hfire : Tri.gradient_skins_into lib m grad curr_sample
      (Tri.raw_next lib m grad curr_sample) = true)
    (hwf : ∀ tid ∈ m.adj_vtx2tri (Tri.skins_vertex lib m grad curr_sample), tid ≠ -1) :
    Tri.skins_vertex lib m grad curr_sample =
      (if (m.vertex (Tri.exit_vidB lib m grad curr_sample)).dot
            (target_dir lib grad curr_sample) >
          (m.vertex (Tri.exit_vidA lib m grad curr_sample)).dot
            (target_dir lib grad curr_sample)
       then Tri.exit_vidB lib m grad curr_sample
       else Tri.exit_vidA lib m grad curr_sample) ∧
    (∀ s, Tri.traverse_element lib m grad curr_sample = .ok s →
      s.vert_id = Tri.skins_vertex lib m grad curr_sample ∧
      s.pos = m.vertex (Tri.skins_vertex lib m grad curr_sample) ∧
      s.gate_id = -1 ∧
      s.elem_id ∈ m.adj_vtx2tri (Tri.skins_vertex lib m grad curr_sample) ∧
      s.elem_id ≠ curr_sample.elem_id ∧
      s.elem_id ≠ Tri.next_tid lib m grad curr_sample) ∧
    (Tri.traverse_element lib m grad curr_sample = .error Fault.no_next_element ↔
      ∀ tid ∈ m.adj_vtx2tri (Tri.skins_vertex lib m grad curr_sample),
        tid = curr_sample.elem_id ∨ tid = Tri.next_tid lib m grad curr_sample) ∧
    ((∃ s, Tri.traverse_element lib m grad curr_sample = .ok s) ↔
      ∃ tid ∈ m.adj_vtx2tri (Tri.skins_vertex lib m grad curr_sample),
        tid ≠ Tri.next_tid lib m grad curr_sample ∧ tid ≠ curr_sample.elem_id) := by
  have hcases := tri_reselect_cases (Tri.next_tid lib m grad curr_sample)
    curr_sample.elem_id (m.adj_vtx2tri (Tri.skins_vertex lib m grad curr_sample)) (-1)
  have hfound := tri_reselect_found (Tri.next_tid lib m grad curr_sample)
    curr_sample.elem_id (m.adj_vtx2tri (Tri.skins_vertex lib m grad curr_sample))
  have hnone := tri_reselect_none (Tri.next_tid lib m grad curr_sample)
    curr_sample.elem_id (m.adj_vtx2tri (Tri.skins_vertex lib m grad curr_sample)) (-1)
  rw [tri_traverse_element_eq, if_pos hfire]
  unfold Tri.reselect
  refine ⟨?_, ?_, ?_, ?_⟩
  · unfold Tri.skins_vertex
    have hdot : ((m.vertex (Tri.exit_vidB lib m grad curr_sample)).sub
        (m.vertex (Tri.exit_vidA lib m grad curr_sample))).dot
        (target_dir lib grad curr_sample) > 0 ↔
        (m.vertex (Tri.exit_vidB lib m grad curr_sample)).dot
          (target_dir lib grad curr_sample) >
        (m.vertex (Tri.exit_vidA lib m grad curr_sample)).dot
          (target_dir lib grad curr_sample) := by
      simp only [vec3d.dot, vec3d.sub, gt_iff_lt]
      constructor <;> intro h <;> linarith
    by_cases h : ((m.vertex (Tri.exit_vidB lib m grad curr_sample)).sub
        (m.vertex (Tri.exit_vidA lib m grad curr_sample))).dot
        (target_dir lib grad curr_sample) > 0
    · rw [if_pos h, if_pos (hdot.1 h)]
    · rw [if_neg h, if_neg (fun h' => h (hdot.2 h'))]
  · intro s hs
    split_ifs at hs with h1
    simp only [Except.ok.injEq] at hs
    subst hs
    rcases hcases with h2 | h2
    · exact absurd h2 h1
    · exact ⟨rfl, rfl, rfl, h2.1, h2.2.2, h2.2.1⟩
  · constructor
    · intro herr tid ht
      split_ifs at herr with h1
      by_contra hcon
      have := hfound ⟨tid, ht, fun hn => hcon (Or.inr hn), fun hc => hcon (Or.inl hc)⟩ (-1)
      exact h1 (hwf _ this.1)
    · intro hall
      rw [hnone hall]
      simp
  · constructor
    · rintro ⟨s, hs⟩
      split_ifs at hs with h1
      rcases hcases with h2 | h2
      · exact absurd h2 h1
      · exact ⟨_, h2.1, h2.2.1, h2.2.2⟩
    · intro hex
      have := hfound hex (-1)
      rw [if_pos (hwf _ this.1)]
      exact ⟨_, rfl⟩

/-- C12, at the ridge: from the origin in triangle 0 the curve reaches the edge `(1,2)`,
the field of triangle 1 points back, the correction moves to vertex `2 = (0,4)` (the end
of the edge with the larger dot product) and goes on in triangle 2; on the strip, where
vertex 2 has no third triangle, the assertion fails. -/
theorem tri_skins_correction_witness :
    Tri.gradient_skins_into Example.lib Example.ridge Example.field_back
        (Tri.seed Example.opt0)
        (Tri.raw_next Example.lib Example.ridge Example.field_back (Tri.seed Example.opt0))
      = true ∧
    (∀ tid ∈ Example.ridge.adj_vtx2tri
        (Tri.skins_vertex Example.lib Example.ridge Example.field_back
          (Tri.seed Example.opt0)), tid ≠ -1) ∧
    Tri.traverse_element Example.lib Example.ridge Example.field_back
        (Tri.seed Example.opt0) = .ok ⟨⟨0, 4, 0⟩, 2, -1, 2⟩ ∧
    ((⟨⟨0, 4, 0⟩, 2, -1, 2⟩ : CurveSample).vert_id
        = Tri.skins_vertex Example.lib Example.ridge Example.field_back
            (Tri.seed Example.opt0) ∧
      (⟨⟨0, 4, 0⟩, 2, -1, 2⟩ : CurveSample).pos
        = Example.ridge.vertex (Tri.skins_vertex Example.lib Example.ridge
            Example.field_back (Tri.seed Example.opt0)) ∧
      (⟨⟨0, 4, 0⟩, 2, -1, 2⟩ : CurveSample).gate_id = -1 ∧
      (⟨⟨0, 4, 0⟩, 2, -1, 2⟩ : CurveSample).elem_id ∈ Example.ridge.adj_vtx2tri
        (Tri.skins_vertex Example.lib Example.ridge Example.field_back
          (Tri.seed Example.opt0)) ∧
      (⟨⟨0, 4, 0⟩, 2, -1, 2⟩ : CurveSample).elem_id ≠ (Tri.seed Example.opt0).elem_id ∧
      (⟨⟨0, 4, 0⟩, 2, -1, 2⟩ : CurveSample).elem_id
        ≠ Tri.next_tid Example.lib Example.ridge Example.field_back
            (Tri.seed Example.opt0)) ∧
    Tri.traverse_element Example.lib (Example.strip (fun _ => false) (-1))
        Example.field_back (Tri.seed Example.opt0) = .error Fault.no_next_element :=
  have hfire : Tri.gradient_skins_into Example.lib Example.ridge Example.field_back
      (Tri.seed Example.opt0)
      (Tri.raw_next Example.lib Example.ridge Example.field_back (Tri.seed Example.opt0))
      = true := by decide!
  have hwf : ∀ tid ∈ Example.ridge.adj_vtx2tri
      (Tri.skins_vertex Example.lib Example.ridge Example.field_back
        (Tri.seed Example.opt0)), tid ≠ -1 := by
    have hv : Tri.skins_vertex Example.lib Example.ridge Example.field_back
        (Tri.seed Example.opt0) = 2 := by decide!
    rw [hv]
    decide
  have hrun : Tri.traverse_element Example.lib Example.ridge Example.field_back
      (Tri.seed Example.opt0) = .ok ⟨⟨0, 4, 0⟩, 2, -1, 2⟩ := by decide!
  ⟨hfire, hwf, hrun,
    (tri_skins_correction Example.lib Example.ridge Example.field_back
      (Tri.seed Example.opt0) hfire hwf).2.1 _ hrun,
    by decide!⟩

/-- The adjacency query of the ridge answers `-1` or another triangle. -/
theorem ridge_adjacency (t a b : Int) :
    Example.ridge.triangle_adjacent_along t a b = -1 ∨
      Example.ridge.triangle_adjacent_along t a b ≠ t := by
  simp only [Example.ridge]
  split_ifs <;> omega

/-- The adjacency query of the fan answers `-1` or another tetrahedron. -/
theorem fan_adjacency (l : List Int) (t f : Int) :
    (Example.fan l).adjacent_tet_through_facet t f = -1 ∨
      (Example.fan l).adjacent_tet_through_facet t f ≠ t := by
  simp only [Example.fan]
  split_ifs <;> omega

/-- C18, at two corrected steps: on the ridge the step from triangle 0 ends in triangle 2,
in the fan of tetrahedra the step from tetrahedron 0 ends in tetrahedron 3. -/
theorem step_leaves_element_witness :
    Tri.traverse_element Example.lib Example.ridge Example.field_back
        (Tri.seed Example.opt0) = .ok ⟨⟨0, 4, 0⟩, 2, -1, 2⟩ ∧
    ((⟨⟨0, 4, 0⟩, 2, -1, 2⟩ : CurveSample).elem_id = -1 ∨
      (⟨⟨0, 4, 0⟩, 2, -1, 2⟩ : CurveSample).elem_id ≠ (Tri.seed Example.opt0).elem_id) ∧
    Tet.traverse_element Example.lib (Example.fan [0, 1, 2, 3]) Example.fan_field
        (Tet.seed Example.opt0) = .ok ⟨⟨3, 4, 3⟩, 3, -1, 1⟩ ∧
    ((⟨⟨3, 4, 3⟩, 3, -1, 1⟩ : CurveSample).elem_id = -1 ∨
      (⟨⟨3, 4, 3⟩, 3, -1, 1⟩ : CurveSample).elem_id ≠ (Tet.seed Example.opt0).elem_id) :=
  have ht : Tri.traverse_element Example.lib Example.ridge Example.field_back
      (Tri.seed Example.opt0) = .ok ⟨⟨0, 4, 0⟩, 2, -1, 2⟩ := by decide!
  have hv : Tet.traverse_element Example.lib (Example.fan [0, 1, 2, 3]) Example.fan_field
      (Tet.seed Example.opt0) = .ok ⟨⟨3, 4, 3⟩, 3, -1, 1⟩ := by decide!
  ⟨ht,
    (step_leaves_element Example.lib Example.field_back (Tri.seed Example.opt0) _).1
      Example.ridge ridge_adjacency ht,
    hv,
    (step_leaves_element Example.lib Example.fan_field (Tet.seed Example.opt0) _).2
      (Example.fan [0, 1, 2, 3]) (fan_adjacency _) hv⟩

/-! ## C14 and C20: the surface `find_exit_gate` -/

/-- The surface `find_exit_gate`, written with `nearest_vertex`. -/
theorem tri_find_exit_gate_eq (lib : Lib) (m : Trimesh) (curr_sample : CurveSample)
    (target_dir : vec3d) :
    Tri.find_exit_gate lib m curr_sample target_dir =
      if (target_dir.cross
            (Tri.uvw m curr_sample (Tri.nearest_vertex lib m curr_sample target_dir))).dot
          (m.triangle_normal curr_sample.elem_id) ≥ 0
      then (Tri.nearest_vertex lib m curr_sample target_dir + 2) % 3
      else Tri.nearest_vertex lib m curr_sample target_dir := rfl

/-- The head of the set of the three pairs (angle, index) is a pair of least angle, and of
least index among those of least angle. -/
theorem set_begin_three (a0 a1 a2 : ℚ) :
    (set_begin (a0, 0) [(a1, 1), (a2, 2)] = (a0, 0) ∧ a0 ≤ a1 ∧ a0 ≤ a2) ∨
    (set_begin (a0, 0) [(a1, 1), (a2, 2)] = (a1, 1) ∧ a1 < a0 ∧ a1 ≤ a2) ∨
    (set_begin (a0, 0) [(a1, 1), (a2, 2)] = (a2, 2) ∧ a2 < a0 ∧ a2 < a1) := by
  by_cases h1 : a1 < a0
  · by_cases h2 : a2 < a1
    · right; right
      exact ⟨by simp [set_begin, h1, h2], lt_trans h2 h1, h2⟩
    · right; left
      exact ⟨by simp [set_begin, h1, h2], h1, not_lt.1 h2⟩
  · by_cases h2 : a2 < a0
    · right; right
      exact ⟨by simp [set_begin, h1, h2], h2, lt_of_lt_of_le h2 (not_lt.1 h1)⟩
    · left
      exact ⟨by simp [set_begin, h1, h2], not_lt.1 h1, not_lt.1 h2⟩

/-- The `vert` of the surface `find_exit_gate` is a local vertex 0, 1 or 2 of least angle
to the target direction, and the lowest such index. -/
theorem tri_nearest_vertex_spec (lib : Lib) (m : Trimesh) (curr_sample : CurveSample)
    (target_dir : vec3d) :
    Tri.nearest_vertex lib m curr_sample target_dir ∈ [0, 1, 2] ∧
    (∀ i ∈ [0, 1, 2],
      lib.angle_rad target_dir
          (Tri.uvw m curr_sample (Tri.nearest_vertex lib m curr_sample target_dir))
        ≤ lib.angle_rad target_dir (Tri.uvw m curr_sample i)) ∧
    (∀ i ∈ [0, 1, 2], i < Tri.nearest_vertex lib m curr_sample target_dir →
      lib.angle_rad target_dir
          (Tri.uvw m curr_sample (Tri.nearest_vertex lib m curr_sample target_dir))
        < lib.angle_rad target_dir (Tri.uvw m curr_sample i)) := by
  unfold Tri.nearest_vertex
  rcases set_begin_three (lib.angle_rad target_dir (Tri.uvw m curr_sample 0))
    (lib.angle_rad target_dir (Tri.uvw m curr_sample 1))
    (lib.angle_rad target_dir (Tri.uvw m curr_sample 2)) with
    ⟨h, h1, h2⟩ | ⟨h, h1, h2⟩ | ⟨h, h1, h2⟩
  · rw [h]
    refine ⟨by simp, ?_, ?_⟩
    · intro i hi
      fin_cases hi
      · exact le_refl _
      · exact h1
      · exact h2
    · intro i hi hlt
      fin_cases hi <;> simp at hlt
  · rw [h]
    refine ⟨by simp, ?_, ?_⟩
    · intro i hi
      fin_cases hi
      · exact le_of_lt h1
      · exact le_refl _
      · exact h2
    · intro i hi hlt
      fin_cases hi
      · exact h1
      · simp at hlt
      · simp at hlt
  · rw [h]
    refine ⟨by simp, ?_, ?_⟩
    · intro i hi
      fin_cases hi
      · exact le_of_lt h1
      · exact le_of_lt h2
      · exact le_refl _
    · intro i hi hlt
      fin_cases hi
      · exact h1
      · exact h2
      · simp at hlt

/-- C14: the surface `find_exit_gate` takes the local vertex `p` in 0, 1, 2 whose vector
from the sample position makes the least angle with the target direction `d`, the lowest
index winning a tie, and returns `(p+2) mod 3` when `dot(cross(d, vector to p), normal)` is
`>= 0` and `p` otherwise; the result is 0, 1 or 2. -/
theorem tri_find_exit_gate_spec (lib : Lib) (m : Trimesh) (curr_sample : CurveSample)
    (d : vec3d) :
    ∃ p ∈ [0, 1, 2],
      (∀ i ∈ [0, 1, 2],
        lib.angle_rad d ((m.triangle_vertex curr_sample.elem_id p).sub curr_sample.pos)
          ≤ lib.angle_rad d
              ((m.triangle_vertex curr_sample.elem_id i).sub curr_sample.pos)) ∧
      (∀ i ∈ [0, 1, 2], i < p →
        lib.angle_rad d ((m.triangle_vertex curr_sample.elem_id p).sub curr_sample.pos)
          < lib.angle_rad d
              ((m.triangle_vertex curr_sample.elem_id i).sub curr_sample.pos)) ∧
      Tri.find_exit_gate lib m curr_sample d =
        (if (d.cross ((m.triangle_vertex curr_sample.elem_id p).sub curr_sample.pos)).dot
            (m.triangle_normal curr_sample.elem_id) ≥ 0
         then (p + 2) % 3 else p) ∧
      Tri.find_exit_gate lib m curr_sample d ∈ [0, 1, 2] := by
  obtain ⟨hp, hmin, htie⟩ := tri_nearest_vertex_spec lib m curr_sample d
  refine ⟨Tri.nearest_vertex lib m curr_sample d, hp, hmin, htie, rfl, ?_⟩
  rw [tri_find_exit_gate_eq]
  generalize Tri.nearest_vertex lib m curr_sample d = p at hp
  fin_cases hp <;> split_ifs <;> decide

/-- C20: with the local edge table `TRI_EDGES = {{0,1},{1,2},{2,0}}`, the edge returned
by the surface `find_exit_gate` has the angle-nearest local vertex `p` as one of its two
endpoints; it is never the edge `(p+1) mod 3`, the one opposite to `p`, whose endpoints
both differ from `p`. -/
theorem tri_exit_edge_has_nearest_vertex (lib : Lib) (m : Trimesh)
    (curr_sample : CurveSample) (d : vec3d)
    (hE : ∀ e k, lib.TRI_EDGES e k = TRI_EDGES_std e k) :
    (lib.TRI_EDGES (Tri.find_exit_gate lib m curr_sample d) 0
        = Tri.nearest_vertex lib m curr_sample d ∨
      lib.TRI_EDGES (Tri.find_exit_gate lib m curr_sample d) 1
        = Tri.nearest_vertex lib m curr_sample d) ∧
    Tri.find_exit_gate lib m curr_sample d
      ≠ (Tri.nearest_vertex lib m curr_sample d + 1) % 3 ∧
    lib.TRI_EDGES ((Tri.nearest_vertex lib m curr_sample d + 1) % 3) 0
      ≠ Tri.nearest_vertex lib m curr_sample d ∧
    lib.TRI_EDGES ((Tri.nearest_vertex lib m curr_sample d + 1) % 3) 1
      ≠ Tri.nearest_vertex lib m curr_sample d := by
  obtain ⟨hp, _, _⟩ := tri_nearest_vertex_spec lib m curr_sample d
  rw [tri_find_exit_gate_eq]
  simp only [hE]
  generalize Tri.nearest_vertex lib m curr_sample d = p at hp
  fin_cases hp <;> split_ifs <;> decide

/-- C20, at the strip: from the origin in triangle 0 along `(3/5,4/5,0)` the nearest
vertex is the local vertex 2 and the edge returned is 1, with endpoints 1 and 2. -/
theorem tri_exit_edge_has_nearest_vertex_witness :
    (∀ e k, Example.lib.TRI_EDGES e k = TRI_EDGES_std e k) ∧
    Tri.nearest_vertex Example.lib (Example.strip (fun _ => false) (-1))
        ⟨⟨0, 0, 0⟩, 0, -1, 0⟩ ⟨3 / 5, 4 / 5, 0⟩ = 2 ∧
    Tri.find_exit_gate Example.lib (Example.strip (fun _ => false) (-1))
        ⟨⟨0, 0, 0⟩, 0, -1, 0⟩ ⟨3 / 5, 4 / 5, 0⟩ = 1 ∧
    (Example.lib.TRI_EDGES (Tri.find_exit_gate Example.lib
          (Example.strip (fun _ => false) (-1)) ⟨⟨0, 0, 0⟩, 0, -1, 0⟩ ⟨3 / 5, 4 / 5, 0⟩) 0
        = Tri.nearest_vertex Example.lib (Example.strip (fun _ => false) (-1))
            ⟨⟨0, 0, 0⟩, 0, -1, 0⟩ ⟨3 / 5, 4 / 5, 0⟩ ∨
      Example.lib.TRI_EDGES (Tri.find_exit_gate Example.lib
          (Example.strip (fun _ => false) (-1)) ⟨⟨0, 0, 0⟩, 0, -1, 0⟩ ⟨3 / 5, 4 / 5, 0⟩) 1
        = Tri.nearest_vertex Example.lib (Example.strip (fun _ => false) (-1))
            ⟨⟨0, 0, 0⟩, 0, -1, 0⟩ ⟨3 / 5, 4 / 5, 0⟩) :=
  have hE : ∀ e k, Example.lib.TRI_EDGES e k = TRI_EDGES_std e k := fun _ _ => rfl
  ⟨hE, by decide!, by decide!,
    (tri_exit_edge_has_nearest_vertex Example.lib (Example.strip (fun _ => false) (-1))
      ⟨⟨0, 0, 0⟩, 0, -1, 0⟩ ⟨3 / 5, 4 / 5, 0⟩ hE).1⟩

/-! ## C15: the volumetric `find_exit_gate` returns the farthest intersection -/

/-- One pass of the facet loop does not bring `exit_pos` closer to the sample, and leaves
it at least as far as the intersection point of the scanned facet. -/
theorem exit_step_bound (lib : Lib) (m : Tetmesh) (s : CurveSample) (d : vec3d)
    (st : Int × vec3d) (f : Int) :
    lib.length (st.2.sub s.pos) ≤ lib.length ((Tet.exit_step lib m s d st f).2.sub s.pos) ∧
    ∀ q, Tet.facet_intersection lib m s d f = some q →
      lib.length (q.sub s.pos) ≤ lib.length ((Tet.exit_step lib m s d st f).2.sub s.pos) := by
  cases h : Tet.facet_intersection lib m s d f with
  | none =>
    have hst : Tet.exit_step lib m s d st f = st := by simp [Tet.exit_step, h]
    rw [hst]
    exact ⟨le_refl _, fun q hq => absurd hq (by simp)⟩
  | some p =>
    by_cases hc : lib.length (p.sub s.pos) ≥ lib.length (st.2.sub s.pos)
    · have hst : Tet.exit_step lib m s d st f = (f, p) := by simp [Tet.exit_step, h, hc]
      rw [hst]
      refine ⟨hc, fun q hq => ?_⟩
      obtain rfl : p = q := by simpa using hq
      exact le_refl _
    · have hst : Tet.exit_step lib m s d st f = st := by simp [Tet.exit_step, h, hc]
      rw [hst]
      refine ⟨le_refl _, fun q hq => ?_⟩
      obtain rfl : p = q := by simpa using hq
      exact le_of_lt (not_le.1 hc)

/-- After the facet loop over `l`, `exit_pos` is at least as far from the sample as it was
and as the intersection point of every facet of `l`. -/
theorem exit_fold_bound (lib : Lib) (m : Tetmesh) (s : CurveSample) (d : vec3d)
    (l : List Int) (st : Int × vec3d) :
    lib.length (st.2.sub s.pos)
      ≤ lib.length ((l.foldl (Tet.exit_step lib m s d) st).2.sub s.pos) ∧
    ∀ f ∈ l, ∀ q, Tet.facet_intersection lib m s d f = some q →
      lib.length (q.sub s.pos)
        ≤ lib.length ((l.foldl (Tet.exit_step lib m s d) st).2.sub s.pos) := by
  induction l generalizing st with
  | nil => exact ⟨le_refl _, fun f hf => absurd hf (List.not_mem_nil f)⟩
  | cons x l ih =>
    rw [List.foldl_cons]
    obtain ⟨h1, h2⟩ := exit_step_bound lib m s d st x
    obtain ⟨h3, h4⟩ := ih (Tet.exit_step lib m s d st x)
    refine ⟨le_trans h1 h3, fun f hf q hq => ?_⟩
    rcases List.mem_cons.1 hf with rfl | hf
    · exact le_trans (h2 q hq) h3
    · exact h4 f hf q hq

/-- C15: when the volumetric `find_exit_gate` returns facet `g` and exit position `p`,
`p` is the intersection point reported for `g`, and it is at least as far from the sample
position as the intersection point of every facet 0, 1, 2, 3 that reports one. -/
theorem tet_find_exit_gate_farthest (lib : Lib) (m : Tetmesh) (s : CurveSample)
    (d : vec3d) (g : Int) (p : vec3d)
    (h : Tet.find_exit_gate lib m s d = .ok (g, p)) :
    Tet.facet_intersection lib m s d g = some p ∧
    ∀ f ∈ [0, 1, 2, 3], ∀ q, Tet.facet_intersection lib m s d f = some q →
      lib.length (q.sub s.pos) ≤ lib.length (p.sub s.pos) := by
  have hbound := (exit_fold_bound lib m s d [0, 1, 2, 3] (-1, s.pos)).2
  unfold Tet.find_exit_gate at h
  simp only at h
  split_ifs at h with hne
  simp only [Except.ok.injEq] at h
  rw [h] at hbound hne
  refine ⟨?_, hbound⟩
  rcases exit_fold_cases lib m s d [0, 1, 2, 3] (-1, s.pos) with h1 | ⟨f, _, q, hq, h1⟩
  · rw [h] at h1
    have : g = -1 := congrArg Prod.fst h1
    exact absurd this hne
  · rw [h] at h1
    obtain ⟨rfl, rfl⟩ : g = f ∧ p = q := by simpa using h1
    exact hq

/-- C15, at tetrahedron 1 of the two tetrahedra: from `(3,0,0)` along `(1,0,0)` facet 0
reports the start point itself and facet 2 the point `(15/4,0,0)`; facet 2 is returned. -/
theorem tet_find_exit_gate_farthest_witness :
    Tet.find_exit_gate Example.lib (Example.two_tets fun _ => false) ⟨⟨3, 0, 0⟩, 1, 3, -1⟩
        ⟨1, 0, 0⟩ = .ok (2, ⟨15 / 4, 0, 0⟩) ∧
    Tet.facet_intersection Example.lib (Example.two_tets fun _ => false)
        ⟨⟨3, 0, 0⟩, 1, 3, -1⟩ ⟨1, 0, 0⟩ 0 = some ⟨3, 0, 0⟩ ∧
    Tet.facet_intersection Example.lib (Example.two_tets fun _ => false)
        ⟨⟨3, 0, 0⟩, 1, 3, -1⟩ ⟨1, 0, 0⟩ 2 = some ⟨15 / 4, 0, 0⟩ ∧
    Example.lib.length ((⟨3, 0, 0⟩ : vec3d).sub ⟨3, 0, 0⟩)
      ≤ Example.lib.length ((⟨15 / 4, 0, 0⟩ : vec3d).sub ⟨3, 0, 0⟩) :=
  have hrun : Tet.find_exit_gate Example.lib (Example.two_tets fun _ => false)
      ⟨⟨3, 0, 0⟩, 1, 3, -1⟩ ⟨1, 0, 0⟩ = .ok (2, ⟨15 / 4, 0, 0⟩) := by decide!
  have h0 : Tet.facet_intersection Example.lib (Example.two_tets fun _ => false)
      ⟨⟨3, 0, 0⟩, 1, 3, -1⟩ ⟨1, 0, 0⟩ 0 = some ⟨3, 0, 0⟩ := by decide!
  ⟨hrun, h0,
    (tet_find_exit_gate_farthest Example.lib _ _ _ 2 ⟨15 / 4, 0, 0⟩ hrun).1,
    (tet_find_exit_gate_farthest Example.lib _ _ _ 2 ⟨15 / 4, 0, 0⟩ hrun).2 0 (by simp)
      _ h0⟩

/-! ## C16: the volumetric re-selection -/

/-- A probe of the volumetric re-selection loop aborts with the fault of `find_exit_gate`
when the probed tetrahedron differs from the candidate and from the current element and
`find_exit_gate` fails on it. -/
theorem tet_reselect_step_aborts (lib : Lib) (m : Tetmesh) (grad : VectorField)
    (curr next : CurveSample) (best_pos : vec3d) (init x : Int) (e : Fault)
    (hx : x ≠ next.elem_id ∧ x ≠ curr.elem_id)
    (hf : Tet.find_exit_gate lib m ⟨best_pos, x, -1, -1⟩ (lib.normalize (grad.vec_at x))
      = .error e) :
    Tet.reselect_step lib m grad curr next best_pos init x = .error e := by
  unfold Tet.reselect_step
  rw [if_pos hx]
  have hs : ({ CurveSample.fresh with elem_id := x, pos := best_pos } : CurveSample)
      = ⟨best_pos, x, -1, -1⟩ := rfl
  rw [hs]
  simp [hf, bind, Except.bind]

/-- C16, the code at a candidate without exit gate: in the fan of tetrahedra, with the
ray-triangle test that loses the hits at the corners of a facet, the step from the origin
in tetrahedron 0 leaves through facet 3 at `(3,0,0)`, the field of tetrahedron 1 points
back and the correction moves to vertex 1. Of the two remaining tetrahedra at vertex 1,
tetrahedron 2 has no intersecting facet and tetrahedron 3 has an exit gate. The step
aborts on the assertion of `find_exit_gate`, in either order of the incident list; it
returns the sample in tetrahedron 3 only when tetrahedron 2 is not in the list. -/
theorem tet_reselect_aborts_on_candidate_without_gate :
    Tet.find_exit_gate Example.lib_open (Example.fan [0, 1, 2, 3]) (Tet.seed Example.opt0)
        (target_dir Example.lib_open Example.fan_field (Tet.seed Example.opt0))
      = .ok (3, ⟨3, 0, 0⟩) ∧
    Tet.gradient_skins_into Example.lib_open (Example.fan [0, 1, 2, 3]) Example.fan_field
        (Tet.seed Example.opt0)
        (Tet.raw_next (Example.fan [0, 1, 2, 3]) (Tet.seed Example.opt0) 3 ⟨3, 0, 0⟩)
      = .ok true ∧
    Tet.skins_vertex Example.lib_open (Example.fan [0, 1, 2, 3]) Example.fan_field
        (Tet.seed Example.opt0)
        (Tet.raw_next (Example.fan [0, 1, 2, 3]) (Tet.seed Example.opt0) 3 ⟨3, 0, 0⟩) = 1 ∧
    (∀ f ∈ [0, 1, 2, 3],
      Tet.facet_intersection Example.lib_open (Example.fan [0, 1, 2, 3])
        ⟨⟨3, 4, 3⟩, 2, -1, -1⟩ (Example.lib_open.normalize (Example.fan_field.vec_at 2)) f
        = none) ∧
    Tet.find_exit_gate Example.lib_open (Example.fan [0, 1, 2, 3]) ⟨⟨3, 4, 3⟩, 3, -1, -1⟩
        (Example.lib_open.normalize (Example.fan_field.vec_at 3)) = .ok (3, ⟨3, 8, 3⟩) ∧
    Tet.traverse_element Example.lib_open (Example.fan [0, 1, 2, 3]) Example.fan_field
        (Tet.seed Example.opt0) = .error Fault.no_exit_gate ∧
    Tet.traverse_element Example.lib_open (Example.fan [0, 1, 3, 2]) Example.fan_field
        (Tet.seed Example.opt0) = .error Fault.no_exit_gate ∧
    Tet.traverse_element Example.lib_open (Example.fan [0, 1, 3]) Example.fan_field
        (Tet.seed Example.opt0) = .ok ⟨⟨3, 4, 3⟩, 3, -1, 1⟩ := by
  refine ⟨?_, ?_, ?_, ?_, ?_, ?_, ?_, ?_⟩ <;> decide!

/-! ## C19: the law-of-sines exit point, over the reals -/

/-- Law of sines in the triangle `V0`, `A`, `X` with `X - V0 = t d`, `X - A = s e` and
`u = A - V0`: the sines of the angles at `V0` and at `X`, scaled by the sides. -/
theorem gram_of_ray_hit {V : Type} [NormedAddCommGroup V] [InnerProductSpace ℝ V]
    (u d e : V) (t s : ℝ) (hu : u = t • d - s • e) (hs : 0 ≤ s) :
    Real.sin (InnerProductGeometry.angle u d) * (‖u‖ * ‖d‖) = s * (Real.sin (InnerProductGeometry.angle d e) * (‖d‖ * ‖e‖)) := by
  rw [InnerProductGeometry.sin_angle_mul_norm_mul_norm, InnerProductGeometry.sin_angle_mul_norm_mul_norm]
  have hG : inner u u * inner d d - inner u d * inner u d
      = s ^ 2 * (inner d d * inner e e - inner d e * inner d e : ℝ) := by
    rw [hu]
    simp only [inner_sub_left, inner_sub_right, real_inner_smul_left, real_inner_smul_right,
      real_inner_comm e d]
    ring
  rw [hG, Real.sqrt_mul (sq_nonneg s), Real.sqrt_sq hs]

/-- The sine of the angle between two vectors of which the second is no multiple of the
first does not vanish. -/
theorem sin_angle_ne_zero_of_not_parallel {V : Type} [NormedAddCommGroup V]
    [InnerProductSpace ℝ V] (d e : V) (hpar : ∀ r : ℝ, e ≠ r • d) :
    Real.sin (InnerProductGeometry.angle d e) ≠ 0 := by
  intro h
  rcases InnerProductGeometry.sin_eq_zero_iff_angle_eq_zero_or_angle_eq_pi.1 h with h0 | h0
  · obtain ⟨_, r, _, hr⟩ := InnerProductGeometry.angle_eq_zero_iff.1 h0
    exact hpar r hr
  · obtain ⟨_, r, _, hr⟩ := InnerProductGeometry.angle_eq_pi_iff.1 h0
    exact hpar r hr

/-- C19: in exact real arithmetic, for a sample position `V0` different from `A`, a unit
target direction `d` not parallel to the exit edge `(A,B)` (as is the case for `V0` inside
the triangle, off the line of the edge), and a point `X = V0 + t d` of the line of `d`
through `V0` that lies on the edge side of `A`, `X = A + s (B - A)` with `s >= 0`: the
law-of-sines position `A + e0_len * normalize(B - A)` of `traverse_element` is `X`, and
the segment from `V0` to it is `t d`, parallel to `d`. -/
theorem exit_point_is_ray_hit (A B V0 d X : rvec3) (t s : ℝ)
    (hd : ‖d‖ = 1) (hV0 : V0 ≠ A) (hpar : ∀ r : ℝ, B - A ≠ r • d)
    (hray : X = V0 + t • d) (hedge : X = A + s • (B - A)) (hs : 0 ≤ s) :
    Exact.next_pos A B V0 d = X ∧ Exact.next_pos A B V0 d - V0 = t • d := by
  have he : B - A ≠ 0 := by simpa using hpar 0
  have hu : A - V0 ≠ 0 := sub_ne_zero.2 (Ne.symm hV0)
  have hen : 0 < ‖B - A‖ := norm_pos_iff.2 he
  have hun : 0 < ‖A - V0‖ := norm_pos_iff.2 hu
  have hrel : A - V0 = t • d - s • (B - A) := by
    have : V0 + t • d = A + s • (B - A) := hray.symm.trans hedge
    have h2 : t • d = A + s • (B - A) - V0 := eq_sub_of_add_eq' this
    rw [h2]
    abel
  have hsin := sin_angle_ne_zero_of_not_parallel d (B - A) hpar
  have hlaw := gram_of_ray_hit (A - V0) d (B - A) t s hrel hs
  rw [hd, mul_one, one_mul] at hlaw
  have hnext : Exact.next_pos A B V0 d = X := by
    unfold Exact.next_pos Exact.normalize Exact.angle_rad Exact.length
      Exact.triangle_law_of_sines
    simp only [neg_neg]
    rw [InnerProductGeometry.angle_smul_left_of_pos _ _ (inv_pos.2 hun), InnerProductGeometry.angle_neg_neg,
      InnerProductGeometry.angle_smul_right_of_pos _ _ (inv_pos.2 hen), hedge, smul_smul]
    congr 2
    field_simp
    linarith [hlaw]
  exact ⟨hnext, by rw [hnext, hray]; simp⟩


/-- The coordinates of `pt x y z`. -/
theorem pt_apply (x y z : ℝ) :
    Exact.pt x y z 0 = x ∧ Exact.pt x y z 1 = y ∧ Exact.pt x y z 2 = z := ⟨rfl, rfl, rfl⟩

/-- C19, in the triangle `(0,0)`, `(3,0)`, `(0,4)`: from `(3/4,1)` along `(3/5,4/5)` the
ray meets the edge from `A = (3,0)` to `B = (0,4)` at its midpoint `(3/2,2)`, with
`t = 5/4` and `s = 1/2`. -/
theorem exit_point_is_ray_hit_witness :
    Exact.next_pos (Exact.pt 3 0 0) (Exact.pt 0 4 0) (Exact.pt (3 / 4) 1 0)
        (Exact.pt (3 / 5) (4 / 5) 0)
      = Exact.pt (3 / 2) 2 0 ∧
    Exact.next_pos (Exact.pt 3 0 0) (Exact.pt 0 4 0) (Exact.pt (3 / 4) 1 0)
        (Exact.pt (3 / 5) (4 / 5) 0) - Exact.pt (3 / 4) 1 0
      = (5 / 4 : ℝ) • Exact.pt (3 / 5) (4 / 5) 0 :=
  have hd : ‖Exact.pt (3 / 5) (4 / 5) 0‖ = 1 := by
    rw [EuclideanSpace.norm_eq, Fin.sum_univ_three]
    simp only [(pt_apply _ _ _).1, (pt_apply _ _ _).2.1, (pt_apply _ _ _).2.2]
    norm_num
  have hV0 : Exact.pt (3 / 4) 1 0 ≠ Exact.pt 3 0 0 := by
    intro h
    have h1 := congrFun h 1
    simp only [(pt_apply _ _ _).2.1] at h1
    norm_num at h1
  have hpar : ∀ r : ℝ, Exact.pt 0 4 0 - Exact.pt 3 0 0 ≠ r • Exact.pt (3 / 5) (4 / 5) 0 := by
    intro r h
    have h0 := congrFun h 0
    have h1 := congrFun h 1
    simp only [PiLp.sub_apply, PiLp.smul_apply, (pt_apply _ _ _).1, (pt_apply _ _ _).2.1,
      smul_eq_mul] at h0 h1
    linarith
  have hray : Exact.pt (3 / 2) 2 0
      = Exact.pt (3 / 4) 1 0 + (5 / 4 : ℝ) • Exact.pt (3 / 5) (4 / 5) 0 := by
    ext i
    fin_cases i <;>
      simp [PiLp.add_apply, PiLp.smul_apply, (pt_apply _ _ _).1, (pt_apply _ _ _).2.1,
        (pt_apply _ _ _).2.2] <;> norm_num
  have hedge : Exact.pt (3 / 2) 2 0
      = Exact.pt 3 0 0 + (1 / 2 : ℝ) • (Exact.pt 0 4 0 - Exact.pt 3 0 0) := by
    ext i
    fin_cases i <;>
      simp [PiLp.add_apply, PiLp.smul_apply, PiLp.sub_apply, (pt_apply _ _ _).1,
        (pt_apply _ _ _).2.1, (pt_apply _ _ _).2.2] <;> norm_num
  exit_point_is_ray_hit _ _ _ _ _ (5 / 4) (1 / 2) hd hV0 hpar hray hedge (by norm_num)

/-! ## C21: the tie-break of the volumetric `find_exit_gate` -/

/-- After the facet loop over an increasing list `l`, every facet of `l` whose intersection
point is at least as far from the sample as the final `exit_pos` has an index not above
the final `exit_facet`. -/
theorem exit_fold_last (lib : Lib) (m : Tetmesh) (s : CurveSample) (d : vec3d)
    (l : List Int) (hl : l.Pairwise (· < ·)) (st : Int × vec3d) :
    ∀ f ∈ l, ∀ q, Tet.facet_intersection lib m s d f = some q →
      lib.length (q.sub s.pos)
        ≥ lib.length ((l.foldl (Tet.exit_step lib m s d) st).2.sub s.pos) →
      f ≤ (l.foldl (Tet.exit_step lib m s d) st).1 := by
  induction l generalizing st with
  | nil => exact fun f hf => absurd hf (List.not_mem_nil f)
  | cons x l ih =>
    rw [List.pairwise_cons] at hl
    intro f hf q hq hge
    rw [List.foldl_cons] at hge ⊢
    rcases List.mem_cons.1 hf with rfl | hf
    · rcases exit_fold_cases lib m s d l (Tet.exit_step lib m s d st f) with h | ⟨g, hg, p, _, h⟩
      · rw [h] at hge ⊢
        by_cases hc : lib.length (q.sub s.pos) ≥ lib.length (st.2.sub s.pos)
        · have hst : Tet.exit_step lib m s d st f = (f, q) := by
            simp [Tet.exit_step, hq, hc]
          rw [hst]
        · have hst : Tet.exit_step lib m s d st f = st := by
            simp [Tet.exit_step, hq, hc]
          rw [hst] at hge
          exact absurd hge hc
      · rw [h]
        exact le_of_lt (hl.1 g hg)
    · exact ih hl.2 (Tet.exit_step lib m s d st x) f hf q hq hge

/-- C21: provided `length` is non-negative and zero on the zero vector, when facet `f` of
0, 1, 2, 3 reports an intersection point `q` that no reported point exceeds in distance
from the sample position, the volumetric `find_exit_gate` returns a facet `g` of
0, 1, 2, 3 whose reported point `p` is the exit position, lies at that same maximal
distance, and whose index is not below `f`: of the facets tied at the maximal distance the
one with the highest index is returned. In the loop body, a facet whose point is exactly as
far as the current `exit_pos` replaces it. -/
theorem tet_find_exit_gate_tie_break (lib : Lib) (m : Tetmesh) (s : CurveSample)
    (d : vec3d) (h0 : lib.length vec3d.zero = 0) (hnn : ∀ v, 0 ≤ lib.length v)
    (f : Int) (q : vec3d) (hf : f ∈ [0, 1, 2, 3])
    (hq : Tet.facet_intersection lib m s d f = some q)
    (hmax : ∀ f2 ∈ [0, 1, 2, 3], ∀ q2, Tet.facet_intersection lib m s d f2 = some q2 →
      lib.length (q2.sub s.pos) ≤ lib.length (q.sub s.pos)) :
    (∃ g p, Tet.find_exit_gate lib m s d = .ok (g, p) ∧ g ∈ [0, 1, 2, 3] ∧
      Tet.facet_intersection lib m s d g = some p ∧
      lib.length (p.sub s.pos) = lib.length (q.sub s.pos) ∧ f ≤ g) ∧
    (∀ st : Int × vec3d, lib.length (q.sub s.pos) = lib.length (st.2.sub s.pos) →
      Tet.exit_step lib m s d st f = (f, q)) := by
  refine ⟨?_, ?_⟩
  · obtain ⟨g, hg, p, hp, h⟩ :=
      exit_fold_found lib m s d h0 hnn [0, 1, 2, 3] ⟨f, hf, by simp [hq]⟩
    have hne : g ≠ -1 := by fin_cases hg <;> decide
    have hbound := (exit_fold_bound lib m s d [0, 1, 2, 3] (-1, s.pos)).2 f hf q hq
    have hlast := exit_fold_last lib m s d [0, 1, 2, 3] (by decide) (-1, s.pos) f hf q hq
    rw [h] at hbound hlast
    have hle := hmax g hg p hp
    refine ⟨g, p, ?_, hg, hp, le_antisymm hle hbound, hlast hle⟩
    simp only [Tet.find_exit_gate, h]
    rw [if_pos hne]
  · intro st hst
    simp [Tet.exit_step, hq, hst]

/-- C21, at tetrahedron 0 of the two tetrahedra: from `(3/2,1/5,1/10)` along
`(0,4/5,-3/5)` the ray leaves through the point `(3/2,1,-1/2)` of the edge `(0,2)`, which
facet 0 and facet 2 both report at distance 1, and facets 1 and 3 report nothing; facet 2
is returned. -/
theorem tet_find_exit_gate_tie_break_witness :
    Example.lib.length vec3d.zero = 0 ∧ (∀ v, 0 ≤ Example.lib.length v) ∧
    (0 : Int) ∈ [0, 1, 2, 3] ∧
    (∀ f2 ∈ ([0, 1, 2, 3] : List Int), ∀ q2,
      Tet.facet_intersection Example.lib (Example.two_tets fun _ => false)
        ⟨⟨3 / 2, 1 / 5, 1 / 10⟩, 0, -1, -1⟩ ⟨0, 4 / 5, -3 / 5⟩ f2 = some q2 →
      Example.lib.length (q2.sub ⟨3 / 2, 1 / 5, 1 / 10⟩)
        ≤ Example.lib.length ((⟨3 / 2, 1, -1 / 2⟩ : vec3d).sub ⟨3 / 2, 1 / 5, 1 / 10⟩)) ∧
    Tet.facet_intersection Example.lib (Example.two_tets fun _ => false)
        ⟨⟨3 / 2, 1 / 5, 1 / 10⟩, 0, -1, -1⟩ ⟨0, 4 / 5, -3 / 5⟩ 0 = some ⟨3 / 2, 1, -1 / 2⟩ ∧
    Tet.facet_intersection Example.lib (Example.two_tets fun _ => false)
        ⟨⟨3 / 2, 1 / 5, 1 / 10⟩, 0, -1, -1⟩ ⟨0, 4 / 5, -3 / 5⟩ 2 = some ⟨3 / 2, 1, -1 / 2⟩ ∧
    Tet.find_exit_gate Example.lib (Example.two_tets fun _ => false)
        ⟨⟨3 / 2, 1 / 5, 1 / 10⟩, 0, -1, -1⟩ ⟨0, 4 / 5, -3 / 5⟩
      = .ok (2, ⟨3 / 2, 1, -1 / 2⟩) ∧
    (∃ g p, Tet.find_exit_gate Example.lib (Example.two_tets fun _ => false)
        ⟨⟨3 / 2, 1 / 5, 1 / 10⟩, 0, -1, -1⟩ ⟨0, 4 / 5, -3 / 5⟩ = .ok (g, p) ∧
      g ∈ [0, 1, 2, 3] ∧
      Tet.facet_intersection Example.lib (Example.two_tets fun _ => false)
        ⟨⟨3 / 2, 1 / 5, 1 / 10⟩, 0, -1, -1⟩ ⟨0, 4 / 5, -3 / 5⟩ g = some p ∧
      Example.lib.length (p.sub ⟨3 / 2, 1 / 5, 1 / 10⟩)
        = Example.lib.length ((⟨3 / 2, 1, -1 / 2⟩ : vec3d).sub ⟨3 / 2, 1 / 5, 1 / 10⟩) ∧
      0 ≤ g) :=
  have hit0 : Tet.facet_intersection Example.lib (Example.two_tets fun _ => false)
      ⟨⟨3 / 2, 1 / 5, 1 / 10⟩, 0, -1, -1⟩ ⟨0, 4 / 5, -3 / 5⟩ 0
        = some ⟨3 / 2, 1, -1 / 2⟩ := by decide!
  have hit1 : Tet.facet_intersection Example.lib (Example.two_tets fun _ => false)
      ⟨⟨3 / 2, 1 / 5, 1 / 10⟩, 0, -1, -1⟩ ⟨0, 4 / 5, -3 / 5⟩ 1 = none := by decide!
  have hit2 : Tet.facet_intersection Example.lib (Example.two_tets fun _ => false)
      ⟨⟨3 / 2, 1 / 5, 1 / 10⟩, 0, -1, -1⟩ ⟨0, 4 / 5, -3 / 5⟩ 2
        = some ⟨3 / 2, 1, -1 / 2⟩ := by decide!
  have hit3 : Tet.facet_intersection Example.lib (Example.two_tets fun _ => false)
      ⟨⟨3 / 2, 1 / 5, 1 / 10⟩, 0, -1, -1⟩ ⟨0, 4 / 5, -3 / 5⟩ 3 = none := by decide!
  have hmax : ∀ f2 ∈ ([0, 1, 2, 3] : List Int), ∀ q2,
      Tet.facet_intersection Example.lib (Example.two_tets fun _ => false)
        ⟨⟨3 / 2, 1 / 5, 1 / 10⟩, 0, -1, -1⟩ ⟨0, 4 / 5, -3 / 5⟩ f2 = some q2 →
      Example.lib.length (q2.sub ⟨3 / 2, 1 / 5, 1 / 10⟩)
        ≤ Example.lib.length ((⟨3 / 2, 1, -1 / 2⟩ : vec3d).sub ⟨3 / 2, 1 / 5, 1 / 10⟩) := by
    intro f2 hf2 q2 hq2
    simp only [List.mem_cons, List.mem_singleton, List.not_mem_nil, or_false] at hf2
    rcases hf2 with rfl | rfl | rfl | rfl
    · rw [hit0] at hq2
      obtain rfl : (⟨3 / 2, 1, -1 / 2⟩ : vec3d) = q2 := by simpa using hq2
      exact le_refl _
    · rw [hit1] at hq2; exact absurd hq2 (by simp)
    · rw [hit2] at hq2
      obtain rfl : (⟨3 / 2, 1, -1 / 2⟩ : vec3d) = q2 := by simpa using hq2
      exact le_refl _
    · rw [hit3] at hq2; exact absurd hq2 (by simp)
  ⟨example_length_zero, example_length_nonneg, by decide, hmax, hit0, hit2, by decide!,
    (tet_find_exit_gate_tie_break Example.lib (Example.two_tets fun _ => false)
      ⟨⟨3 / 2, 1 / 5, 1 / 10⟩, 0, -1, -1⟩ ⟨0, 4 / 5, -3 / 5⟩ example_length_zero
      example_length_nonneg 0 ⟨3 / 2, 1, -1 / 2⟩ (by decide) hit0 hmax).1⟩

/-! ## C22: the order of the surface re-selection -/

/-- The surface re-selection loop ends on the last entry of the list that differs from both
`n` and `c`, and keeps its start value when there is none. -/
theorem tri_reselect_last (n c : Int) (l : List Int) (init : Int) :
    l.foldl (fun e tid => if tid ≠ n ∧ tid ≠ c then tid else e) init =
      ((l.filter fun tid => decide (tid ≠ n ∧ tid ≠ c)).getLast?).getD init := by
  induction l generalizing init with
  | nil => rfl
  | cons x l ih =>
    rw [List.foldl_cons, ih]
    by_cases hx : x ≠ n ∧ x ≠ c
    · rw [if_pos hx, List.filter_cons_of_pos (by simpa using hx), List.getLast?_cons]
      rfl
    · rw [if_neg hx, List.filter_cons_of_neg (by simpa using hx)]

/-- When the list has an entry that differs from both `n` and `c`, the surface re-selection
loop ends on an entry after which every entry is `n` or `c`. -/
theorem tri_reselect_split (n c : Int) (l : List Int)
    (h : ∃ tid ∈ l, tid ≠ n ∧ tid ≠ c) (init : Int) :
    ∃ pre post,
      l = pre ++ l.foldl (fun e tid => if tid ≠ n ∧ tid ≠ c then tid else e) init :: post ∧
      ∀ tid ∈ post, tid = n ∨ tid = c := by
  induction l generalizing init with
  | nil => obtain ⟨tid, ht, _⟩ := h; exact absurd ht (List.not_mem_nil tid)
  | cons x l ih =>
    rw [List.foldl_cons]
    by_cases hl : ∃ tid ∈ l, tid ≠ n ∧ tid ≠ c
    · obtain ⟨pre, post, h1, h2⟩ := ih hl (if x ≠ n ∧ x ≠ c then x else init)
      exact ⟨x :: pre, post, by rw [List.cons_append, ← h1], h2⟩
    · have hx : x ≠ n ∧ x ≠ c := by
        obtain ⟨tid, ht, hc⟩ := h
        rcases List.mem_cons.1 ht with rfl | ht
        · exact hc
        · exact absurd ⟨tid, ht, hc⟩ hl
      have hnone : ∀ tid ∈ l, tid = c ∨ tid = n := by
        intro tid ht
        by_contra hcon
        exact hl ⟨tid, ht, fun hn => hcon (Or.inr hn), fun hc => hcon (Or.inl hc)⟩
      rw [tri_reselect_none n c l _ hnone, if_pos hx]
      exact ⟨[], l, rfl, fun tid ht => (hnone tid ht).symm⟩

/-- C22: when `gradient_skins_into` fires in the surface `traverse_element` for the current
element `c` and the candidate `n`, the incident-triangle list of the chosen vertex holds no
`-1` and has an entry different from `c` and `n`, the step returns a sample whose element
is the last entry of that list different from both: it is the last element of the list
filtered to such entries, and every entry after it in the list is `c` or `n`. -/
theorem tri_reselect_takes_last (lib : Lib) (m : Trimesh) (grad : VectorField)
    (curr_sample : CurveSample)
    (hfire : Tri.gradient_skins_into lib m grad curr_sample
      (Tri.raw_next lib m grad curr_sample) = true)
    (hwf : ∀ tid ∈ m.adj_vtx2tri (Tri.skins_vertex lib m grad curr_sample), tid ≠ -1)
    (hex : ∃ tid ∈ m.adj_vtx2tri (Tri.skins_vertex lib m grad curr_sample),
      tid ≠ Tri.next_tid lib m grad curr_sample ∧ tid ≠ curr_sample.elem_id) :
    ∃ s, Tri.traverse_element lib m grad curr_sample = .ok s ∧
      ((m.adj_vtx2tri (Tri.skins_vertex lib m grad curr_sample)).filter fun tid =>
        decide (tid ≠ Tri.next_tid lib m grad curr_sample ∧ tid ≠ curr_sample.elem_id)).getLast?
        = some s.elem_id ∧
      ∃ pre post,
        m.adj_vtx2tri (Tri.skins_vertex lib m grad curr_sample) = pre ++ s.elem_id :: post ∧
        s.elem_id ≠ Tri.next_tid lib m grad curr_sample ∧
        s.elem_id ≠ curr_sample.elem_id ∧
        ∀ tid ∈ post, tid = Tri.next_tid lib m grad curr_sample ∨ tid = curr_sample.elem_id := by
  have hfound := tri_reselect_found (Tri.next_tid lib m grad curr_sample)
    curr_sample.elem_id (m.adj_vtx2tri (Tri.skins_vertex lib m grad curr_sample)) hex (-1)
  have hlast := tri_reselect_last (Tri.next_tid lib m grad curr_sample)
    curr_sample.elem_id (m.adj_vtx2tri (Tri.skins_vertex lib m grad curr_sample)) (-1)
  obtain ⟨pre, post, hsplit, hpost⟩ := tri_reselect_split (Tri.next_tid lib m grad curr_sample)
    curr_sample.elem_id (m.adj_vtx2tri (Tri.skins_vertex lib m grad curr_sample)) hex (-1)
  have hne : ((m.adj_vtx2tri (Tri.skins_vertex lib m grad curr_sample)).filter fun tid =>
      decide (tid ≠ Tri.next_tid lib m grad curr_sample ∧ tid ≠ curr_sample.elem_id)) ≠ [] := by
    obtain ⟨tid, ht, hc⟩ := hex
    exact List.ne_nil_of_mem (List.mem_filter.2 ⟨ht, by simpa using hc⟩)
  rw [tri_traverse_element_eq, if_pos hfire]
  unfold Tri.reselect
  rw [if_pos (hwf _ hfound.1)]
  refine ⟨_, rfl, ?_, pre, post, hsplit, hfound.2.1, hfound.2.2, hpost⟩
  show _ = some (List.foldl _ (-1) _)
  rw [hlast]
  cases hg : ((m.adj_vtx2tri (Tri.skins_vertex lib m grad curr_sample)).filter fun tid =>
      decide (tid ≠ Tri.next_tid lib m grad curr_sample ∧ tid ≠ curr_sample.elem_id)).getLast? with
  | none => exact absurd (List.getLast?_eq_none_iff.1 hg) hne
  | some a => rfl

/-- C22, at the crest: from the origin in triangle 0 the correction moves to vertex 2, whose
incident triangles other than 0 and 1 are 2 and 3; listed as `[0,1,2,3]` the step goes on
in triangle 3, listed as `[0,1,3,2]` in triangle 2: the last of them in list order, while
the first is the other one. -/
theorem tri_reselect_takes_last_witness :
    Tri.gradient_skins_into Example.lib (Example.crest [0, 1, 2, 3]) Example.field_back
        (Tri.seed Example.opt0)
        (Tri.raw_next Example.lib (Example.crest [0, 1, 2, 3]) Example.field_back
          (Tri.seed Example.opt0)) = true ∧
    (∀ tid ∈ (Example.crest [0, 1, 2, 3]).adj_vtx2tri
        (Tri.skins_vertex Example.lib (Example.crest [0, 1, 2, 3]) Example.field_back
          (Tri.seed Example.opt0)), tid ≠ -1) ∧
    (∃ tid ∈ (Example.crest [0, 1, 2, 3]).adj_vtx2tri
        (Tri.skins_vertex Example.lib (Example.crest [0, 1, 2, 3]) Example.field_back
          (Tri.seed Example.opt0)),
      tid ≠ Tri.next_tid Example.lib (Example.crest [0, 1, 2, 3]) Example.field_back
        (Tri.seed Example.opt0) ∧ tid ≠ (Tri.seed Example.opt0).elem_id) ∧
    Tri.traverse_element Example.lib (Example.crest [0, 1, 2, 3]) Example.field_back
        (Tri.seed Example.opt0) = .ok ⟨⟨0, 4, 0⟩, 3, -1, 2⟩ ∧
    Tri.traverse_element Example.lib (Example.crest [0, 1, 3, 2]) Example.field_back
        (Tri.seed Example.opt0) = .ok ⟨⟨0, 4, 0⟩, 2, -1, 2⟩ ∧
    (([0, 1, 2, 3] : List Int).filter fun tid => decide (tid ≠ 1 ∧ tid ≠ 0)).head? = some 2 ∧
    ∃ s, Tri.traverse_element Example.lib (Example.crest [0, 1, 2, 3]) Example.field_back
        (Tri.seed Example.opt0) = .ok s ∧
      (((Example.crest [0, 1, 2, 3]).adj_vtx2tri
          (Tri.skins_vertex Example.lib (Example.crest [0, 1, 2, 3]) Example.field_back
            (Tri.seed Example.opt0))).filter fun tid =>
        decide (tid ≠ Tri.next_tid Example.lib (Example.crest [0, 1, 2, 3])
            Example.field_back (Tri.seed Example.opt0) ∧
          tid ≠ (Tri.seed Example.opt0).elem_id)).getLast? = some s.elem_id ∧
      ∃ pre post,
        (Example.crest [0, 1, 2, 3]).adj_vtx2tri
          (Tri.skins_vertex Example.lib (Example.crest [0, 1, 2, 3]) Example.field_back
            (Tri.seed Example.opt0)) = pre ++ s.elem_id :: post ∧
        s.elem_id ≠ Tri.next_tid Example.lib (Example.crest [0, 1, 2, 3])
            Example.field_back (Tri.seed Example.opt0) ∧
        s.elem_id ≠ (Tri.seed Example.opt0).elem_id ∧
        ∀ tid ∈ post, tid = Tri.next_tid Example.lib (Example.crest [0, 1, 2, 3])
            Example.field_back (Tri.seed Example.opt0) ∨
          tid = (Tri.seed Example.opt0).elem_id :=
  have hfire : Tri.gradient_skins_into Example.lib (Example.crest [0, 1, 2, 3])
      Example.field_back (Tri.seed Example.opt0)
      (Tri.raw_next Example.lib (Example.crest [0, 1, 2, 3]) Example.field_back
        (Tri.seed Example.opt0)) = true := by decide!
  have hv : Tri.skins_vertex Example.lib (Example.crest [0, 1, 2, 3]) Example.field_back
      (Tri.seed Example.opt0) = 2 := by decide!
  have hn : Tri.next_tid Example.lib (Example.crest [0, 1, 2, 3]) Example.field_back
      (Tri.seed Example.opt0) = 1 := by decide!
  have hwf : ∀ tid ∈ (Example.crest [0, 1, 2, 3]).adj_vtx2tri
      (Tri.skins_vertex Example.lib (Example.crest [0, 1, 2, 3]) Example.field_back
        (Tri.seed Example.opt0)), tid ≠ -1 := by
    rw [hv]
    decide
  have hex : ∃ tid ∈ (Example.crest [0, 1, 2, 3]).adj_vtx2tri
      (Tri.skins_vertex Example.lib (Example.crest [0, 1, 2, 3]) Example.field_back
        (Tri.seed Example.opt0)),
      tid ≠ Tri.next_tid Example.lib (Example.crest [0, 1, 2, 3]) Example.field_back
        (Tri.seed Example.opt0) ∧ tid ≠ (Tri.seed Example.opt0).elem_id := by
    rw [hv, hn]
    exact ⟨2, by decide, by decide, by decide⟩
  ⟨hfire, hwf, hex, by decide!, by decide!, by decide,
    tri_reselect_takes_last Example.lib (Example.crest [0, 1, 2, 3]) Example.field_back
      (Tri.seed Example.opt0) hfire hwf hex⟩

end cinolib
